import Mathlib

/-!
# geaves: schema registry and relationship loader

A shallow embedding of the Go package `geaves` (files `attribute.go`, `entity.go`,
`entity_attribute.go`) and of the command-line front end that calls it
(`geaves-cli/attribute.go`), followed by theorems about the embedded functions.

Conventions of the embedding:

* a Go slice is a `List`; the nil slice and the empty slice are both `[]`;
* `int64` is an `Int` (range checks are made where the code converts text to a number);
* a `(T, error)` result is a pair `T × Option Error`, `none` being the nil error;
* the storage session `q.db` is a `Driver`: a state machine answering one statement at a time;
  a `Session` pairs its state with the list of statements issued so far;
* a run-time panic (nil dereference) and `os.Exit` are explicit outcomes.
-/

namespace Geaves

/-! ## Attribute types (`attribute.go`) -/

/-- The Go type `AttributeType`, a string kind. -/
abbrev AttributeType := String

def BoolType : AttributeType := "bool"
def StringType : AttributeType := "string"
def IntType : AttributeType := "int"
def Int8Type : AttributeType := "int8"
def Int16Type : AttributeType := "int16"
def Int32Type : AttributeType := "int32"
def Int64Type : AttributeType := "int64"
def UintType : AttributeType := "uint"
def Uint8Type : AttributeType := "uint8"
def Uint16Type : AttributeType := "uint16"
def Uint32Type : AttributeType := "uint32"
def Uint64Type : AttributeType := "uint64"
def ByteType : AttributeType := "byte"
def RuneType : AttributeType := "rune"
def Float32Type : AttributeType := "float32"
def Float64Type : AttributeType := "float64"
def BlobType : AttributeType := "blob"
def DateType : AttributeType := "date"
def TimeType : AttributeType := "time"
def DatetimeType : AttributeType := "datetime"

/-- The function `ValidAttributeType` of `attribute.go`: a chain of twenty comparisons. -/
def ValidAttributeType (t : String) : Bool :=
  let v : AttributeType := t
  BoolType == v ||
    StringType == v ||
    IntType == v ||
    Int8Type == v ||
    Int16Type == v ||
    Int32Type == v ||
    Int64Type == v ||
    UintType == v ||
    Uint8Type == v ||
    Uint16Type == v ||
    Uint32Type == v ||
    Uint64Type == v ||
    ByteType == v ||
    RuneType == v ||
    Float32Type == v ||
    Float64Type == v ||
    BlobType == v ||
    DateType == v ||
    TimeType == v ||
    DatetimeType == v

/-- The twenty tags of the vocabulary, as the specification lists them. -/
def vocabulary : List String :=
  ["bool", "string", "int", "int8", "int16", "int32", "int64", "uint", "uint8", "uint16",
   "uint32", "uint64", "byte", "rune", "float32", "float64", "blob", "date", "time", "datetime"]

/-! ## The storage session (`database/sql`, reached through `q.db`) -/

/-- Error values. `sqlErrNoRows` is `sql.ErrNoRows`; `storage` is a failure reported by the
store; `scan` is a failure of `Scan` to convert a column; `new` is an error built by
`errors.New` or by `fmt.Errorf` without `%w`; `decode` is an error of the JSON decoder;
`parse` is an error of `strconv` or of `time.Parse`; `wrapped` is
`fmt.Errorf("...: %w", err)`. -/
inductive Error
  | sqlErrNoRows
  | storage (msg : String)
  | scan (msg : String)
  | new (msg : String)
  | decode (msg : String)
  | parse (msg : String)
  | wrapped (msg : String) (inner : Error)
  deriving DecidableEq, Repr


/-! ### Calendar times (`time.Time`, `time.Parse`, `Time.String`) -/

/-- A `time.Time` by its wall clock and its zone: the calendar fields, the offset of the zone
east of UTC in seconds and the abbreviation of the zone (`UTC` for UTC). Years before year 0
are not modelled. -/
structure GoTime where
  year : Nat
  month : Nat
  day : Nat
  hour : Nat
  minute : Nat
  second : Nat
  nanosecond : Nat
  offset : Int
  zone : String
  deriving DecidableEq, Repr

/-- The decimal digit character of the last digit of `k`. -/
def digitChar (k : Nat) : Char := Char.ofNat (48 + k % 10)

/-- The value of a decimal digit character (`isDigit` and `c - '0'`). -/
def digitValue (c : Char) : Option Nat :=
  if c.isDigit then some (c.toNat - 48) else none

/-- The function `appendInt` of the time package for a number that is not negative: its
decimal digits, padded with zeros on the left up to `width`. -/
def padDigits : Nat → Nat → List Char
  | 0, n => if n = 0 then [] else (Nat.repr n).data
  | width + 1, n => padDigits width (n / 10) ++ [digitChar n]

/-- The function `daysIn` of the time package. -/
def daysIn (month : Nat) (year : Nat) : Nat :=
  if month = 2 then
    if year % 4 = 0 ∧ (year % 100 ≠ 0 ∨ year % 400 = 0) then 29 else 28
  else if month = 4 ∨ month = 6 ∨ month = 9 ∨ month = 11 then 30
  else 31

/-- The fraction `.999999999` of a format: nothing for a whole second, else a period and the
nine digits of the nanoseconds without their trailing zeros. -/
def fractionText (nanosecond : Nat) : List Char :=
  if nanosecond = 0 then []
  else '.' :: ((padDigits 9 nanosecond).reverse.dropWhile (fun c => c = '0')).reverse

/-- The element `-0700` of a format. -/
def numericZone (offset : Int) : List Char :=
  let minutes := offset.tdiv 60
  (if minutes < 0 then '-' else '+') ::
    (padDigits 2 (minutes.natAbs / 60) ++ padDigits 2 (minutes.natAbs % 60))

/-- The method `Time.String` for a time without monotonic clock reading: the format
`2006-01-02 15:04:05.999999999 -0700 MST`. -/
def GoTime.goString (t : GoTime) : String :=
  String.mk (padDigits 4 t.year ++ '-' :: padDigits 2 t.month ++ '-' :: padDigits 2 t.day ++
    ' ' :: padDigits 2 t.hour ++ ':' :: padDigits 2 t.minute ++ ':' :: padDigits 2 t.second ++
    fractionText t.nanosecond ++ ' ' :: numericZone t.offset ++
    ' ' :: (if t.zone = "" then numericZone t.offset else t.zone.data))

/-- The format `time.RFC3339Nano`, `2006-01-02T15:04:05.999999999Z07:00`. -/
def GoTime.RFC3339Nano (t : GoTime) : String :=
  String.mk (padDigits 4 t.year ++ '-' :: padDigits 2 t.month ++ '-' :: padDigits 2 t.day ++
    'T' :: padDigits 2 t.hour ++ ':' :: padDigits 2 t.minute ++ ':' :: padDigits 2 t.second ++
    fractionText t.nanosecond ++
    (if t.offset.tdiv 60 = 0 then ['Z']
     else (if t.offset.tdiv 60 < 0 then '-' else '+') ::
       (padDigits 2 ((t.offset.tdiv 60).natAbs / 60) ++ ':' ::
         padDigits 2 ((t.offset.tdiv 60).natAbs % 60))))

/-- The elements of a layout that the layouts of this program use. -/
inductive LayoutChunk
  | longYear
  | zeroMonth
  | zeroDay
  | hour
  | zeroMinute
  | zeroSecond
  | numTZ
  | tz
  | literal (c : Char)
  deriving DecidableEq, Repr

/-- The element that starts a layout, with its length (`nextStdChunk`), among the elements
`2006`, `01`, `02`, `15`, `04`, `05`, `-0700` and `MST`; every other character stands for
itself. -/
def chunkAt : List Char → LayoutChunk × Nat
  | '2' :: '0' :: '0' :: '6' :: _ => (.longYear, 4)
  | '-' :: '0' :: '7' :: '0' :: '0' :: _ => (.numTZ, 5)
  | 'M' :: 'S' :: 'T' :: _ => (.tz, 3)
  | '0' :: '1' :: _ => (.zeroMonth, 2)
  | '0' :: '2' :: _ => (.zeroDay, 2)
  | '1' :: '5' :: _ => (.hour, 2)
  | '0' :: '4' :: _ => (.zeroMinute, 2)
  | '0' :: '5' :: _ => (.zeroSecond, 2)
  | c :: _ => (.literal c, 1)
  | [] => (.literal ' ', 0)

/-- Cut a layout into its elements; `skip` characters belong to the element before. -/
def layoutChunksFrom : Nat → List Char → List LayoutChunk
  | _, [] => []
  | skip + 1, _ :: rest => layoutChunksFrom skip rest
  | 0, c :: rest => (chunkAt (c :: rest)).1 :: layoutChunksFrom ((chunkAt (c :: rest)).2 - 1) rest

/-- The elements of a layout. -/
def layoutChunks (layout : String) : List LayoutChunk := layoutChunksFrom 0 layout.data

/-- What `time.Parse` has read so far. -/
structure ParsedTime where
  year : Nat
  month : Option Nat
  day : Option Nat
  hour : Nat
  minute : Nat
  second : Nat
  nanosecond : Nat
  zoneOffset : Option Int
  utc : Bool
  zoneName : String
  deriving DecidableEq, Repr

/-- The function `getnum` of the time package: one or two digits; with `fixed`, exactly two. -/
def getnum (isFixed : Bool) : List Char → Option (Nat × List Char)
  | c0 :: c1 :: rest =>
    match digitValue c0 with
    | none => none
    | some a =>
      match digitValue c1 with
      | some b => some (a * 10 + b, rest)
      | none => if isFixed then none else some (a, c1 :: rest)
  | [c0] =>
    match digitValue c0 with
    | none => none
    | some a => if isFixed then none else some (a, [])
  | [] => none

/-- The digits at the head of a text, as a number, how many they are, and the rest. -/
def leadingNumber : List Char → Nat → Nat → Nat × Nat × List Char
  | c :: rest, value, count =>
    match digitValue c with
    | some d => leadingNumber rest (value * 10 + d) (count + 1)
    | none => (value, count, c :: rest)
  | [], value, count => (value, count, [])

/-- The function `parseNanoseconds` after the period or comma: the first nine digits at most
count, scaled to nanoseconds; the digits after them are dropped. -/
def parseNanoseconds (digits : List Char) : Nat × List Char :=
  let kept := leadingNumber (digits.take 9) 0 0
  (kept.1 * 10 ^ (9 - kept.2.1), (leadingNumber digits 0 0).2.2)

/-- The function `parseSignedOffset` of the time package: the length of a sign followed by
a number of at most 23, or 0. -/
def parseSignedOffset : List Char → Nat
  | sign :: rest =>
    if sign = '-' ∨ sign = '+' then
      match leadingNumber rest 0 0 with
      | (x, count, _) => if count = 0 ∨ x > 23 then 0 else 1 + count
    else 0
  | [] => 0

/-- The number of capital letters at the head of a text, up to six. -/
def countUpper : Nat → List Char → Nat
  | 0, _ => 0
  | fuel + 1, c :: rest => if 'A' ≤ c ∧ c ≤ 'Z' then 1 + countUpper fuel rest else 0
  | _ + 1, [] => 0

/-- The function `parseTimeZone` of the time package: the length of the zone abbreviation at
the head of the text, if there is one. -/
def parseTimeZone (value : List Char) : Option Nat :=
  if value.length < 3 then none
  else if value.take 4 = "ChST".data ∨ value.take 4 = "MeST".data then some 4
  else if value.take 3 = "GMT".data then
    some (3 + (if (value.drop 3).isEmpty then 0 else parseSignedOffset (value.drop 3)))
  else if value.head? = some '+' ∨ value.head? = some '-' then
    (if parseSignedOffset value > 0 then some (parseSignedOffset value) else none)
  else
    match countUpper 6 value with
    | 5 => if value.get? 4 = some 'T' then some 5 else none
    | 4 => if value.get? 3 = some 'T' ∨ value.take 4 = "WITA".data then some 4 else none
    | 3 => some 3
    | _ => none

/-- One step of `time.Parse`: read one element of the layout off the head of the value. -/
def parseChunk (p : ParsedTime) (value : List Char) :
    LayoutChunk → Except Error (ParsedTime × List Char)
  | .literal c =>
    if c = ' ' then
      match value with
      | [] => .ok (p, [])
      | v :: rest =>
        if v = ' ' then .ok (p, (v :: rest).dropWhile (fun x => x = ' '))
        else .error (.parse "parsing time: cannot parse as the layout")
    else
      match value with
      | v :: rest =>
        if v = c then .ok (p, rest) else .error (.parse "parsing time: cannot parse as the layout")
      | [] => .error (.parse "parsing time: cannot parse as the layout")
  | .longYear =>
    match value with
    | c0 :: c1 :: c2 :: c3 :: rest =>
      match digitValue c0, digitValue c1, digitValue c2, digitValue c3 with
      | some a, some b, some c, some d =>
        .ok ({ p with year := a * 1000 + b * 100 + c * 10 + d }, rest)
      | _, _, _, _ => .error (.parse "parsing time: cannot parse as 2006")
    | _ => .error (.parse "parsing time: cannot parse as 2006")
  | .zeroMonth =>
    match getnum true value with
    | none => .error (.parse "parsing time: cannot parse as 01")
    | some (month, rest) =>
      if month = 0 ∨ 12 < month then .error (.parse "parsing time: month out of range")
      else .ok ({ p with month := some month }, rest)
  | .zeroDay =>
    match getnum true value with
    | none => .error (.parse "parsing time: cannot parse as 02")
    | some (day, rest) => .ok ({ p with day := some day }, rest)
  | .hour =>
    match getnum false value with
    | none => .error (.parse "parsing time: cannot parse as 15")
    | some (hour, rest) =>
      if 24 ≤ hour then .error (.parse "parsing time: hour out of range")
      else .ok ({ p with hour := hour }, rest)
  | .zeroMinute =>
    match getnum true value with
    | none => .error (.parse "parsing time: cannot parse as 04")
    | some (minute, rest) =>
      if 60 ≤ minute then .error (.parse "parsing time: minute out of range")
      else .ok ({ p with minute := minute }, rest)
  | .zeroSecond =>
    match getnum true value with
    | none => .error (.parse "parsing time: cannot parse as 05")
    | some (second, rest) =>
      if 60 ≤ second then .error (.parse "parsing time: second out of range")
      else
        match rest with
        | mark :: c :: more =>
          if (mark = '.' ∨ mark = ',') ∧ c.isDigit then
            .ok ({ p with second := second, nanosecond := (parseNanoseconds (c :: more)).1 },
              (parseNanoseconds (c :: more)).2)
          else .ok ({ p with second := second }, rest)
        | _ => .ok ({ p with second := second }, rest)
  | .numTZ =>
    match value with
    | sign :: h0 :: h1 :: m0 :: m1 :: rest =>
      match getnum true [h0, h1], getnum true [m0, m1] with
      | some (hr, _), some (mm, _) =>
        if 24 < hr ∨ 60 < mm then .error (.parse "parsing time: time zone offset out of range")
        else if sign = '+' then .ok ({ p with zoneOffset := some (((hr * 60 + mm) * 60 : Nat) : Int) }, rest)
        else if sign = '-' then
          .ok ({ p with zoneOffset := some (-(((hr * 60 + mm) * 60 : Nat) : Int)) }, rest)
        else .error (.parse "parsing time: cannot parse as -0700")
      | _, _ => .error (.parse "parsing time: cannot parse as -0700")
    | _ => .error (.parse "parsing time: cannot parse as -0700")
  | .tz =>
    if value.take 3 = "UTC".data then .ok ({ p with utc := true }, value.drop 3)
    else
      match parseTimeZone value with
      | none => .error (.parse "parsing time: cannot parse as MST")
      | some n => .ok ({ p with zoneName := String.mk (value.take n) }, value.drop n)

/-- The loop of `time.Parse` over the elements of the layout. -/
def parseChunks : List LayoutChunk → ParsedTime → List Char → Except Error (ParsedTime × List Char)
  | [], p, value => .ok (p, value)
  | chunk :: rest, p, value =>
    match parseChunk p value chunk with
    | .error e => .error e
    | .ok (p1, value1) => parseChunks rest p1 value1

/-- The function `time.Parse` for the layouts of this program. An element the layout lacks is
zero or, where zero is impossible, one; what is left of the value after the layout is an
error; the day is checked against the month; without a zone the time is in UTC, and a zone
read as `UTC` makes it UTC whatever the numeric offset. -/
def ParseTime (layout : String) (value : String) : Except Error GoTime :=
  match parseChunks (layoutChunks layout)
      ⟨0, none, none, 0, 0, 0, 0, none, false, ""⟩ value.data with
  | .error e => .error e
  | .ok (p, rest) =>
    if !rest.isEmpty then .error (.parse "parsing time: extra text")
    else if p.day.getD 1 < 1 ∨ daysIn (p.month.getD 1) p.year < p.day.getD 1 then
      .error (.parse "parsing time: day out of range")
    else if p.utc then
      .ok ⟨p.year, p.month.getD 1, p.day.getD 1, p.hour, p.minute, p.second, p.nanosecond, 0, "UTC"⟩
    else
      match p.zoneOffset with
      | some offset =>
        .ok ⟨p.year, p.month.getD 1, p.day.getD 1, p.hour, p.minute, p.second, p.nanosecond,
          offset, p.zoneName⟩
      | none =>
        if p.zoneName ≠ "" then
          .ok ⟨p.year, p.month.getD 1, p.day.getD 1, p.hour, p.minute, p.second, p.nanosecond,
            0, p.zoneName⟩
        else
          .ok ⟨p.year, p.month.getD 1, p.day.getD 1, p.hour, p.minute, p.second, p.nanosecond,
            0, "UTC"⟩

/-! ### Values that are not integers or texts -/

/-- A `float32` or `float64` value. Floating point is not modelled: the value is stood for
by the text `strconv.FormatFloat(x, 'g', -1, 64)` gives it, which is what `database/sql`
makes of it when it needs a text. -/
structure GoFloat where
  text : String
  deriving DecidableEq, Repr

/-- The conversion `[]byte(s)`: the bytes of the UTF-8 encoding of the text. -/
def goBytes (s : String) : List Nat :=
  (s.data.flatMap String.utf8EncodeChar).map UInt8.toNat

/-- The conversion `[]rune(s)`: the code points of the text. -/
def goRunes (s : String) : List Int :=
  s.data.map fun c => (c.toNat : Int)

/-- The conversion `string(b)` of a byte slice, read as UTF-8 (at most `fuel` characters); a
byte that starts no well-formed sequence is shown as U+FFFD, since a text of this embedding
holds characters, not bytes. -/
def bytesTextFrom : Nat → List Nat → List Char
  | 0, _ => []
  | _ + 1, [] => []
  | fuel + 1, b0 :: rest =>
    if b0 < 128 then Char.ofNat b0 :: bytesTextFrom fuel rest
    else
      match rest with
      | b1 :: rest1 =>
        if 192 ≤ b0 ∧ b0 < 224 ∧ 128 ≤ b1 ∧ b1 < 192 then
          Char.ofNat ((b0 - 192) * 64 + (b1 - 128)) :: bytesTextFrom fuel rest1
        else
          match rest1 with
          | b2 :: rest2 =>
            if 224 ≤ b0 ∧ b0 < 240 ∧ 128 ≤ b1 ∧ b1 < 192 ∧ 128 ≤ b2 ∧ b2 < 192 then
              Char.ofNat ((b0 - 224) * 4096 + (b1 - 128) * 64 + (b2 - 128)) ::
                bytesTextFrom fuel rest2
            else
              match rest2 with
              | b3 :: rest3 =>
                if 240 ≤ b0 ∧ b0 < 248 ∧ 128 ≤ b1 ∧ b1 < 192 ∧ 128 ≤ b2 ∧ b2 < 192 ∧
                    128 ≤ b3 ∧ b3 < 192 then
                  Char.ofNat ((b0 - 240) * 262144 + (b1 - 128) * 4096 + (b2 - 128) * 64 +
                    (b3 - 128)) :: bytesTextFrom fuel rest3
                else Char.ofNat 65533 :: bytesTextFrom fuel rest
              | [] => Char.ofNat 65533 :: bytesTextFrom fuel rest
          | [] => Char.ofNat 65533 :: bytesTextFrom fuel rest
      | [] => [Char.ofNat 65533]

/-- The conversion `string(b)` of a byte slice. -/
def bytesText (b : List Nat) : String := String.mk (bytesTextFrom b.length b)

/-- The `driver.Value`s the statements carry and receive: NULL, an integer (`int64`), a
boolean, a text, a floating point number (`float64`), a byte slice, a time. -/
inductive DriverValue
  | null
  | int (n : Int)
  | bool (b : Bool)
  | text (s : String)
  | real (x : GoFloat)
  | blob (bytes : List Nat)
  | time (t : GoTime)
  deriving DecidableEq, Repr

/-- One statement handed to the session: its text and its positional arguments. -/
structure Stmt where
  text : String
  args : List DriverValue
  deriving DecidableEq, Repr

/-- What the store answers to one statement: a failure, a result set, or the result of a
statement that returns no rows. -/
inductive Reply
  | failure (e : Error)
  | rows (rs : List (List DriverValue))
  | done (affected : Nat)
  deriving DecidableEq, Repr

/-- The store behind `q.db`: a state machine that answers one statement at a time. -/
structure Driver (σ : Type) where
  answer : σ → Stmt → Reply × σ

/-- The Go value `*Queries` together with the history of the statements it has issued. -/
structure Session (σ : Type) where
  db : σ
  issued : List Stmt

/-- Hand one statement to the store and record it. -/
def Session.send {σ : Type} (d : Driver σ) (q : Session σ) (st : Stmt) : Reply × Session σ :=
  let r := d.answer q.db st
  (r.1, { db := r.2, issued := q.issued ++ [st] })

/-- The row that `QueryRowContext(...).Scan` reads: the first row of the result set;
`sql.ErrNoRows` when there is none; the failure of the query when it failed. -/
def Reply.firstRow : Reply → Except Error (List DriverValue)
  | .failure e => .error e
  | .rows [] => .error .sqlErrNoRows
  | .rows (r :: _) => .ok r
  | .done _ => .error .sqlErrNoRows

/-- The rows that `QueryContext` followed by the `rows.Next()` loop visits. -/
def Reply.allRows : Reply → Except Error (List (List DriverValue))
  | .failure e => .error e
  | .rows rs => .ok rs
  | .done _ => .ok []

/-! ### Conversions made by `Scan` -/

/-- Value of a run of decimal digits; `none` when the run is empty or holds another
character. -/
def parseDigits (cs : List Char) : Option Nat :=
  if cs.isEmpty then none
  else cs.foldl (fun acc c => acc.bind fun n =>
    if c.isDigit then some (n * 10 + (c.toNat - '0'.toNat)) else none) (some 0)

/-- The call `strconv.ParseInt(s, 10, 64)`: an optional sign, then decimal digits, within the
range of `int64`. -/
def ParseInt64 (s : String) : Option Int :=
  match s.data with
  | '-' :: ds => (parseDigits ds).bind fun n =>
      if n ≤ 2 ^ 63 then some (-(n : Int)) else none
  | '+' :: ds => (parseDigits ds).bind fun n =>
      if n < 2 ^ 63 then some (n : Int) else none
  | ds => (parseDigits ds).bind fun n =>
      if n < 2 ^ 63 then some (n : Int) else none

/-- The text `database/sql` makes of a non-NULL value (`asString`). -/
def asString : DriverValue → String
  | .null => ""
  | .int n => toString n
  | .bool b => if b then "true" else "false"
  | .text s => s
  | .real x => x.text
  | .blob b => bytesText b
  | .time t => t.goString

/-- Scan into an `*int64` destination. -/
def scanInt64 : DriverValue → Except Error Int
  | .null => .error (.scan "converting NULL to int64 is unsupported")
  | .int n => .ok n
  | v =>
    match ParseInt64 (asString v) with
    | some n => .ok n
    | none => .error (.scan "converting driver.Value to a int64: invalid syntax")

/-- Scan into a `*string` destination; a time is written in the format `time.RFC3339Nano`. -/
def scanString : DriverValue → Except Error String
  | .null => .error (.scan "converting NULL to string is unsupported")
  | .time t => .ok t.RFC3339Nano
  | v => .ok (asString v)

/-- Scan into a destination of a named string kind (`*AttributeType`): only NULL fails to
convert from the values of text kind; a number or a boolean is refused. -/
def scanAttributeType : DriverValue → Except Error AttributeType
  | .null => .error (.scan "converting NULL to string is unsupported")
  | .text s => .ok s
  | .blob b => .ok (bytesText b)
  | _ => .error (.scan "unsupported Scan, storing driver.Value into type *geaves.AttributeType")

/-- Scan into a `**string` destination (`var attributesJson *string`): NULL gives the nil
pointer, any other value a pointer to its text. -/
def scanStringPtr : DriverValue → Except Error (Option String)
  | .null => .ok none
  | .time t => .ok (some t.RFC3339Nano)
  | v => .ok (some (asString v))

/-- Scan into a `*bool` destination (`driver.Bool.ConvertValue`). -/
def scanBool : DriverValue → Except Error Bool
  | .bool b => .ok b
  | .int n =>
    if n = 1 then .ok true
    else if n = 0 then .ok false
    else .error (.scan "sql/driver: couldn't convert into type bool")
  | .text s =>
    if s ∈ ["1", "t", "T", "TRUE", "true", "True"] then .ok true
    else if s ∈ ["0", "f", "F", "FALSE", "false", "False"] then .ok false
    else .error (.scan "sql/driver: couldn't convert into type bool")
  | .blob b =>
    if bytesText b ∈ ["1", "t", "T", "TRUE", "true", "True"] then .ok true
    else if bytesText b ∈ ["0", "f", "F", "FALSE", "false", "False"] then .ok false
    else .error (.scan "sql/driver: couldn't convert into type bool")
  | _ => .error (.scan "sql/driver: couldn't convert into type bool")

/-- The error of `Scan` when the row has not as many columns as there are destinations. -/
def scanArity : Error := .scan "sql: expected a different number of destination arguments in Scan"

/-! ### `fmt.Sprintf` with one `%s` verb -/

/-- Replace the first `%s` of the format by the argument. -/
def sprintfChars : List Char → List Char → List Char
  | '%' :: 's' :: rest, arg => arg ++ rest
  | c :: rest, arg => c :: sprintfChars rest arg
  | [], _ => []

/-- The call `fmt.Sprintf(format, arg)` for a format with one `%s` verb and a string
argument (every format of this package has exactly one). -/
def Sprintf (format : String) (arg : String) : String :=
  String.mk (sprintfChars format.data arg.data)

/-! ## Data model (`entity.go`, `attribute.go`, `entity_attribute.go`) -/

mutual
/-- The Go struct `Entity`. -/
inductive Entity
  | mk (ID : Int) (Name : String) (Slug : String) (attributes : List EntityAttributeEmbed)
      (loadedAttributes : Bool)
/-- The Go struct `EntityAttributeEmbed`: an embedded `Attribute` and the required flag. -/
inductive EntityAttributeEmbed
  | mk (Attribute : Attribute) (Required : Bool)
/-- The Go struct `Attribute`; the field `Type` is written `Typ`. -/
inductive Attribute
  | mk (ID : Int) (Name : String) (Slug : String) (Typ : AttributeType)
      (entities : List attributeEntityEmbed) (loadedEntities : Bool)
/-- The Go struct `attributeEntityEmbed`: an embedded `Entity` and the required flag. -/
inductive attributeEntityEmbed
  | mk (Entity : Entity) (Required : Bool)
end

def Entity.ID : Entity → Int
  | .mk id _ _ _ _ => id

def Entity.Name : Entity → String
  | .mk _ n _ _ _ => n

def Entity.Slug : Entity → String
  | .mk _ _ s _ _ => s

def Entity.attributes : Entity → List EntityAttributeEmbed
  | .mk _ _ _ a _ => a

def Entity.loadedAttributes : Entity → Bool
  | .mk _ _ _ _ l => l

def Entity.setID : Entity → Int → Entity
  | .mk _ n s a l, id => .mk id n s a l

def Entity.setName : Entity → String → Entity
  | .mk id _ s a l, n => .mk id n s a l

def Entity.setSlug : Entity → String → Entity
  | .mk id n _ a l, s => .mk id n s a l

def Entity.setAttributes : Entity → List EntityAttributeEmbed → Entity
  | .mk id n s _ l, a => .mk id n s a l

def Entity.setLoadedAttributes : Entity → Bool → Entity
  | .mk id n s a _, l => .mk id n s a l

def Attribute.ID : Attribute → Int
  | .mk id _ _ _ _ _ => id

def Attribute.Name : Attribute → String
  | .mk _ n _ _ _ _ => n

def Attribute.Slug : Attribute → String
  | .mk _ _ s _ _ _ => s

def Attribute.Typ : Attribute → AttributeType
  | .mk _ _ _ t _ _ => t

def Attribute.entities : Attribute → List attributeEntityEmbed
  | .mk _ _ _ _ e _ => e

def Attribute.loadedEntities : Attribute → Bool
  | .mk _ _ _ _ _ l => l

def Attribute.setID : Attribute → Int → Attribute
  | .mk _ n s t e l, id => .mk id n s t e l

def Attribute.setName : Attribute → String → Attribute
  | .mk id _ s t e l, n => .mk id n s t e l

def Attribute.setSlug : Attribute → String → Attribute
  | .mk id n _ t e l, s => .mk id n s t e l

def Attribute.setTyp : Attribute → AttributeType → Attribute
  | .mk id n s _ e l, t => .mk id n s t e l

def Attribute.setEntities : Attribute → List attributeEntityEmbed → Attribute
  | .mk id n s t _ l, e => .mk id n s t e l

def Attribute.setLoadedEntities : Attribute → Bool → Attribute
  | .mk id n s t e _, l => .mk id n s t e l

def EntityAttributeEmbed.Attribute : EntityAttributeEmbed → Attribute
  | .mk a _ => a

def EntityAttributeEmbed.Required : EntityAttributeEmbed → Bool
  | .mk _ r => r

def attributeEntityEmbed.Entity : attributeEntityEmbed → Entity
  | .mk e _ => e

def attributeEntityEmbed.Required : attributeEntityEmbed → Bool
  | .mk _ r => r

/-- The zero value `Entity{}`. -/
def Entity.zero : Entity := .mk 0 "" "" [] false

/-- The zero value `Attribute{}`. -/
def Attribute.zero : Attribute := .mk 0 "" "" "" [] false

/-- The zero value `EntityAttributeEmbed{}`, what `make` fills a new slice with. -/
def EntityAttributeEmbed.zero : EntityAttributeEmbed := .mk Attribute.zero false

/-- The zero value `attributeEntityEmbed{}`. -/
def attributeEntityEmbed.zero : attributeEntityEmbed := .mk Entity.zero false

/-- The Go struct `EntityAttribute`, one link row. -/
structure EntityAttribute where
  EntityID : Int
  AttributeID : Int
  Required : Bool
  deriving DecidableEq, Repr

/-! ## The aggregate decoder (`encoding/json`) -/

/-- The anonymous struct `parseAttributesJson` decodes one array element into. -/
structure parsedAttribute where
  ID : Int
  Name : String
  Slug : String
  Typ : String
  Required : Int
  deriving DecidableEq, Repr

/-- The anonymous struct `parseEntitiesJson` decodes one array element into. -/
structure parsedEntity where
  ID : Int
  Name : String
  Slug : String
  Required : Int
  deriving DecidableEq, Repr

/-- The two calls `json.NewDecoder(strings.NewReader(text)).Decode(&parsed)` of the package,
one per element shape. The decoder is the library's, not this package's: the functions below
take it as a parameter and the theorems hold for every decoder. -/
structure JsonDecoder where
  attributes : String → Except Error (List parsedAttribute)
  entities : String → Except Error (List parsedEntity)

/-! ## Relationship loader: decoding an aggregate -/

/-- The record `parseAttributesJson` builds from an entry with a valid type tag. -/
def parsedAttribute.embed (p : parsedAttribute) : EntityAttributeEmbed :=
  .mk (.mk p.ID p.Name p.Slug p.Typ [] false) (decide (p.Required > 0))

/-- The `for idx, parsedAttribute := range parsedAttributes` loop of `parseAttributesJson`,
from index `idx` on: an entry with an invalid type tag is passed over by `continue`, any other
entry is stored at its own index of the slice `attributes`. -/
def parseAttributesLoop :
    List parsedAttribute → Nat → List EntityAttributeEmbed → List EntityAttributeEmbed
  | [], _, attributes => attributes
  | p :: rest, idx, attributes =>
    if !ValidAttributeType p.Typ then parseAttributesLoop rest (idx + 1) attributes
    else parseAttributesLoop rest (idx + 1) (attributes.set idx p.embed)

/-- The function `parseAttributesJson` of `entity.go`. The slice `attributes` is made with
the length of the decoded array, every element the zero value, before the loop runs. -/
def parseAttributesJson (j : JsonDecoder) (attributesJson : String) :
    List EntityAttributeEmbed × Option Error :=
  match j.attributes attributesJson with
  | .error e => ([], some e)
  | .ok parsedAttributes =>
    (parseAttributesLoop parsedAttributes 0
      (List.replicate parsedAttributes.length EntityAttributeEmbed.zero), none)

/-- The record `parseEntitiesJson` builds from an entry. -/
def parsedEntity.embed (p : parsedEntity) : attributeEntityEmbed :=
  .mk (.mk p.ID p.Name p.Slug [] false) (decide (p.Required > 0))

/-- The `for idx, parsedEntity := range parsedEntities` loop of `parseEntitiesJson`. -/
def parseEntitiesLoop :
    List parsedEntity → Nat → List attributeEntityEmbed → List attributeEntityEmbed
  | [], _, entities => entities
  | p :: rest, idx, entities => parseEntitiesLoop rest (idx + 1) (entities.set idx p.embed)

/-- The function `parseEntitiesJson` of `attribute.go`. -/
def parseEntitiesJson (j : JsonDecoder) (entitiesJson : String) :
    List attributeEntityEmbed × Option Error :=
  match j.entities entitiesJson with
  | .error e => ([], some e)
  | .ok parsedEntities =>
    (parseEntitiesLoop parsedEntities 0
      (List.replicate parsedEntities.length attributeEntityEmbed.zero), none)

/-! ## Schema registry: statements -/

def createAttribute : String := "
INSERT INTO attributes (name, slug, type) VALUES (?, ?, ?)
RETURNING *;
"

def createEntity : String := "
INSERT INTO entities (name, slug) VALUES (?, ?)
RETURNING *;
"

def createEntityAttribute : String := "
INSERT INTO entity_attribute (entity_id, attribute_id, required) VALUES (?, ?, ?)
RETURNING *;
"

def getEntityNoAttributes : String := "
SELECT id, name, slug, null FROM entities WHERE %s = ?;
"

def getEntityWithAttributes : String := "
SELECT
  entities.id,
  entities.name,
  entities.slug,
  IIF(entity_attribute.entity_id IS NOT NULL,
    JSON_GROUP_ARRAY(
      JSON_OBJECT('id', attributes.id, 'name', attributes.name, 'slug', attributes.slug, 'type', attributes.type, 'required', CAST(entity_attribute.required AS BOOLEAN))
    ),
  NULL) AS attributes
FROM entities
LEFT JOIN entity_attribute ON entity_attribute.entity_id = entities.id
INNER JOIN attributes ON entity_attribute.attribute_id = attributes.id
WHERE %s = ?;
"

def listEntitiesNoAttributes : String := "
SELECT id, name, slug, null FROM entities;
"

def listEntitiesWithAttributes : String := "
SELECT
  entities.id,
  entities.name,
  entities.slug,
  IIF(entity_attribute.entity_id IS NOT NULL,
    JSON_GROUP_ARRAY(
      JSON_OBJECT('id', attributes.id, 'name', attributes.name, 'slug', attributes.slug, 'type', attributes.type, 'required', CAST(entity_attribute.required AS BOOLEAN))
    ),
  NULL) AS attributes
FROM entities
LEFT JOIN entity_attribute ON entity_attribute.entity_id = entities.id
INNER JOIN attributes ON entity_attribute.attribute_id = attributes.id
GROUP BY entities.id;
"

def loadAttributesByEntity : String := "
SELECT IIF(entity_attribute.entity_id IS NOT NULL,
    JSON_GROUP_ARRAY(
      JSON_OBJECT('id', attributes.id, 'name', attributes.name, 'slug', attributes.slug, 'type', attributes.type, 'required', CAST(entity_attribute.required AS BOOLEAN))
    ),
  NULL) AS attributes
FROM entities
LEFT JOIN entity_attribute ON entity_attribute.entity_id = entities.id
INNER JOIN attributes ON entity_attribute.attribute_id = attributes.id
WHERE entities.id = ?;
"

def getAttributeNoEntitie : String := "
SELECT id, name, slug, type, null FROM attributes WHERE %s = ?;
"

def getAttributesWithEntities : String := "
SELECT
  attributes.id,
  attributes.name,
  attributes.slug,
  attributes.type,
  IIF(entity_attribute.attribute.id IS NOT NULL
    JSON_GROUP_ARRAY(
      JSON_OBJECT('id', entities.id, 'name', entities.name, 'slug', entities.slug, 'required', entity_attribute.required)
    ), NULL
  ) AS entities
FROM attributes
LEFT JOIN entity_attribute ON entity_attribute.attribute_id = attributes.id
INNER JOIN entities ON entity_attribute.entity_id = entities.id
WHERE %s = ?;
"

def listAttributesNoEntities : String := "
SELECT id, name, slug, type, null FROM attributes
"

def listAttributesWithEntities : String := "
SELECT
  attributes.id,
  attributes.name,
  attributes.slug,
  attributes.type,
  IIF(entity_attribute.attribute_id IS NOT NULL
    JSON_GROUP_ARRAY(
      JSON_OBJECT('id', entities.id, 'name', entities.name, 'slug', entities.slug, 'required', entity_attribute.required)
    ), NULL
  ) AS entities
FROM attributes
LEFT JOIN entity_attribute ON entity_attribute.attribute_id = attributes.id
INNER JOIN entities ON entity_attribute.entity_id = entities.id
GROUP BY attributes.id;
"

def loadEntitiesByAttribute : String := "
SELECT IIF(entity_attribute.attribute_id IS NOT NULL,
  JSON_GROUP_ARRAY(
    JSON_OBJECT('id', entities.id, 'name', entities.name, 'slug', entities.slug, 'required', entity_attribute.required)
  ), NULL
) AS entities
FROM attributes
LEFT JOIN entity_attribute ON entity_attribute.attribute_id = attributes.id
INNER JOIN entities ON entity_attribute.entity_id = entities.id
WHERE attributes.id = ?;
"

/-! ## Schema registry: operations -/

/-- The Go type `GetType`, a string kind (its declaration is not among the source files; it
is assigned string literals and printed with `%s`). -/
abbrev GetType := String

/-- The constants `ByID` and `BySlug`. Their declaration is not among the source files, so
their values are parameters of the lookups. -/
structure Selectors where
  ByID : GetType
  BySlug : GetType

/-- A Go value of type `any`, as far as the lookups tell its dynamic type apart. -/
inductive GoAny
  | nil
  | int64 (n : Int)
  | string (s : String)
  | int (n : Int)
  | bool (b : Bool)
  deriving DecidableEq, Repr

/-- Whether the type assertion `value.(int64)` succeeds. -/
def GoAny.isInt64 : GoAny → Bool
  | .int64 _ => true
  | _ => false

/-- Whether the type assertion `value.(string)` succeeds. -/
def GoAny.isString : GoAny → Bool
  | .string _ => true
  | _ => false

structure CreateAttributeParam where
  Name : String
  Slug : String
  Typ : AttributeType

structure CreateEntityParam where
  Name : String
  Slug : String

structure GetEntityParam where
  WithAttributes : Bool
  Field : GetType
  Value : GoAny

structure GetAttributeParam where
  WithEntities : Bool
  Field : GetType
  Value : GoAny

/-- The call `row.Scan(&i.ID, &i.Name, &i.Slug, &attributesJson)` on one row: the
destinations are assigned from left to right and the first failure stops the scan. -/
def scanEntityCols (i : Entity) (cols : List DriverValue) :
    (Entity × Option String) × Option Error :=
  match cols with
  | [c0, c1, c2, c3] =>
    match scanInt64 c0 with
    | .error e => ((i, none), some e)
    | .ok id =>
      match scanString c1 with
      | .error e => ((i.setID id, none), some e)
      | .ok name =>
        match scanString c2 with
        | .error e => (((i.setID id).setName name, none), some e)
        | .ok slug =>
          match scanStringPtr c3 with
          | .error e => ((((i.setID id).setName name).setSlug slug, none), some e)
          | .ok agg => ((((i.setID id).setName name).setSlug slug, agg), none)
  | _ => ((i, none), some scanArity)

/-- The call `row.Scan(&i.ID, &i.Name, &i.Slug, &i.Type, &entitiesJson)` on one row. -/
def scanAttributeCols (i : Attribute) (cols : List DriverValue) :
    (Attribute × Option String) × Option Error :=
  match cols with
  | [c0, c1, c2, c3, c4] =>
    match scanInt64 c0 with
    | .error e => ((i, none), some e)
    | .ok id =>
      match scanString c1 with
      | .error e => ((i.setID id, none), some e)
      | .ok name =>
        match scanString c2 with
        | .error e => (((i.setID id).setName name, none), some e)
        | .ok slug =>
          match scanAttributeType c3 with
          | .error e => ((((i.setID id).setName name).setSlug slug, none), some e)
          | .ok t =>
            match scanStringPtr c4 with
            | .error e => (((((i.setID id).setName name).setSlug slug).setTyp t, none), some e)
            | .ok agg => (((((i.setID id).setName name).setSlug slug).setTyp t, agg), none)
  | _ => ((i, none), some scanArity)

/-- The method `Queries.CreateAttribute` of `attribute.go`: the insert is issued with the
three fields of the parameter as they are, and the returned row is scanned. -/
def CreateAttribute {σ : Type} (d : Driver σ) (q : Session σ) (arg : CreateAttributeParam) :
    (Attribute × Option Error) × Session σ :=
  let r := q.send d ⟨createAttribute, [.text arg.Name, .text arg.Slug, .text arg.Typ]⟩
  match r.1.firstRow with
  | .error e => ((Attribute.zero, some e), r.2)
  | .ok [c0, c1, c2, c3] =>
    match scanInt64 c0 with
    | .error e => ((Attribute.zero, some e), r.2)
    | .ok id =>
      match scanString c1 with
      | .error e => ((Attribute.zero.setID id, some e), r.2)
      | .ok name =>
        match scanString c2 with
        | .error e => (((Attribute.zero.setID id).setName name, some e), r.2)
        | .ok slug =>
          match scanAttributeType c3 with
          | .error e => ((((Attribute.zero.setID id).setName name).setSlug slug, some e), r.2)
          | .ok t => ((.mk id name slug t [] false, none), r.2)
  | .ok _ => ((Attribute.zero, some scanArity), r.2)

/-- The method `Queries.CreateEntity` of `entity.go`. -/
def CreateEntity {σ : Type} (d : Driver σ) (q : Session σ) (arg : CreateEntityParam) :
    (Entity × Option Error) × Session σ :=
  let r := q.send d ⟨createEntity, [.text arg.Name, .text arg.Slug]⟩
  match r.1.firstRow with
  | .error e => ((Entity.zero, some e), r.2)
  | .ok [c0, c1, c2] =>
    match scanInt64 c0 with
    | .error e => ((Entity.zero, some e), r.2)
    | .ok id =>
      match scanString c1 with
      | .error e => ((Entity.zero.setID id, some e), r.2)
      | .ok name =>
        match scanString c2 with
        | .error e => (((Entity.zero.setID id).setName name, some e), r.2)
        | .ok slug => ((.mk id name slug [] false, none), r.2)
  | .ok _ => ((Entity.zero, some scanArity), r.2)

/-- The method `Queries.CreateEntityAttribute` of `entity_attribute.go`. -/
def CreateEntityAttribute {σ : Type} (d : Driver σ) (q : Session σ) (arg : EntityAttribute) :
    (EntityAttribute × Option Error) × Session σ :=
  let r := q.send d
    ⟨createEntityAttribute, [.int arg.EntityID, .int arg.AttributeID, .bool arg.Required]⟩
  match r.1.firstRow with
  | .error e => ((⟨0, 0, false⟩, some e), r.2)
  | .ok [c0, c1, c2] =>
    match scanInt64 c0 with
    | .error e => ((⟨0, 0, false⟩, some e), r.2)
    | .ok eid =>
      match scanInt64 c1 with
      | .error e => ((⟨eid, 0, false⟩, some e), r.2)
      | .ok aid =>
        match scanBool c2 with
        | .error e => ((⟨eid, aid, false⟩, some e), r.2)
        | .ok req => ((⟨eid, aid, req⟩, none), r.2)
  | .ok _ => ((⟨0, 0, false⟩, some scanArity), r.2)

/-- The `switch arg.Field` of `GetEntity`: the column reference and the argument of the
query, or the error returned before any query. -/
def entitySelector (k : Selectors) (arg : GetEntityParam) : Except Error (GetType × DriverValue) :=
  if arg.Field = k.ByID then
    match arg.Value with
    | .int64 n => .ok ("entities.id", .int n)
    | _ => .error (.new "GetEntityParam's value has wrong type")
  else if arg.Field = k.BySlug then
    match arg.Value with
    | .string s => .ok ("entities.slug", .text s)
    | _ => .error (.new "GetEntityParam's vlaue has wrong type")
  else .error (.new (Sprintf "'%s' unsupported field to look for entity" arg.Field))

/-- What `GetEntity` and `ListEntities` do with a scanned row: with eager hydration the
relation is marked loaded and a non-nil aggregate is decoded. The result is the entity and
the error of the decoding. -/
def hydrateEntity (j : JsonDecoder) (withAttributes : Bool) (i : Entity)
    (attributesJson : Option String) : Entity × Option Error :=
  if withAttributes then
    match attributesJson with
    | some text =>
      match parseAttributesJson j text with
      | (_, some e) => (i.setLoadedAttributes true, some e)
      | (attributes, none) => ((i.setLoadedAttributes true).setAttributes attributes, none)
    | none => (i.setLoadedAttributes true, none)
  else (i, none)

/-- The steps `GetEntity` and the loop of `ListEntities` share: the scan of one row into a
fresh `var i Entity`, then the hydration. The result is the entity as the steps leave it and
the first error met. -/
def readEntityRow (j : JsonDecoder) (withAttributes : Bool) (cols : List DriverValue) :
    Entity × Option Error :=
  match scanEntityCols Entity.zero cols with
  | ((i, _), some e) => (i, some e)
  | ((i, attributesJson), none) => hydrateEntity j withAttributes i attributesJson

/-- The method `Queries.GetEntity` of `entity.go`: after the switch on the selector, one
query; every error is returned together with the entity `i` as it is at that point. -/
def GetEntity {σ : Type} (k : Selectors) (j : JsonDecoder) (d : Driver σ) (q : Session σ)
    (arg : GetEntityParam) : (Entity × Option Error) × Session σ :=
  match entitySelector k arg with
  | .error e => ((Entity.zero, some e), q)
  | .ok (field, value) =>
    let query := if arg.WithAttributes then getEntityWithAttributes else getEntityNoAttributes
    let r := q.send d ⟨Sprintf query field, [value]⟩
    match r.1.firstRow with
    | .error e => ((Entity.zero, some e), r.2)
    | .ok cols => (readEntityRow j arg.WithAttributes cols, r.2)

/-- The `for rows.Next()` loop of `ListEntities`: a failing scan or a failing decode returns
the items gathered so far together with the error. -/
def listEntitiesLoop (j : JsonDecoder) (withAttributes : Bool) :
    List (List DriverValue) → List Entity → List Entity × Option Error
  | [], items => (items, none)
  | cols :: rest, items =>
    match readEntityRow j withAttributes cols with
    | (_, some e) => (items, some e)
    | (i, none) => listEntitiesLoop j withAttributes rest (items ++ [i])

/-- The method `Queries.ListEntities` of `entity.go`. -/
def ListEntities {σ : Type} (j : JsonDecoder) (d : Driver σ) (q : Session σ)
    (withAttributes : Bool) : (List Entity × Option Error) × Session σ :=
  let query := if withAttributes then listEntitiesWithAttributes else listEntitiesNoAttributes
  let r := q.send d ⟨query, []⟩
  match r.1.allRows with
  | .error e => (([], some e), r.2)
  | .ok rows => (listEntitiesLoop j withAttributes rows [], r.2)

/-- The method `Queries.LoadAttributesByEntity` of `entity.go`: a nil aggregate returns the
nil slice and no error before any decoding. -/
def LoadAttributesByEntity {σ : Type} (j : JsonDecoder) (d : Driver σ) (q : Session σ)
    (id : Int) : (List EntityAttributeEmbed × Option Error) × Session σ :=
  let r := q.send d ⟨loadAttributesByEntity, [.int id]⟩
  match r.1.firstRow with
  | .error e => (([], some e), r.2)
  | .ok [c0] =>
    match scanStringPtr c0 with
    | .error e => (([], some e), r.2)
    | .ok none => (([], none), r.2)
    | .ok (some text) =>
      match parseAttributesJson j text with
      | (_, some e) => (([], some e), r.2)
      | (attributes, none) => ((attributes, none), r.2)
  | .ok _ => (([], some scanArity), r.2)

/-- The method `Entity.GetAttributes` of `entity.go`: the entity after the call, the
collection and the error. -/
def Entity.GetAttributes {σ : Type} (j : JsonDecoder) (d : Driver σ) (q : Session σ)
    (e : Entity) : (Entity × List EntityAttributeEmbed × Option Error) × Session σ :=
  if !e.loadedAttributes then
    let r := LoadAttributesByEntity j d q e.ID
    let e1 := (e.setAttributes r.1.1).setLoadedAttributes true
    ((e1, e1.attributes, r.1.2), r.2)
  else ((e, e.attributes, none), q)

/-- How a call ends: it returns, or it stops in a run-time panic. -/
inductive Outcome (α : Type)
  | returned (a : α)
  | panicked

/-- The `switch arg.Field` of `GetAttribute`. -/
def attributeSelector (k : Selectors) (arg : GetAttributeParam) :
    Except Error (GetType × DriverValue) :=
  if arg.Field = k.ByID then
    match arg.Value with
    | .int64 n => .ok ("attributes.id", .int n)
    | _ => .error (.new "GetAttributeParam's value has wrong type")
  else if arg.Field = k.BySlug then
    match arg.Value with
    | .string s => .ok ("attributes.slug", .text s)
    | _ => .error (.new "GetAttributeParam's vlaue has wrong type")
  else .error (.new (Sprintf "'%s' unsupported field to look for entity" arg.Field))

/-- What `GetAttribute` and `ListAttributes` do with a scanned row. -/
def hydrateAttribute (j : JsonDecoder) (withEntities : Bool) (i : Attribute)
    (entitiesJson : Option String) : Attribute × Option Error :=
  if withEntities then
    match entitiesJson with
    | some text =>
      match parseEntitiesJson j text with
      | (_, some e) => (i.setLoadedEntities true, some e)
      | (entities, none) => ((i.setLoadedEntities true).setEntities entities, none)
    | none => (i.setLoadedEntities true, none)
  else (i, none)

/-- The steps `GetAttribute` and the loop of `ListAttributes` share: the scan of one row
into a fresh `var i Attribute`, then the hydration. -/
def readAttributeRow (j : JsonDecoder) (withEntities : Bool) (cols : List DriverValue) :
    Attribute × Option Error :=
  match scanAttributeCols Attribute.zero cols with
  | ((i, _), some e) => (i, some e)
  | ((i, entitiesJson), none) => hydrateAttribute j withEntities i entitiesJson

/-- The method `Queries.GetAttribute` of `attribute.go`. -/
def GetAttribute {σ : Type} (k : Selectors) (j : JsonDecoder) (d : Driver σ) (q : Session σ)
    (arg : GetAttributeParam) : (Attribute × Option Error) × Session σ :=
  match attributeSelector k arg with
  | .error e => ((Attribute.zero, some e), q)
  | .ok (field, value) =>
    let query := if arg.WithEntities then getAttributesWithEntities else getAttributeNoEntitie
    let r := q.send d ⟨Sprintf query field, [value]⟩
    match r.1.firstRow with
    | .error e => ((Attribute.zero, some e), r.2)
    | .ok cols => (readAttributeRow j arg.WithEntities cols, r.2)

/-- The `for rows.Next()` loop of `ListAttributes`: a failing scan or a failing decode
returns the nil slice together with the error. -/
def listAttributesLoop (j : JsonDecoder) (withEntities : Bool) :
    List (List DriverValue) → List Attribute → List Attribute × Option Error
  | [], items => (items, none)
  | cols :: rest, items =>
    match readAttributeRow j withEntities cols with
    | (_, some e) => ([], some e)
    | (i, none) => listAttributesLoop j withEntities rest (items ++ [i])

/-- The method `Queries.ListAttributes` of `attribute.go`. -/
def ListAttributes {σ : Type} (j : JsonDecoder) (d : Driver σ) (q : Session σ)
    (withEntities : Bool) : (List Attribute × Option Error) × Session σ :=
  let query := if withEntities then listAttributesWithEntities else listAttributesNoEntities
  let r := q.send d ⟨query, []⟩
  match r.1.allRows with
  | .error e => (([], some e), r.2)
  | .ok rows => (listAttributesLoop j withEntities rows [], r.2)

/-- The method `Queries.LoadEntitiesByAttribute` of `attribute.go`. After a successful scan
the pointer `entitiesJson` is dereferenced without a nil check: when the column was NULL the
dereference `*entitiesJson` panics. -/
def LoadEntitiesByAttribute {σ : Type} (j : JsonDecoder) (d : Driver σ) (q : Session σ)
    (id : Int) : Outcome (List attributeEntityEmbed × Option Error) × Session σ :=
  let r := q.send d ⟨loadEntitiesByAttribute, [.int id]⟩
  match r.1.firstRow with
  | .error e => (.returned ([], some e), r.2)
  | .ok [c0] =>
    match scanStringPtr c0 with
    | .error e => (.returned ([], some e), r.2)
    | .ok none => (.panicked, r.2)
    | .ok (some text) =>
      match parseEntitiesJson j text with
      | (_, some e) => (.returned ([], some e), r.2)
      | (entities, none) => (.returned (entities, none), r.2)
  | .ok _ => (.returned ([], some scanArity), r.2)

/-- The method `Attribute.GetEntities` of `attribute.go`: when it returns, the attribute
after the call, the collection and the error. -/
def Attribute.GetEntities {σ : Type} (j : JsonDecoder) (d : Driver σ) (q : Session σ)
    (a : Attribute) : Outcome (Attribute × List attributeEntityEmbed × Option Error) × Session σ :=
  if !a.loadedEntities then
    match LoadEntitiesByAttribute j d q a.ID with
    | (.panicked, q1) => (.panicked, q1)
    | (.returned r, q1) =>
      let a1 := (a.setEntities r.1).setLoadedEntities true
      (.returned (a1, a1.entities, r.2), q1)
  else (.returned (a, a.entities, none), q)

/-- The function `NewAttribute` of `attribute.go`: no check of the type tag. -/
def NewAttribute (name : String) (slug : String) (attrType : AttributeType) : Attribute :=
  .mk 0 name slug attrType [] false

/-- The option `WithAttribute` of `entity.go`. -/
def WithAttribute (attr : Attribute) : Entity → Entity :=
  fun e => e.setAttributes (e.attributes ++ [.mk attr false])

/-- The option `WithRequiredAttribute` of `entity.go`. -/
def WithRequiredAttribute (attr : Attribute) : Entity → Entity :=
  fun e => e.setAttributes (e.attributes ++ [.mk attr true])

/-- The function `NewEntity` of `entity.go`. -/
def NewEntity (name : String) (slug : String) (opts : List (Entity → Entity)) : Entity :=
  opts.foldl (fun entity opt => opt entity) (.mk 0 name slug [] false)

/-- The first loop of `Entity.Save`: an attribute whose ID is 0 is created, any other is
kept as it is. -/
def saveAttributesLoop {σ : Type} (d : Driver σ) :
    Session σ → List EntityAttributeEmbed → List Attribute →
      (List Attribute × Option Error) × Session σ
  | q, [], storedAttributes => ((storedAttributes, none), q)
  | q, embed :: rest, storedAttributes =>
    if embed.Attribute.ID = 0 then
      match CreateAttribute d q
          ⟨embed.Attribute.Name, embed.Attribute.Slug, embed.Attribute.Typ⟩ with
      | ((_, some err), q1) => ((storedAttributes, some err), q1)
      | ((storedAttribute, none), q1) =>
        saveAttributesLoop d q1 rest (storedAttributes ++ [storedAttribute])
    else saveAttributesLoop d q rest (storedAttributes ++ [embed.Attribute])

/-- The second loop of `Entity.Save`: one link per stored attribute, with the required flag
of the attribute at the same index of `e.attributes`. -/
def saveMappingsLoop {σ : Type} (d : Driver σ) (entityID : Int) :
    Session σ → List Attribute → List EntityAttributeEmbed → List EntityAttributeEmbed →
      (List EntityAttributeEmbed × Option Error) × Session σ
  | q, attr :: rest, original :: originals, mappedAttributes =>
    match CreateEntityAttribute d q ⟨entityID, attr.ID, original.Required⟩ with
    | ((_, some err), q1) => ((mappedAttributes, some err), q1)
    | ((mapping, none), q1) =>
      saveMappingsLoop d entityID q1 rest originals (mappedAttributes ++ [.mk attr mapping.Required])
  | q, _, _, mappedAttributes => ((mappedAttributes, none), q)

/-- The method `Entity.Save` of `entity.go`: the entity after the call and the error. -/
def Entity.Save {σ : Type} (d : Driver σ) (q : Session σ) (e : Entity) :
    (Entity × Option Error) × Session σ :=
  if e.ID ≠ 0 then ((e, some (.new "Entity has already been saved")), q)
  else
    match CreateEntity d q ⟨e.Name, e.Slug⟩ with
    | ((_, some err), q1) => ((e, some err), q1)
    | ((entity, none), q1) =>
      let e1 := e.setID entity.ID
      match saveAttributesLoop d q1 e1.attributes [] with
      | ((_, some err), q2) => ((e1, some (.wrapped "Failed creating new attribute: " err)), q2)
      | ((storedAttributes, none), q2) =>
        match saveMappingsLoop d e1.ID q2 storedAttributes e1.attributes [] with
        | ((_, some err), q3) =>
          ((e1, some (.wrapped "Failed creating entity->attribute map: " err)), q3)
        | ((mappedAttributes, none), q3) => ((e1.setAttributes mappedAttributes, none), q3)

/-! ## Command line (`geaves-cli/attribute.go`) -/

/-- How a command ends: `os.Exit(code)`, or a return with its error. -/
inductive CommandOutcome
  | exited (code : Nat)
  | returned (err : Option Error)
  deriving DecidableEq, Repr

/-- The function `createAttributeCommand`, after the flags are parsed into `name`, `slug`
and `typeString` (what it prints is left out). -/
def createAttributeCommand {σ : Type} (d : Driver σ) (q : Session σ)
    (name : String) (slug : String) (typeString : String) : CommandOutcome × Session σ :=
  if name = "" ∨ slug = "" ∨ typeString = "" then (.exited 1, q)
  else if !ValidAttributeType typeString then (.exited 1, q)
  else
    match CreateAttribute d q ⟨name, slug, typeString⟩ with
    | ((_, some err), q1) => (.returned (some err), q1)
    | ((_, none), q1) => (.returned none, q1)

/-! ## Items and their attribute values (`item.go`) -/

/-- The call `strconv.ParseInt(s, 10, bitSize)`: an optional sign, then decimal digits,
within the range of the signed integers of `bitSize` bits; bit size 0 is `int`, taken as 64
bits wide. -/
def ParseInt (s : String) (bitSize : Nat) : Option Int :=
  let bits := if bitSize = 0 then 64 else bitSize
  match s.data with
  | '-' :: ds => (parseDigits ds).bind fun n =>
      if n ≤ 2 ^ (bits - 1) then some (-(n : Int)) else none
  | '+' :: ds => (parseDigits ds).bind fun n =>
      if n < 2 ^ (bits - 1) then some (n : Int) else none
  | ds => (parseDigits ds).bind fun n =>
      if n < 2 ^ (bits - 1) then some (n : Int) else none

/-- The call `strconv.ParseUint(s, 10, bitSize)`: decimal digits without sign, within the
range of the unsigned integers of `bitSize` bits; bit size 0 is `uint`, taken as 64 bits
wide. -/
def ParseUint (s : String) (bitSize : Nat) : Option Nat :=
  let bits := if bitSize = 0 then 64 else bitSize
  (parseDigits s.data).bind fun n => if n < 2 ^ bits then some n else none

/-- The call `strconv.ParseBool(s)`. -/
def ParseBool (s : String) : Option Bool :=
  if s ∈ ["1", "t", "T", "TRUE", "true", "True"] then some true
  else if s ∈ ["0", "f", "F", "FALSE", "false", "False"] then some false
  else none

/-- The Go struct `Item`. Its unexported fields (`attributes`, `entity` and the two loaded
flags) are read and written by no function of the package and are left out. -/
structure Item where
  ID : Int
  EntityID : Int
  deriving DecidableEq, Repr

/-- The Go struct `ItemAttribute[T]`; the field `Type` is written `Typ`. -/
structure ItemAttribute (T : Type) where
  ItemID : Int
  AttributeID : Int
  Typ : AttributeType
  Value : T

/-- What `database/sql` knows of a Go type `X` that is not a pointer: its zero value, how a
value of it is handed to the driver as a statement argument
(`driver.DefaultParameterConverter`), how `Scan` converts a column into it, and whether it
is `time.Time`. -/
structure ElemKind (X : Type) where
  zero : X
  bind : X → Except Error DriverValue
  scan : DriverValue → Except Error X
  ofTime : Option (GoTime → X)

/-- What `database/sql` and the type assertion of `Load` know of the type parameter `T` of
`ItemAttribute[T]`: how a value is handed to the driver, what `Scan(&ia.Value)` leaves in the
destination (given what it held) together with its error, and the result of the assertion
`any(&time).(T)`, which exists only when `T` is `*time.Time`. -/
structure GoKind (T : Type) where
  bind : T → Except Error DriverValue
  scan : T → DriverValue → T × Option Error
  fromTimePtr : Option (GoTime → T)

/-- A pointer type `*X`. The nil pointer is handed to the driver as NULL and a pointer as
the value it points at. `Scan` sets the pointer to nil on NULL; on any other value it first
points it at a fresh `X` and then converts into that, so a failed conversion leaves a
pointer at the zero value. -/
def GoKind.pointer {X : Type} (e : ElemKind X) : GoKind (Option X) where
  bind := fun v =>
    match v with
    | none => .ok .null
    | some x => e.bind x
  scan := fun _ c =>
    match c with
    | .null => (none, none)
    | c =>
      match e.scan c with
      | .ok x => (some x, none)
      | .error err => (some e.zero, some err)
  fromTimePtr := e.ofTime.map fun f t => some (f t)

/-- A type `X` that is neither a pointer nor an interface: a failed conversion, that of NULL
included, leaves the destination as it was, and the assertion `any(&time).(X)` fails. -/
def GoKind.plain {X : Type} (e : ElemKind X) : GoKind X where
  bind := e.bind
  scan := fun old c =>
    match e.scan c with
    | .ok x => (x, none)
    | .error err => (old, some err)
  fromTimePtr := none

/-- Scan into a signed integer of `bitSize` bits (0 for `int`): an integer of the store is
taken when it is in range, any other value goes through its text and `strconv.ParseInt`. -/
def scanInt (bitSize : Nat) : DriverValue → Except Error Int
  | .null => .error (.scan "converting NULL to int is unsupported")
  | .int n =>
    if -(2 ^ ((if bitSize = 0 then 64 else bitSize) - 1) : Int) ≤ n ∧
        n < 2 ^ ((if bitSize = 0 then 64 else bitSize) - 1) then .ok n
    else .error (.scan "converting driver.Value to a int: value out of range")
  | v =>
    match ParseInt (asString v) bitSize with
    | some n => .ok n
    | none => .error (.scan "converting driver.Value to a int: invalid syntax")

/-- Scan into an unsigned integer of `bitSize` bits (0 for `uint`). -/
def scanUint (bitSize : Nat) : DriverValue → Except Error Nat
  | .null => .error (.scan "converting NULL to uint is unsupported")
  | .int n =>
    if 0 ≤ n ∧ n < 2 ^ (if bitSize = 0 then 64 else bitSize) then .ok n.toNat
    else .error (.scan "converting driver.Value to a uint: value out of range")
  | v =>
    match ParseUint (asString v) bitSize with
    | some n => .ok n
    | none => .error (.scan "converting driver.Value to a uint: invalid syntax")

/-- Scan into a `*[]byte` destination: NULL gives the nil slice, a byte slice itself, any
other value the bytes of its text. -/
def scanBytes : DriverValue → Except Error (List Nat)
  | .null => .ok []
  | .blob b => .ok b
  | .time t => .ok (goBytes t.RFC3339Nano)
  | v => .ok (goBytes (asString v))

/-- Scan into a `*time.Time` destination: only a time of the driver is taken. -/
def scanTime : DriverValue → Except Error GoTime
  | .time t => .ok t
  | _ => .error (.scan "unsupported Scan, storing driver.Value into type *time.Time")

def ElemKind.bool : ElemKind Bool :=
  { zero := false, bind := fun b => .ok (.bool b), scan := scanBool, ofTime := none }

def ElemKind.string : ElemKind String :=
  { zero := "", bind := fun s => .ok (.text s), scan := scanString, ofTime := none }

/-- The types `int` (bit size 0), `int8`, `int16`, `int32` (and `rune`), `int64`. -/
def ElemKind.int (bitSize : Nat) : ElemKind Int :=
  { zero := 0, bind := fun n => .ok (.int n), scan := scanInt bitSize, ofTime := none }

/-- The types `uint` (bit size 0, 64 bits wide), `uint8` (and `byte`), `uint16`, `uint32`,
`uint64`. The default converter of `database/sql/driver` refuses a `uint64` whose high bit is
set; a value of every other unsigned kind is converted with `int64(rv.Uint())`, which wraps a
`uint` from 2^63 up into a negative number. -/
def ElemKind.uint (bitSize : Nat) : ElemKind Nat :=
  { zero := 0
    bind := fun n =>
      if bitSize = 64 then
        if n < 2 ^ 63 then .ok (.int n)
        else .error (.new "uint64 values with high bit set are not supported")
      else if n % 2 ^ 64 < 2 ^ 63 then .ok (.int (n % 2 ^ 64 : Nat))
      else .ok (.int ((n % 2 ^ 64 : Nat) - 2 ^ 64))
    scan := scanUint bitSize
    ofTime := none }

/-- The types `float32` and `float64`, with `strconv.ParseFloat` as a parameter. -/
def ElemKind.float (parseFloat : String → Nat → Option GoFloat) (bitSize : Nat) :
    ElemKind GoFloat :=
  { zero := ⟨"0"⟩
    bind := fun x => .ok (.real x)
    scan := fun c =>
      match c with
      | .null => .error (.scan "converting NULL to float is unsupported")
      | c =>
        match parseFloat (asString c) bitSize with
        | some x => .ok x
        | none => .error (.scan "converting driver.Value to a float: invalid syntax")
    ofTime := none }

def ElemKind.bytes : ElemKind (List Nat) :=
  { zero := [], bind := fun b => .ok (.blob b), scan := scanBytes, ofTime := none }

def ElemKind.time : ElemKind GoTime :=
  { zero := ⟨1, 1, 1, 0, 0, 0, 0, 0, "UTC"⟩
    bind := fun t => .ok (.time t)
    scan := scanTime
    ofTime := some id }

/-- The interface type `any`: a value of the driver is stored as it is. -/
def ElemKind.any : ElemKind DriverValue :=
  { zero := .null, bind := fun v => .ok v, scan := fun c => .ok c, ofTime := none }

/-- The call `q.db.ExecContext(ctx, text, args...)`, of which the code keeps the error. -/
def Session.exec {σ : Type} (d : Driver σ) (q : Session σ) (st : Stmt) :
    Option Error × Session σ :=
  let r := q.send d st
  match r.1 with
  | .failure e => (some e, r.2)
  | _ => (none, r.2)

def createItem : String := "
INSERT INTO items (entity_id) VALUES (?)
RETURNING *;
"

def updateItemEntityID : String := "
UPDATE items SET entity_id = ? WHERE id = ?;
"

def deleteItem : String := "
DELETE FROM items WHERE id = ?;
"

def getItem : String := "
SELECT * FROM items WHERE id = ?;
"

def deleteItemAttribute : String := "
DELETE FROM item_attribute WHERE item_id = ? AND attribute_id = ?;
"

def deleteItemAttributesByItem : String := "
DELETE FROM item_attribute WHERE item_id = ?
"

def deleteItemAttributesByAttribute : String := "
DELETE FROM item_attribute WHERE attribute_id = ?
"

/-- The statement of `ItemAttribute.Create`. -/
def insertItemAttribute : String :=
  "INSERT INTO item_attribute (item_id, attribute_id, value) VALUES(?, ?, ?);"

/-- The statement of `ItemAttribute.Update`. -/
def updateItemAttribute : String :=
  "UPDATE item_attribute SET value = ? WHERE item_id = ? AND attribute_id = ?"

/-- The query of `ItemAttribute.Load`. -/
def selectItemAttribute : String :=
  "SELECT value FROM item_attribute WHERE item_id = ? AND attribute_id = ?"

/-- The method `Queries.UpdateItemEntityID` of `item.go`. -/
def UpdateItemEntityID {σ : Type} (d : Driver σ) (q : Session σ) (entityId : Int)
    (itemId : Int) : Option Error × Session σ :=
  q.exec d ⟨updateItemEntityID, [.int entityId, .int itemId]⟩

/-- The method `Queries.DeleteItem` of `item.go`. -/
def DeleteItem {σ : Type} (d : Driver σ) (q : Session σ) (id : Int) :
    Option Error × Session σ :=
  q.exec d ⟨deleteItem, [.int id]⟩

/-- The method `Queries.DeleteItemAttributes` of `item.go`: the text it executes is the
constant `deleteItemAttributesByItem`, with the item id and the attribute id as arguments;
the constant `deleteItemAttribute` is used nowhere. -/
def DeleteItemAttributes {σ : Type} (d : Driver σ) (q : Session σ) (itemId : Int)
    (attributeId : Int) : Option Error × Session σ :=
  q.exec d ⟨deleteItemAttributesByItem, [.int itemId, .int attributeId]⟩

/-- The method `Queries.DeleteItemAttributesByItem` of `item.go`. -/
def DeleteItemAttributesByItem {σ : Type} (d : Driver σ) (q : Session σ) (itemId : Int) :
    Option Error × Session σ :=
  q.exec d ⟨deleteItemAttributesByItem, [.int itemId]⟩

/-- The method `Queries.DeleteItemAttributesByAttribute` of `item.go`. -/
def DeleteItemAttributesByAttribute {σ : Type} (d : Driver σ) (q : Session σ)
    (attributeId : Int) : Option Error × Session σ :=
  q.exec d ⟨deleteItemAttributesByAttribute, [.int attributeId]⟩

/-- The call `row.Scan(&i.ID, &i.EntityID)` on the row a query returned. -/
def scanItemRow (r : Reply) : Item × Option Error :=
  match r.firstRow with
  | .error e => (⟨0, 0⟩, some e)
  | .ok [c0, c1] =>
    match scanInt64 c0 with
    | .error e => (⟨0, 0⟩, some e)
    | .ok id =>
      match scanInt64 c1 with
      | .error e => (⟨id, 0⟩, some e)
      | .ok entityId => (⟨id, entityId⟩, none)
  | .ok _ => (⟨0, 0⟩, some scanArity)

/-- The method `Queries.CreateItem` of `item.go`. -/
def CreateItem {σ : Type} (d : Driver σ) (q : Session σ) (entityId : Int) :
    (Item × Option Error) × Session σ :=
  let r := q.send d ⟨createItem, [.int entityId]⟩
  (scanItemRow r.1, r.2)

/-- The method `Queries.GetItem` of `item.go`. -/
def GetItem {σ : Type} (d : Driver σ) (q : Session σ) (id : Int) :
    (Item × Option Error) × Session σ :=
  let r := q.send d ⟨getItem, [.int id]⟩
  (scanItemRow r.1, r.2)

/-- The method `Item.ChangeEntityID` of `item.go`: the update of the item row comes first,
the delete of the values second, the assignment to `i.EntityID` last. -/
def Item.ChangeEntityID {σ : Type} (d : Driver σ) (q : Session σ) (i : Item)
    (entityId : Int) : (Item × Option Error) × Session σ :=
  match UpdateItemEntityID d q entityId i.ID with
  | (some err, q1) => ((i, some err), q1)
  | (none, q1) =>
    match DeleteItemAttributesByItem d q1 i.ID with
    | (some err, q2) => ((i, some err), q2)
    | (none, q2) => (({ i with EntityID := entityId }, none), q2)

/-- The method `Item.ChangeEntity` of `item.go`. -/
def Item.ChangeEntity {σ : Type} (d : Driver σ) (q : Session σ) (i : Item)
    (entity : Entity) : (Item × Option Error) × Session σ :=
  i.ChangeEntityID d q entity.ID

/-- The method `Item.Delete` of `item.go`. -/
def Item.Delete {σ : Type} (d : Driver σ) (q : Session σ) (i : Item) :
    Option Error × Session σ :=
  match DeleteItemAttributesByItem d q i.ID with
  | (some err, q1) => (some err, q1)
  | (none, q1) => DeleteItem d q1 i.ID

/-- The method `ItemAttribute.Create` of `item.go`. When `database/sql` cannot convert the
value, which is the third argument, it returns the error of the conversion wrapped as
`sql: converting argument $3 type: ...` without handing the statement to the store. -/
def ItemAttribute.Create {σ T : Type} (kind : GoKind T) (d : Driver σ) (q : Session σ)
    (ia : ItemAttribute T) : Option Error × Session σ :=
  match kind.bind ia.Value with
  | .error e => (some (.wrapped "sql: converting argument $3 type: " e), q)
  | .ok v => q.exec d ⟨insertItemAttribute, [.int ia.ItemID, .int ia.AttributeID, v]⟩

/-- The method `ItemAttribute.Update` of `item.go`: the error of the statement is all that is
looked at, not the number of rows it changed. The value is the first argument, so an error
of its conversion comes back wrapped as `sql: converting argument $1 type: ...`. -/
def ItemAttribute.Update {σ T : Type} (kind : GoKind T) (d : Driver σ) (q : Session σ)
    (ia : ItemAttribute T) : Option Error × Session σ :=
  match kind.bind ia.Value with
  | .error e => (some (.wrapped "sql: converting argument $1 type: " e), q)
  | .ok v => q.exec d ⟨updateItemAttribute, [v, .int ia.ItemID, .int ia.AttributeID]⟩

/-- The method `ItemAttribute.Load` of `item.go`: the item attribute after the call and the
error. The query is issued before the switch on the type. For the types `time`, `date` and
`datetime` the column is scanned into a `*string`; a scan error or a nil pointer returns at
once; otherwise the text is parsed with the layout `2006-01-02 15:04:05 -0700 MST` and the
pointer to the time is asserted to be a `T`, which panics unless `T` is `*time.Time`. For
every other type the column is scanned into `ia.Value`. -/
def ItemAttribute.Load {σ T : Type} (kind : GoKind T) (d : Driver σ) (q : Session σ)
    (ia : ItemAttribute T) : Outcome (ItemAttribute T × Option Error) × Session σ :=
  let r := q.send d ⟨selectItemAttribute, [.int ia.ItemID, .int ia.AttributeID]⟩
  if ia.Typ = TimeType ∨ ia.Typ = DateType ∨ ia.Typ = DatetimeType then
    match r.1.firstRow with
    | .error e => (.returned (ia, some e), r.2)
    | .ok [c0] =>
      match scanStringPtr c0 with
      | .error e => (.returned (ia, some e), r.2)
      | .ok none => (.returned (ia, none), r.2)
      | .ok (some text) =>
        match ParseTime "2006-01-02 15:04:05 -0700 MST" text with
        | .error e => (.returned (ia, some e), r.2)
        | .ok time =>
          match kind.fromTimePtr with
          | none => (.panicked, r.2)
          | some assert => (.returned ({ ia with Value := assert time }, none), r.2)
    | .ok _ => (.returned (ia, some scanArity), r.2)
  else
    match r.1.firstRow with
    | .error e => (.returned (ia, some e), r.2)
    | .ok [c0] =>
      (.returned ({ ia with Value := (kind.scan ia.Value c0).1 }, (kind.scan ia.Value c0).2), r.2)
    | .ok _ => (.returned (ia, some scanArity), r.2)

/-! ## Command line (`geaves-cli/item.go`) -/

/-- The function `getAttributeByIdOrSlug` of `geaves-cli/attribute.go`. -/
def getAttributeByIdOrSlug {σ : Type} (k : Selectors) (j : JsonDecoder) (d : Driver σ)
    (q : Session σ) (search : String) (entities : Bool) :
    (Attribute × Option Error) × Session σ :=
  match ParseInt64 search with
  | some id => GetAttribute k j d q ⟨entities, k.ByID, .int64 id⟩
  | none => GetAttribute k j d q ⟨entities, k.BySlug, .string search⟩

/-- The function `deleteItemCommand`: the values are purged first, the item row is deleted
second (what it prints is left out). -/
def deleteItemCommand {σ : Type} (d : Driver σ) (q : Session σ) (cmdName : String)
    (args : List String) : Option Error × Session σ :=
  match args with
  | [] => (some (.new (Sprintf "%s requires 1 argument, the item id" cmdName)), q)
  | a0 :: _ =>
    match ParseInt64 a0 with
    | none =>
      (some (.wrapped "Failed to convert id to int64: " (.parse "strconv.ParseInt")), q)
    | some id =>
      match DeleteItemAttributesByItem d q id with
      | (some err, q1) => (some (.wrapped "Failed to delete item attributes: " err), q1)
      | (none, q1) => DeleteItem d q1 id

/-- The method the switch of a write command calls on the item attribute: `Create` in
`itemAddAttributeCommand`, `Update` in `itemSetAttributeCommand`. The two switches are the
same text but for this call. -/
inductive WriteMethod
  | create
  | update
  deriving DecidableEq, Repr

/-- The tail every case of the switch has: the item attribute is built from the ids and the
value, written, and an error of the write is returned wrapped. -/
def writeItemAttribute {σ T : Type} (m : WriteMethod) (kind : GoKind T) (d : Driver σ)
    (q : Session σ) (itemID attributeID : Int) (value : T) :
    Outcome (Option Error) × Session σ :=
  match (match m with
      | .create => ItemAttribute.Create kind d q ⟨itemID, attributeID, "", value⟩
      | .update => ItemAttribute.Update kind d q ⟨itemID, attributeID, "", value⟩) with
  | (some err, q1) =>
    (.returned (some (.wrapped "failed to create item_attribute record: " err)), q1)
  | (none, q1) => (.returned none, q1)

/-- The `switch (geaves.AttributeType(attribute.Type))` of `itemAddAttributeCommand` and of
`itemSetAttributeCommand`. A text that does not parse leaves the pointer `value` nil. For
`byte` and `rune` the element 0 of the converted text is taken, which panics when the text
is empty. `strconv.ParseFloat` is a parameter. -/
def itemAttributeSwitch {σ : Type} (parseFloat : String → Nat → Option GoFloat)
    (m : WriteMethod) (d : Driver σ) (q : Session σ) (item : Item) (attr : Attribute)
    (text : String) : Outcome (Option Error) × Session σ :=
  if attr.Typ = BoolType then
    writeItemAttribute m (.pointer .bool) d q item.ID attr.ID (ParseBool text)
  else if attr.Typ = StringType then
    writeItemAttribute m (.pointer .string) d q item.ID attr.ID (some text)
  else if attr.Typ = IntType then
    writeItemAttribute m (.pointer (.int 0)) d q item.ID attr.ID (ParseInt text 0)
  else if attr.Typ = Int8Type then
    writeItemAttribute m (.pointer (.int 8)) d q item.ID attr.ID (ParseInt text 8)
  else if attr.Typ = Int16Type then
    writeItemAttribute m (.pointer (.int 16)) d q item.ID attr.ID (ParseInt text 16)
  else if attr.Typ = Int32Type then
    writeItemAttribute m (.pointer (.int 32)) d q item.ID attr.ID (ParseInt text 32)
  else if attr.Typ = Int64Type then
    writeItemAttribute m (.pointer (.int 64)) d q item.ID attr.ID (ParseInt text 64)
  else if attr.Typ = UintType then
    writeItemAttribute m (.pointer (.uint 0)) d q item.ID attr.ID (ParseUint text 0)
  else if attr.Typ = Uint8Type then
    writeItemAttribute m (.pointer (.uint 8)) d q item.ID attr.ID (ParseUint text 8)
  else if attr.Typ = Uint16Type then
    writeItemAttribute m (.pointer (.uint 16)) d q item.ID attr.ID (ParseUint text 16)
  else if attr.Typ = Uint32Type then
    writeItemAttribute m (.pointer (.uint 32)) d q item.ID attr.ID (ParseUint text 32)
  else if attr.Typ = Uint64Type then
    writeItemAttribute m (.pointer (.uint 64)) d q item.ID attr.ID (ParseUint text 64)
  else if attr.Typ = ByteType then
    match goBytes text with
    | [] => (.panicked, q)
    | b :: _ => writeItemAttribute m (.pointer (.uint 8)) d q item.ID attr.ID (some b)
  else if attr.Typ = RuneType then
    match goRunes text with
    | [] => (.panicked, q)
    | r :: _ => writeItemAttribute m (.pointer (.int 32)) d q item.ID attr.ID (some r)
  else if attr.Typ = Float32Type then
    writeItemAttribute m (.pointer (.float parseFloat 32)) d q item.ID attr.ID
      (parseFloat text 32)
  else if attr.Typ = Float64Type then
    writeItemAttribute m (.pointer (.float parseFloat 64)) d q item.ID attr.ID
      (parseFloat text 64)
  else if attr.Typ = BlobType then
    writeItemAttribute m (.pointer .bytes) d q item.ID attr.ID (some (goBytes text))
  else if attr.Typ = DateType then
    writeItemAttribute m (.pointer .time) d q item.ID attr.ID
      (ParseTime "2006-01-02" text).toOption
  else if attr.Typ = TimeType then
    writeItemAttribute m (.pointer .time) d q item.ID attr.ID
      (ParseTime "15:04:05" text).toOption
  else if attr.Typ = DatetimeType then
    writeItemAttribute m (.pointer .time) d q item.ID attr.ID
      (ParseTime "2006-01-02 15:04:05" text).toOption
  else
    writeItemAttribute m (.pointer .any) d q item.ID attr.ID none

/-- What `itemAddAttributeCommand` and `itemSetAttributeCommand` do before and around the
switch: the item id is parsed, the item and the attribute are looked up, and each failure
is returned wrapped (what they print is left out). -/
def itemWriteCommand {σ : Type} (k : Selectors) (j : JsonDecoder)
    (parseFloat : String → Nat → Option GoFloat) (m : WriteMethod) (d : Driver σ)
    (q : Session σ) (cmdName : String) (args : List String) :
    Outcome (Option Error) × Session σ :=
  match args with
  | a0 :: a1 :: a2 :: _ =>
    match ParseInt64 a0 with
    | none =>
      (.returned (some (.wrapped "Failed to convert id to int64: " (.parse "strconv.ParseInt"))),
        q)
    | some id =>
      match GetItem d q id with
      | ((_, some err), q1) => (.returned (some (.wrapped "Failed to get item: " err)), q1)
      | ((item, none), q1) =>
        match getAttributeByIdOrSlug k j d q1 a1 false with
        | ((_, some err), q2) =>
          (.returned (some (.wrapped "Failed to get attribute: " err)), q2)
        | ((attr, none), q2) => itemAttributeSwitch parseFloat m d q2 item attr a2
  | _ =>
    (.returned (some (.new (Sprintf
      "%s required 3 arguments, the item id, the attribute id or slug and the new value"
      cmdName))), q)

/-- The function `itemAddAttributeCommand`. -/
def itemAddAttributeCommand {σ : Type} (k : Selectors) (j : JsonDecoder)
    (parseFloat : String → Nat → Option GoFloat) (d : Driver σ) (q : Session σ)
    (cmdName : String) (args : List String) : Outcome (Option Error) × Session σ :=
  itemWriteCommand k j parseFloat .create d q cmdName args

/-- The function `itemSetAttributeCommand`. -/
def itemSetAttributeCommand {σ : Type} (k : Selectors) (j : JsonDecoder)
    (parseFloat : String → Nat → Option GoFloat) (d : Driver σ) (q : Session σ)
    (cmdName : String) (args : List String) : Outcome (Option Error) × Session σ :=
  itemWriteCommand k j parseFloat .update d q cmdName args

/-- The function `itemDelAttributeCommand`. -/
def itemDelAttributeCommand {σ : Type} (k : Selectors) (j : JsonDecoder) (d : Driver σ)
    (q : Session σ) (cmdName : String) (args : List String) : Option Error × Session σ :=
  match args with
  | a0 :: a1 :: _ =>
    match ParseInt64 a0 with
    | none =>
      (some (.wrapped "Failed to convert id to int64: " (.parse "strconv.ParseInt")), q)
    | some id =>
      match GetItem d q id with
      | ((_, some err), q1) => (some (.wrapped "Failed to get item: " err), q1)
      | ((item, none), q1) =>
        match getAttributeByIdOrSlug k j d q1 a1 false with
        | ((_, some err), q2) => (some (.wrapped "Failed to get attribute: " err), q2)
        | ((attr, none), q2) => DeleteItemAttributes d q2 item.ID attr.ID
  | _ =>
    (some (.new (Sprintf
      "%s required 2 arguments, the item id and attribute id to delete item attribute"
      cmdName)), q)

/-! ## Listing the values of an item (`item.go`) -/

def listItemAttributesByItem : String := "
SELECT item_id, attribute_id, value, type
FROM item_attribute
LEFT JOIN attributes ON attributes.id = item_attribute.attribute_id
WHERE item_id = ?;
"

/-- The call `rows.Scan(&i.ItemID, &i.AttributeID, &i.Value, &attributeType)` of
`ListItemAttributes` on a fresh `i`: the fourth column is scanned into the local
`attributeType`, which is read nowhere, and `i.Type` is assigned nowhere. -/
def scanItemAttributeRow (cols : List DriverValue) :
    ItemAttribute (Option DriverValue) × Option Error :=
  match cols with
  | [c0, c1, c2, c3] =>
    match scanInt64 c0 with
    | .error e => (⟨0, 0, "", none⟩, some e)
    | .ok itemID =>
      match scanInt64 c1 with
      | .error e => (⟨itemID, 0, "", none⟩, some e)
      | .ok attributeID =>
        match (GoKind.pointer ElemKind.any).scan none c2 with
        | (value, some e) => (⟨itemID, attributeID, "", value⟩, some e)
        | (value, none) =>
          match scanString c3 with
          | .error e => (⟨itemID, attributeID, "", value⟩, some e)
          | .ok _ => (⟨itemID, attributeID, "", value⟩, none)
  | _ => (⟨0, 0, "", none⟩, some scanArity)

/-- The `for rows.Next()` loop of `ListItemAttributes`: a failing scan returns the items
gathered so far together with the error. -/
def listItemAttributesLoop :
    List (List DriverValue) → List (ItemAttribute (Option DriverValue)) →
      List (ItemAttribute (Option DriverValue)) × Option Error
  | [], items => (items, none)
  | cols :: rest, items =>
    match scanItemAttributeRow cols with
    | (_, some e) => (items, some e)
    | (i, none) => listItemAttributesLoop rest (items ++ [i])

/-- The method `Queries.ListItemAttributes` of `item.go`. -/
def ListItemAttributes {σ : Type} (d : Driver σ) (q : Session σ) (itemId : Int) :
    (List (ItemAttribute (Option DriverValue)) × Option Error) × Session σ :=
  let r := q.send d ⟨listItemAttributesByItem, [.int itemId]⟩
  match r.1.allRows with
  | .error e => (([], some e), r.2)
  | .ok rows => (listItemAttributesLoop rows [], r.2)

/-! ## Updating and deleting entities and attributes (`entity.go`, `attribute.go`) -/

def updateEntityName : String := "
UPDATE entities SET name = ? WHERE id = ?;
"

def updateEntitySlug : String := "
UPDATE entities SET slug = ? WHERE id = ?;
"

def deleteEntity : String := "
DELETE FROM entities WHERE id = ?;
"

def updateAttributeName : String := "
UPDATE attributes SET name = ? WHERE id = ?;
"

def updateAttributeSlug : String := "
UPDATE attributes SET slug = ? WHERE id = ?;
"

def updateAttributeType : String := "
UPDATE attributes SET type = ? WHERE id = ?;
"

def deleteAttribute : String := "
DELETE FROM attributes WHERE id = ?;
"

/-- The method `Queries.UpdateEntityName` of `entity.go`. -/
def UpdateEntityName {σ : Type} (d : Driver σ) (q : Session σ) (name : String) (id : Int) :
    Option Error × Session σ :=
  q.exec d ⟨updateEntityName, [.text name, .int id]⟩

/-- The method `Queries.UpdateEntitySlug` of `entity.go`. -/
def UpdateEntitySlug {σ : Type} (d : Driver σ) (q : Session σ) (slug : String) (id : Int) :
    Option Error × Session σ :=
  q.exec d ⟨updateEntitySlug, [.text slug, .int id]⟩

/-- The method `Queries.DeleteEntity` of `entity.go`. -/
def DeleteEntity {σ : Type} (d : Driver σ) (q : Session σ) (id : Int) :
    Option Error × Session σ :=
  q.exec d ⟨deleteEntity, [.int id]⟩

/-- The method `Queries.UpdateAttributeName` of `attribute.go`: the text it executes is the
constant `updateEntityName`. -/
def UpdateAttributeName {σ : Type} (d : Driver σ) (q : Session σ) (name : String) (id : Int) :
    Option Error × Session σ :=
  q.exec d ⟨updateEntityName, [.text name, .int id]⟩

/-- The method `Queries.UpdateAttributeSlug` of `attribute.go`: the text it executes is the
constant `updateEntitySlug`. -/
def UpdateAttributeSlug {σ : Type} (d : Driver σ) (q : Session σ) (slug : String) (id : Int) :
    Option Error × Session σ :=
  q.exec d ⟨updateEntitySlug, [.text slug, .int id]⟩

/-- The method `Queries.UpdateAttributeType` of `attribute.go`: the text it executes is the
constant `updateEntitySlug`. -/
def UpdateAttributeType {σ : Type} (d : Driver σ) (q : Session σ) (newType : AttributeType)
    (id : Int) : Option Error × Session σ :=
  q.exec d ⟨updateEntitySlug, [.text newType, .int id]⟩

/-- The method `Queries.DeleteAttribute` of `attribute.go`. -/
def DeleteAttribute {σ : Type} (d : Driver σ) (q : Session σ) (id : Int) :
    Option Error × Session σ :=
  q.exec d ⟨deleteAttribute, [.int id]⟩

/-! ## Command line (`geaves-cli/attribute.go`, `geaves-cli/entity.go`) -/

/-- The function `deleteAttributeCommand` (what it prints is left out). -/
def deleteAttributeCommand {σ : Type} (k : Selectors) (j : JsonDecoder) (d : Driver σ)
    (q : Session σ) (cmdName : String) (args : List String) : Option Error × Session σ :=
  match args with
  | [] =>
    (some (.new (Sprintf "%s requires 1 argument, either the id or the slug of the attribute"
      cmdName)), q)
  | a0 :: _ =>
    match getAttributeByIdOrSlug k j d q a0 false with
    | ((_, some err), q1) => (some err, q1)
    | ((attr, none), q1) => DeleteAttribute d q1 attr.ID

/-- The function `getEntityByIdOrSlug` of `geaves-cli/entity.go`: on the slug path the
parameter built is `WithAttributes: !attributes`. -/
def getEntityByIdOrSlug {σ : Type} (k : Selectors) (j : JsonDecoder) (d : Driver σ)
    (q : Session σ) (search : String) (attributes : Bool) :
    (Entity × Option Error) × Session σ :=
  match ParseInt64 search with
  | some id => GetEntity k j d q ⟨attributes, k.ByID, .int64 id⟩
  | none => GetEntity k j d q ⟨!attributes, k.BySlug, .string search⟩

/-! ## The store behind the item statements -/

/-- The rows of the relations `attributes` (id, name, slug, type), `items` (id, entity id)
and `item_attribute` (item id, attribute id, value). -/
structure Store where
  attributes : List (Int × String × String × String)
  items : List (Int × Int)
  values : List (Int × Int × DriverValue)
  deriving DecidableEq, Repr

/-- The statements the store knows. -/
inductive StmtKind
  | getItem
  | createItem
  | updateItemEntityID
  | deleteItem
  | insertItemAttribute
  | updateItemAttribute
  | selectItemAttribute
  | deleteItemAttribute
  | deleteItemAttributesByItem
  | deleteItemAttributesByAttribute
  | attributeByID
  | attributeBySlug
  | unknown
  deriving DecidableEq, Repr

/-- Which statement a text is. -/
def stmtKindOf (text : String) : StmtKind :=
  if text = getItem then .getItem
  else if text = createItem then .createItem
  else if text = updateItemEntityID then .updateItemEntityID
  else if text = deleteItem then .deleteItem
  else if text = insertItemAttribute then .insertItemAttribute
  else if text = updateItemAttribute then .updateItemAttribute
  else if text = selectItemAttribute then .selectItemAttribute
  else if text = deleteItemAttribute then .deleteItemAttribute
  else if text = deleteItemAttributesByItem then .deleteItemAttributesByItem
  else if text = deleteItemAttributesByAttribute then .deleteItemAttributesByAttribute
  else if text = Sprintf getAttributeNoEntitie "attributes.id" then .attributeByID
  else if text = Sprintf getAttributeNoEntitie "attributes.slug" then .attributeBySlug
  else .unknown

/-- What the driver `modernc.org/sqlite`, which `geaves-cli/main.go` imports, binds for an
argument: a boolean as the integer 1 or 0, a time as the text `Time.String` gives it (the
default of the driver), every other value as it is. -/
def storedValue : DriverValue → DriverValue
  | .bool b => .int (if b then 1 else 0)
  | .time t => .text t.goString
  | v => v

/-- Modelled from the spec: the relations are those of the persisted shape (unique id of an
item and of an attribute, unique pair of an item attribute), the schema `sql/tables.sql` not
being among the sources. SQLite reached through the driver `modernc.org/sqlite`, for the
statements of `item.go` and the attribute lookup without hydration. Parameters are bound from
the front of the argument list and an argument beyond the parameters of the statement is not
read. The column `value` keeps what is bound to it. Foreign keys are not checked. -/
def sqliteStore : Driver Store where
  answer := fun s st =>
    match stmtKindOf st.text, st.args with
    | .getItem, .int id :: _ =>
      (.rows ((s.items.filter fun r => r.1 = id).map fun r => [.int r.1, .int r.2]), s)
    | .createItem, .int entityId :: _ =>
      (.rows [[.int ((s.items.map fun r => r.1).foldl max 0 + 1), .int entityId]],
        { s with items := s.items ++ [((s.items.map fun r => r.1).foldl max 0 + 1, entityId)] })
    | .updateItemEntityID, .int entityId :: .int id :: _ =>
      (.done (s.items.filter fun r => r.1 = id).length,
        { s with items := s.items.map fun r => if r.1 = id then (r.1, entityId) else r })
    | .deleteItem, .int id :: _ =>
      (.done (s.items.filter fun r => r.1 = id).length,
        { s with items := s.items.filter fun r => ¬ r.1 = id })
    | .insertItemAttribute, .int itemId :: .int attributeId :: v :: _ =>
      if s.values.any (fun r => r.1 = itemId ∧ r.2.1 = attributeId) then
        (.failure (.storage "UNIQUE constraint failed: item_attribute.item_id, item_attribute.attribute_id"),
          s)
      else (.done 1, { s with values := s.values ++ [(itemId, attributeId, storedValue v)] })
    | .updateItemAttribute, v :: .int itemId :: .int attributeId :: _ =>
      (.done (s.values.filter fun r => r.1 = itemId ∧ r.2.1 = attributeId).length,
        { s with values := s.values.map fun r =>
            if r.1 = itemId ∧ r.2.1 = attributeId then (r.1, r.2.1, storedValue v) else r })
    | .selectItemAttribute, .int itemId :: .int attributeId :: _ =>
      (.rows ((s.values.filter fun r => r.1 = itemId ∧ r.2.1 = attributeId).map
        fun r => [r.2.2]), s)
    | .deleteItemAttribute, .int itemId :: .int attributeId :: _ =>
      (.done (s.values.filter fun r => r.1 = itemId ∧ r.2.1 = attributeId).length,
        { s with values := s.values.filter fun r => ¬ (r.1 = itemId ∧ r.2.1 = attributeId) })
    | .deleteItemAttributesByItem, .int itemId :: _ =>
      (.done (s.values.filter fun r => r.1 = itemId).length,
        { s with values := s.values.filter fun r => ¬ r.1 = itemId })
    | .deleteItemAttributesByAttribute, .int attributeId :: _ =>
      (.done (s.values.filter fun r => r.2.1 = attributeId).length,
        { s with values := s.values.filter fun r => ¬ r.2.1 = attributeId })
    | .attributeByID, .int id :: _ =>
      (.rows ((s.attributes.filter fun r => r.1 = id).map fun r =>
        [.int r.1, .text r.2.1, .text r.2.2.1, .text r.2.2.2, .null]), s)
    | .attributeBySlug, .text slug :: _ =>
      (.rows ((s.attributes.filter fun r => r.2.2.1 = slug).map fun r =>
        [.int r.1, .text r.2.1, .text r.2.2.1, .text r.2.2.2, .null]), s)
    | _, _ => (.failure (.storage "statement or arguments outside the model"), s)

/-! ## A decoder in the way of `encoding/json` -/

/-- A JSON value as the scanner of `encoding/json` delimits it. Of a number the integer is
kept when the literal has neither a fraction nor an exponent, which is when
`strconv.ParseInt` reads it. -/
inductive Json
  | null
  | bool (b : Bool)
  | num (integer : Option Int)
  | str (s : String)
  | arr (items : List Json)
  | obj (members : List (String × Json))

/-- Drop leading JSON white space. -/
def skipSpace : List Char → List Char
  | c :: rest => if c = ' ' ∨ c = '\n' ∨ c = '\t' ∨ c = '\r' then skipSpace rest else c :: rest
  | [] => []

/-- The value of a hexadecimal digit. -/
def hexValue (c : Char) : Option Nat :=
  if '0' ≤ c ∧ c ≤ '9' then some (c.toNat - '0'.toNat)
  else if 'a' ≤ c ∧ c ≤ 'f' then some (c.toNat - 'a'.toNat + 10)
  else if 'A' ≤ c ∧ c ≤ 'F' then some (c.toNat - 'A'.toNat + 10)
  else none

/-- The four hexadecimal digits of a `\u` escape. -/
def readHex4 : List Char → Option (Nat × List Char)
  | a :: b :: c :: d :: rest =>
    match hexValue a, hexValue b, hexValue c, hexValue d with
    | some x, some y, some z, some w => some (x * 4096 + y * 256 + z * 16 + w, rest)
    | _, _, _, _ => none
  | _ => none

/-- Read a string after its opening quote, up to the closing quote, decoding the escapes as
`unquote` does: a `\u` escape that is half of a surrogate pair is joined with the other half
when it follows, and stands for U+FFFD otherwise. A control character inside the string is a
syntax error. The first argument bounds the number of steps. -/
def readString : Nat → List Char → List Char → Option (String × List Char)
  | 0, _, _ => none
  | _ + 1, '"' :: rest, acc => some (String.mk acc.reverse, rest)
  | fuel + 1, '\\' :: 'u' :: rest, acc =>
    match readHex4 rest with
    | none => none
    | some (u, rest1) =>
      if 0xD800 ≤ u ∧ u < 0xE000 then
        match rest1 with
        | '\\' :: 'u' :: rest2 =>
          match readHex4 rest2 with
          | none => none
          | some (v, rest3) =>
            if u < 0xDC00 ∧ 0xDC00 ≤ v ∧ v < 0xE000 then
              readString fuel rest3
                (Char.ofNat (0x10000 + (u - 0xD800) * 1024 + (v - 0xDC00)) :: acc)
            else readString fuel rest1 (Char.ofNat 0xFFFD :: acc)
        | _ => readString fuel rest1 (Char.ofNat 0xFFFD :: acc)
      else readString fuel rest1 (Char.ofNat u :: acc)
  | fuel + 1, '\\' :: c :: rest, acc =>
    if c = '"' ∨ c = '\\' ∨ c = '/' then readString fuel rest (c :: acc)
    else if c = 'b' then readString fuel rest (Char.ofNat 8 :: acc)
    else if c = 'f' then readString fuel rest (Char.ofNat 12 :: acc)
    else if c = 'n' then readString fuel rest ('\n' :: acc)
    else if c = 'r' then readString fuel rest ('\r' :: acc)
    else if c = 't' then readString fuel rest ('\t' :: acc)
    else none
  | fuel + 1, c :: rest, acc =>
    if c.toNat < 32 then none else readString fuel rest (c :: acc)
  | _ + 1, [], _ => none

/-- Read a run of decimal digits: its value, how many digits, and the rest. -/
def readDigits : List Char → Nat → Nat → Nat × Nat × List Char
  | c :: rest, value, count =>
    if c.isDigit then readDigits rest (value * 10 + (c.toNat - '0'.toNat)) (count + 1)
    else (value, count, c :: rest)
  | [], value, count => (value, count, [])

/-- The digits of the integer part of a number: a single `0`, or a run that starts with
another digit. -/
def readIntegerPart : List Char → Option (Nat × List Char)
  | '0' :: rest => some (0, rest)
  | cs =>
    match readDigits cs 0 0 with
    | (_, 0, _) => none
    | (n, _, rest) => some (n, rest)

/-- What may follow the integer part: a fraction, then an exponent. The result tells whether
there was either. -/
def readFractionExponent (cs : List Char) : Option (Bool × List Char) :=
  let afterFraction : Option (Bool × List Char) :=
    match cs with
    | '.' :: rest =>
      match readDigits rest 0 0 with
      | (_, 0, _) => none
      | (_, _, rest1) => some (true, rest1)
    | _ => some (false, cs)
  match afterFraction with
  | none => none
  | some (hasFraction, rest) =>
    let exponent : List Char → Option (Bool × List Char) := fun digits =>
      match readDigits digits 0 0 with
      | (_, 0, _) => none
      | (_, _, rest1) => some (true, rest1)
    match rest with
    | 'e' :: '+' :: digits => exponent digits
    | 'e' :: '-' :: digits => exponent digits
    | 'e' :: digits => exponent digits
    | 'E' :: '+' :: digits => exponent digits
    | 'E' :: '-' :: digits => exponent digits
    | 'E' :: digits => exponent digits
    | _ => some (hasFraction, rest)

/-- Read a number literal. -/
def readNumber (cs : List Char) : Option (Json × List Char) :=
  let signed : Bool × List Char :=
    match cs with
    | '-' :: rest => (true, rest)
    | _ => (false, cs)
  match readIntegerPart signed.2 with
  | none => none
  | some (n, rest) =>
    match readFractionExponent rest with
    | none => none
    | some (true, rest1) => some (.num none, rest1)
    | some (false, rest1) =>
      some (.num (some (if signed.1 then -(n : Int) else (n : Int))), rest1)

/-- What the reader is in the middle of. -/
inductive ReadMode
  | value
  | elements (acc : List Json)
  | members (acc : List (String × Json))

/-- Read one JSON value (mode `value`), the rest of an array after an opening bracket or a
comma (mode `elements`), or the rest of an object after an opening brace or a comma (mode
`members`). The first argument bounds the number of steps, the second counts the arrays
and objects that are open, of which the scanner allows 10000. -/
def readJson : Nat → Nat → ReadMode → List Char → Option (Json × List Char)
  | 0, _, _, _ => none
  | fuel + 1, depth, .value, cs =>
    match skipSpace cs with
    | 'n' :: 'u' :: 'l' :: 'l' :: rest => some (.null, rest)
    | 't' :: 'r' :: 'u' :: 'e' :: rest => some (.bool true, rest)
    | 'f' :: 'a' :: 'l' :: 's' :: 'e' :: rest => some (.bool false, rest)
    | '"' :: rest => (readString (rest.length + 1) rest []).map fun r => (.str r.1, r.2)
    | '[' :: rest =>
      if 10000 ≤ depth then none
      else
        match skipSpace rest with
        | ']' :: rest1 => some (.arr [], rest1)
        | _ => readJson fuel (depth + 1) (.elements []) rest
    | '{' :: rest =>
      if 10000 ≤ depth then none
      else
        match skipSpace rest with
        | '}' :: rest1 => some (.obj [], rest1)
        | _ => readJson fuel (depth + 1) (.members []) rest
    | rest => readNumber rest
  | fuel + 1, depth, .elements acc, cs =>
    match readJson fuel depth .value cs with
    | none => none
    | some (v, rest) =>
      match skipSpace rest with
      | ',' :: rest1 => readJson fuel depth (.elements (acc ++ [v])) rest1
      | ']' :: rest1 => some (.arr (acc ++ [v]), rest1)
      | _ => none
  | fuel + 1, depth, .members acc, cs =>
    match skipSpace cs with
    | '"' :: rest =>
      match readString (rest.length + 1) rest [] with
      | none => none
      | some (key, rest1) =>
        match skipSpace rest1 with
        | ':' :: rest2 =>
          match readJson fuel depth .value rest2 with
          | none => none
          | some (v, rest3) =>
            match skipSpace rest3 with
            | ',' :: rest4 => readJson fuel depth (.members (acc ++ [(key, v)])) rest4
            | '}' :: rest4 => some (.obj (acc ++ [(key, v)]), rest4)
            | _ => none
        | _ => none
    | _ => none

/-- The first JSON value of the text, which is all `Decoder.Decode` reads; what follows it
is not looked at. -/
def readFirstValue (text : String) : Option Json :=
  (readJson (2 * text.length + 2) 0 .value text.data).map fun r => r.1

/-- A character of a key matches a letter of a field name as `encoding/json` folds them:
the letter itself, its capital, and for `s` and `k` the two characters U+017F and U+212A. -/
def foldsTo (c letter : Char) : Bool :=
  c = letter ∨ c = letter.toUpper ∨ (letter = 's' ∧ c = Char.ofNat 0x17F) ∨
    (letter = 'k' ∧ c = Char.ofNat 0x212A)

/-- A key of an object names the field of the given lower-case name. -/
def keyIs (name : String) (key : String) : Bool :=
  key.data.length = name.data.length ∧ (key.data.zip name.data).all fun p => foldsTo p.1 p.2

/-- An `int64` (or `int`) field takes a number literal that `strconv.ParseInt` reads and that
is in range; `null` leaves the field as it is; any other value is an error. -/
def intField (old : Int) : Json → Option Int
  | .null => some old
  | .num (some n) => if -(2 ^ 63 : Int) ≤ n ∧ n < 2 ^ 63 then some n else none
  | _ => none

/-- A `string` field takes a string; `null` leaves the field as it is; any other value is an
error. -/
def stringField (old : String) : Json → Option String
  | .null => some old
  | .str s => some s
  | _ => none

/-- Store one member into the attribute element; a key that names no field is ignored. -/
def parsedAttribute.assign (p : parsedAttribute) (member : String × Json) :
    Option parsedAttribute :=
  if keyIs "id" member.1 then (intField p.ID member.2).map fun n => { p with ID := n }
  else if keyIs "name" member.1 then
    (stringField p.Name member.2).map fun s => { p with Name := s }
  else if keyIs "slug" member.1 then
    (stringField p.Slug member.2).map fun s => { p with Slug := s }
  else if keyIs "type" member.1 then
    (stringField p.Typ member.2).map fun s => { p with Typ := s }
  else if keyIs "required" member.1 then
    (intField p.Required member.2).map fun n => { p with Required := n }
  else some p

/-- Store one member into the entity element. -/
def parsedEntity.assign (p : parsedEntity) (member : String × Json) : Option parsedEntity :=
  if keyIs "id" member.1 then (intField p.ID member.2).map fun n => { p with ID := n }
  else if keyIs "name" member.1 then
    (stringField p.Name member.2).map fun s => { p with Name := s }
  else if keyIs "slug" member.1 then
    (stringField p.Slug member.2).map fun s => { p with Slug := s }
  else if keyIs "required" member.1 then
    (intField p.Required member.2).map fun n => { p with Required := n }
  else some p

/-- Decode the elements of the array: an object fills a zero element member by member, `null`
leaves the zero element, any other value is an error. -/
def decodeElements {α : Type} (zero : α) (assign : α → String × Json → Option α) :
    List Json → Option (List α)
  | [] => some []
  | .obj members :: rest =>
    match members.foldlM assign zero, decodeElements zero assign rest with
    | some p, some ps => some (p :: ps)
    | _, _ => none
  | .null :: rest => (decodeElements zero assign rest).map fun ps => zero :: ps
  | _ :: _ => none

/-- The call `Decode(&parsed)` on a nil slice of elements: `null` leaves the slice nil, an
array is decoded element by element, any other value is an error. -/
def decodeAggregate {α : Type} (zero : α) (assign : α → String × Json → Option α)
    (text : String) : Except Error (List α) :=
  match readFirstValue text with
  | none => .error (.decode "invalid character or unexpected end of JSON input")
  | some .null => .ok []
  | some (.arr items) =>
    match decodeElements zero assign items with
    | none => .error (.decode "json: cannot unmarshal value into Go struct field")
    | some ps => .ok ps
  | some _ => .error (.decode "json: cannot unmarshal value into Go value of slice type")

/-- The decoder of `encoding/json` for the two element shapes of the package, used to
evaluate the operations on concrete payloads; the theorems that take a decoder as a parameter
hold for every decoder. `Decoder.Decode` reads the first JSON value of the text and nothing
after it; `null` leaves the slice nil; an element `null` leaves a zero element; a member
whose key names no field is ignored, whatever its value; a key names a field when it is the
name up to the case of its letters; a missing member or a `null` leaves the zero value of
the field; a value of the wrong kind, or an integer out of the range of `int64`, is an
error, as is a syntax error in the first value. A text of this embedding holds characters,
so a payload that is not valid UTF-8 is outside it. -/
def flatDecoder : JsonDecoder where
  attributes := decodeAggregate (⟨0, "", "", "", 0⟩ : parsedAttribute) parsedAttribute.assign
  entities := decodeAggregate (⟨0, "", "", 0⟩ : parsedEntity) parsedEntity.assign

/-! ## Stores used to evaluate the operations -/

/-- A store that gives the same reply to every statement. -/
def constDriver (r : Reply) : Driver Unit where
  answer := fun s _ => (r, s)

/-- A store that answers from a list of prepared replies, one per statement, in order, and
fails once the list is used up. -/
def scriptDriver : Driver (List Reply) where
  answer := fun s _ =>
    match s with
    | [] => (.failure (.storage "no reply left"), [])
    | r :: rest => (r, rest)

/-- A session that has issued no statement yet. -/
def freshSession {σ : Type} (db : σ) : Session σ := { db := db, issued := [] }

/-- Sample values of the constants `ByID` and `BySlug`. -/
def sampleSelectors : Selectors := { ByID := "id", BySlug := "slug" }

/-- An attribute aggregate with two entries: a required attribute of type `string` and an
optional one whose stored type tag, `varchar`, is outside the vocabulary. -/
def sampleAttributesAggregate : String :=
  "[\x7b\"id\":7,\"name\":\"Title\",\"slug\":\"title\",\"type\":\"string\",\"required\":1\x7d,\x7b\"id\":8,\"name\":\"Pages\",\"slug\":\"pages\",\"type\":\"varchar\",\"required\":0\x7d]"

/-- An entity aggregate with one entry, on which the attribute is required. -/
def sampleEntitiesAggregate : String :=
  "[\x7b\"id\":1,\"name\":\"Book\",\"slug\":\"book\",\"required\":1\x7d]"

/-- Two parent rows as the eager list query returns them: a book with the sample aggregate
and a film with no linked attribute. -/
def sampleEntityRows : List (List DriverValue) :=
  [[.int 1, .text "Book", .text "book", .text sampleAttributesAggregate],
   [.int 2, .text "Film", .text "film", .null]]

/-- A store with four attributes, two items of the entity 1, and three values: the pages and
the initial of item 1 and the pages of item 2. -/
def sampleStore : Store :=
  { attributes := [(7, "Released", "released", "date"), (8, "Initial", "initial", "byte"),
      (9, "Pages", "pages", "int8"), (10, "Symbol", "symbol", "rune")]
    items := [(1, 1), (2, 1)]
    values := [(1, 9, .int 100), (1, 8, .int 68), (2, 9, .int 96)] }

/-- The sample store with the values of the pairs (2, 7) and (2, 9) NULL. -/
def sampleNullStore : Store :=
  { sampleStore with values := [(2, 7, .null), (2, 9, .null)] }

/-- A stand-in for `strconv.ParseFloat` that accepts the text `1.5` only. -/
def sampleParseFloat : String → Nat → Option GoFloat :=
  fun text _ => if text = "1.5" then some ⟨"1.5"⟩ else none

/-- A store that fails every statement of the given text with the given error and answers
every other statement as `d` does. -/
def failingOn {σ : Type} (text : String) (e : Error) (d : Driver σ) : Driver σ where
  answer := fun s st => if st.text = text then (.failure e, s) else d.answer s st

/-! ## Repeated accessor calls and the claim-side reading of a selector -/

/-- Further calls of `GetAttributes` on the same object, one per given session, each against
the state of the store it finds: the collection, the error and the session after each call. -/
def Entity.GetAttributesAgain {σ : Type} (j : JsonDecoder) (d : Driver σ) :
    Entity → List (Session σ) → List ((List EntityAttributeEmbed × Option Error) × Session σ)
  | _, [] => []
  | e, q :: qs =>
    let r := e.GetAttributes j d q
    (r.1.2, r.2) :: Entity.GetAttributesAgain j d r.1.1 qs

/-- Further calls of `GetEntities` on the same object, one per given session; the calls stop
at the first one that panics. -/
def Attribute.GetEntitiesAgain {σ : Type} (j : JsonDecoder) (d : Driver σ) :
    Attribute → List (Session σ) →
      List (Outcome (List attributeEntityEmbed × Option Error) × Session σ)
  | _, [] => []
  | a, q :: qs =>
    match a.GetEntities j d q with
    | (.panicked, q1) => [(.panicked, q1)]
    | (.returned r, q1) => (.returned r.2, q1) :: Attribute.GetEntitiesAgain j d r.1 qs

/-- The selectors the specification calls invalid: a field that is neither `ByID` nor
`BySlug`, `ByID` with a value that is not an `int64`, `BySlug` with a value that is not a
string. -/
def selectorRejected (k : Selectors) (field : GetType) (value : GoAny) : Prop :=
  (field ≠ k.ByID ∧ field ≠ k.BySlug) ∨ (field = k.ByID ∧ value.isInt64 = false) ∨
    (field = k.BySlug ∧ value.isString = false)

instance (k : Selectors) (field : GetType) (value : GoAny) :
    Decidable (selectorRejected k field value) := by
  unfold selectorRejected
  infer_instance

/-! ## Claim-side readings for the write path -/

/-- The claim-side reading of "the text does not parse into the shape of the tag", for the
tags whose case of the switch parses the text: the parse the case runs yields nothing. -/
def unparsable (parseFloat : String → Nat → Option GoFloat) (tag : AttributeType)
    (text : String) : Prop :=
  (tag = BoolType ∧ ParseBool text = none) ∨
  (tag = IntType ∧ ParseInt text 0 = none) ∨
  (tag = Int8Type ∧ ParseInt text 8 = none) ∨
  (tag = Int16Type ∧ ParseInt text 16 = none) ∨
  (tag = Int32Type ∧ ParseInt text 32 = none) ∨
  (tag = Int64Type ∧ ParseInt text 64 = none) ∨
  (tag = UintType ∧ ParseUint text 0 = none) ∨
  (tag = Uint8Type ∧ ParseUint text 8 = none) ∨
  (tag = Uint16Type ∧ ParseUint text 16 = none) ∨
  (tag = Uint32Type ∧ ParseUint text 32 = none) ∨
  (tag = Uint64Type ∧ ParseUint text 64 = none) ∨
  (tag = Float32Type ∧ parseFloat text 32 = none) ∨
  (tag = Float64Type ∧ parseFloat text 64 = none) ∨
  (tag = DateType ∧ (ParseTime "2006-01-02" text).toOption = none) ∨
  (tag = TimeType ∧ (ParseTime "15:04:05" text).toOption = none) ∨
  (tag = DatetimeType ∧ (ParseTime "2006-01-02 15:04:05" text).toOption = none)

instance (parseFloat : String → Nat → Option GoFloat) (tag : AttributeType) (text : String) :
    Decidable (unparsable parseFloat tag text) := by
  unfold unparsable
  infer_instance

/-- The statement a write of the value `v` for the pair executes: the insert of
`ItemAttribute.Create` or the update of `ItemAttribute.Update`. -/
def writeStmt (m : WriteMethod) (itemID attributeID : Int) (v : DriverValue) : Stmt :=
  match m with
  | .create => ⟨insertItemAttribute, [.int itemID, .int attributeID, v]⟩
  | .update => ⟨updateItemAttribute, [v, .int itemID, .int attributeID]⟩

/-- What the tail of a case of the switch returns when the value binds as `v`: the statement
is executed and its error, if any, is returned wrapped. -/
def writeBound {σ : Type} (m : WriteMethod) (d : Driver σ) (q : Session σ)
    (itemID attributeID : Int) (v : DriverValue) : Outcome (Option Error) × Session σ :=
  match q.exec d (writeStmt m itemID attributeID v) with
  | (some err, q1) =>
    (.returned (some (.wrapped "failed to create item_attribute record: " err)), q1)
  | (none, q1) => (.returned none, q1)

/-- The text of a calendar date in the layout `YYYY-MM-DD`. -/
def dateText (year month day : Nat) : String :=
  String.mk (padDigits 4 year ++ '-' :: padDigits 2 month ++ '-' :: padDigits 2 day)

/-- The date with a zero time of day, in UTC, which `time.Parse` yields for a text without a
zone. -/
def GoTime.date (year month day : Nat) : GoTime := ⟨year, month, day, 0, 0, 0, 0, 0, "UTC"⟩

/-! ## Claim-side reading of "a decimal text denoting an integer" -/

/-- A decimal text without sign: a run of digits that is not empty. -/
def isDecimal (cs : List Char) : Prop := cs ≠ [] ∧ ∀ c ∈ cs, c.isDigit = true

instance (cs : List Char) : Decidable (isDecimal cs) := by
  unfold isDecimal
  infer_instance

/-- The number a run of digits denotes. -/
def decimalValue (cs : List Char) : Nat :=
  cs.foldl (fun acc c => acc * 10 + (c.toNat - '0'.toNat)) 0

/-- What a write command returns when `database/sql` refuses the value: the error of the
converter, wrapped by `ExecContext` with the position of the value among the arguments (the
third of the insert, the first of the update), wrapped by the command. -/
def refusedHighBit (m : WriteMethod) : Error :=
  .wrapped "failed to create item_attribute record: "
    (.wrapped
      (match m with
        | .create => "sql: converting argument $3 type: "
        | .update => "sql: converting argument $1 type: ")
      (.new "uint64 values with high bit set are not supported"))

/-- The sample store with one more attribute, of the tag `uint64`. -/
def sampleStoreWithCounter : Store :=
  { sampleStore with
    attributes := sampleStore.attributes ++ [(11, "Views", "views", "uint64")] }

/-! ## Claim-side reading of "the links a save created" -/

/-- The links the store returned to the second loop of `Entity.Save`, in the order of the
calls of `CreateEntityAttribute`, up to the first call that fails. -/
def createdLinks {σ : Type} (d : Driver σ) (entityID : Int) :
    Session σ → List Attribute → List EntityAttributeEmbed → List EntityAttribute
  | q, attr :: rest, original :: originals =>
    match CreateEntityAttribute d q ⟨entityID, attr.ID, original.Required⟩ with
    | ((_, some _), _) => []
    | ((mapping, none), q1) => mapping :: createdLinks d entityID q1 rest originals
  | _, _, _ => []

/-- The insert `Entity.Save` issues for an attribute it creates. -/
def createAttributeStmt (embed : EntityAttributeEmbed) : Stmt :=
  ⟨createAttribute,
    [.text embed.Attribute.Name, .text embed.Attribute.Slug, .text embed.Attribute.Typ]⟩

/-- The insert `Entity.Save` issues for the link of an entity to a stored attribute with the
required flag of the original. -/
def createLinkStmt (entityID : Int) (attr : Attribute) (original : EntityAttributeEmbed) :
    Stmt :=
  ⟨createEntityAttribute, [.int entityID, .int attr.ID, .bool original.Required]⟩

/-! ## The store behind the update statements of the registry -/

/-- The rows of the relations `entities(id, name, slug)` and `attributes(id, name, slug,
type)`. -/
structure Registry where
  entities : List (Int × String × String)
  attributes : List (Int × String × String × String)
  deriving DecidableEq, Repr

/-- Modelled from the spec: the relations `entities` and `attributes` of the persisted shape,
each with a unique slug, the schema `sql/tables.sql` not being among the sources. SQLite on
the five update statements of `entity.go` and `attribute.go`: the row of the given id gets the
new value of the column the text names; an update of a slug to the slug of another row fails
on the unique constraint. -/
def registryStore : Driver Registry where
  answer := fun s st =>
    match st.args with
    | [.text v, .int id] =>
      if st.text = updateEntityName then
        (.done (s.entities.filter fun r => r.1 = id).length,
          { s with entities := s.entities.map fun r => if r.1 = id then (r.1, v, r.2.2) else r })
      else if st.text = updateEntitySlug then
        if s.entities.any (fun r => r.1 ≠ id ∧ r.2.2 = v) ∧ s.entities.any (fun r => r.1 = id)
        then (.failure (.storage "UNIQUE constraint failed: entities.slug"), s)
        else
          (.done (s.entities.filter fun r => r.1 = id).length,
            { s with
              entities := s.entities.map fun r => if r.1 = id then (r.1, r.2.1, v) else r })
      else if st.text = updateAttributeName then
        (.done (s.attributes.filter fun r => r.1 = id).length,
          { s with
            attributes := s.attributes.map fun r =>
              if r.1 = id then (r.1, v, r.2.2.1, r.2.2.2) else r })
      else if st.text = updateAttributeSlug then
        if s.attributes.any (fun r => r.1 ≠ id ∧ r.2.2.1 = v) ∧
            s.attributes.any (fun r => r.1 = id)
        then (.failure (.storage "UNIQUE constraint failed: attributes.slug"), s)
        else
          (.done (s.attributes.filter fun r => r.1 = id).length,
            { s with
              attributes := s.attributes.map fun r =>
                if r.1 = id then (r.1, r.2.1, v, r.2.2.2) else r })
      else if st.text = updateAttributeType then
        (.done (s.attributes.filter fun r => r.1 = id).length,
          { s with
            attributes := s.attributes.map fun r =>
              if r.1 = id then (r.1, r.2.1, r.2.2.1, v) else r })
      else (.failure (.storage "statement or arguments outside the model"), s)
    | _ => (.failure (.storage "statement or arguments outside the model"), s)

/-- A registry with the entities 7 and 8 and the attributes 7 and 9. -/
def sampleRegistry : Registry :=
  { entities := [(7, "Book", "book"), (8, "Film", "film")]
    attributes := [(7, "Released", "released", "date"), (9, "Pages", "pages", "int8")] }

/-! ## The store behind the queries of the registry, without links -/

/-- Modelled from the spec: the relations `entities` and `attributes` of the persisted shape,
the schema `sql/tables.sql` not being among the sources. SQLite on the queries of `entity.go`
and `attribute.go` over a database whose relation `entity_attribute` holds no row. The
queries without hydration return the rows the selector matches. In the queries with the
aggregate of the attributes the `INNER JOIN` on `attributes` keeps no row, since no link
exists: the lookup, which aggregates without `GROUP BY`, then returns one row whose columns
are all NULL, whatever the selector; the list, which groups by the id of the entity, returns
no row; the two lazy loaders, which aggregate without `GROUP BY`, return one row with a NULL.
The two attribute queries with the aggregate of the entities lack the comma after the
condition of `IIF`, and SQLite refuses their text. -/
def unlinkedStore : Driver Registry where
  answer := fun s st =>
    if st.text = Sprintf getEntityNoAttributes "entities.id" then
      match st.args with
      | [.int id] =>
        (.rows ((s.entities.filter fun r => r.1 = id).map fun r =>
          [.int r.1, .text r.2.1, .text r.2.2, .null]), s)
      | _ => (.failure (.storage "statement or arguments outside the model"), s)
    else if st.text = Sprintf getEntityNoAttributes "entities.slug" then
      match st.args with
      | [.text slug] =>
        (.rows ((s.entities.filter fun r => r.2.2 = slug).map fun r =>
          [.int r.1, .text r.2.1, .text r.2.2, .null]), s)
      | _ => (.failure (.storage "statement or arguments outside the model"), s)
    else if st.text = Sprintf getEntityWithAttributes "entities.id" ∨
        st.text = Sprintf getEntityWithAttributes "entities.slug" then
      (.rows [[.null, .null, .null, .null]], s)
    else if st.text = listEntitiesNoAttributes then
      (.rows (s.entities.map fun r => [.int r.1, .text r.2.1, .text r.2.2, .null]), s)
    else if st.text = listEntitiesWithAttributes then (.rows [], s)
    else if st.text = loadAttributesByEntity ∨ st.text = loadEntitiesByAttribute then
      (.rows [[.null]], s)
    else if st.text = Sprintf getAttributeNoEntitie "attributes.id" then
      match st.args with
      | [.int id] =>
        (.rows ((s.attributes.filter fun r => r.1 = id).map fun r =>
          [.int r.1, .text r.2.1, .text r.2.2.1, .text r.2.2.2, .null]), s)
      | _ => (.failure (.storage "statement or arguments outside the model"), s)
    else if st.text = Sprintf getAttributeNoEntitie "attributes.slug" then
      match st.args with
      | [.text slug] =>
        (.rows ((s.attributes.filter fun r => r.2.2.1 = slug).map fun r =>
          [.int r.1, .text r.2.1, .text r.2.2.1, .text r.2.2.2, .null]), s)
      | _ => (.failure (.storage "statement or arguments outside the model"), s)
    else if st.text = listAttributesNoEntities then
      (.rows (s.attributes.map fun r =>
        [.int r.1, .text r.2.1, .text r.2.2.1, .text r.2.2.2, .null]), s)
    else if st.text = Sprintf getAttributesWithEntities "attributes.id" ∨
        st.text = Sprintf getAttributesWithEntities "attributes.slug" ∨
        st.text = listAttributesWithEntities then
      (.failure (.storage "near \"JSON_GROUP_ARRAY\": syntax error"), s)
    else (.failure (.storage "statement or arguments outside the model"), s)

/-! ## Claim-side reading of "a statement against a relation" -/

/-- The text of a statement names the relation: the name occurs in the text. -/
def mentions (relation : String) (text : String) : Bool :=
  text.data.tails.any fun t => relation.data.isPrefixOf t

/-! ## Theorems -/

set_option maxRecDepth 100000

/-- C1: `ValidAttributeType t` is true exactly when `t` is one of the twenty tags of the
vocabulary; the vocabulary has twenty distinct members, the empty string is rejected and the
comparison is case-sensitive (`Bool` and `DATE` are rejected). -/
theorem ValidAttributeType_iff_vocabulary :
    (∀ t : String, ValidAttributeType t = true ↔ t ∈ vocabulary) ∧
      vocabulary.length = 20 ∧ vocabulary.Nodup ∧
      ValidAttributeType "" = false ∧ ValidAttributeType "Bool" = false ∧
      ValidAttributeType "DATE" = false := by
  refine ⟨?_, by decide, by decide, by decide, by decide, by decide⟩
  intro t
  simp only [ValidAttributeType, vocabulary, BoolType, StringType, IntType, Int8Type, Int16Type,
    Int32Type, Int64Type, UintType, Uint8Type, Uint16Type, Uint32Type, Uint64Type, ByteType,
    RuneType, Float32Type, Float64Type, BlobType, DateType, TimeType, DatetimeType,
    Bool.or_eq_true, beq_iff_eq, List.mem_cons, List.mem_singleton, List.not_mem_nil, or_false,
    eq_comm (a := t), or_assoc]

/-! ### Statements issued by the creating operations -/

theorem Session.send_issued {σ : Type} (d : Driver σ) (q : Session σ) (st : Stmt) :
    (q.send d st).2.issued = q.issued ++ [st] := rfl

theorem CreateAttribute_session {σ : Type} (d : Driver σ) (q : Session σ)
    (arg : CreateAttributeParam) :
    (CreateAttribute d q arg).2 =
      (q.send d ⟨createAttribute, [.text arg.Name, .text arg.Slug, .text arg.Typ]⟩).2 := by
  unfold CreateAttribute
  dsimp only
  repeat (split <;> try rfl)

theorem CreateEntity_session {σ : Type} (d : Driver σ) (q : Session σ)
    (arg : CreateEntityParam) :
    (CreateEntity d q arg).2 =
      (q.send d ⟨createEntity, [.text arg.Name, .text arg.Slug]⟩).2 := by
  unfold CreateEntity
  dsimp only
  repeat (split <;> try rfl)

theorem CreateEntityAttribute_session {σ : Type} (d : Driver σ) (q : Session σ)
    (arg : EntityAttribute) :
    (CreateEntityAttribute d q arg).2 =
      (q.send d ⟨createEntityAttribute,
        [.int arg.EntityID, .int arg.AttributeID, .bool arg.Required]⟩).2 := by
  unfold CreateEntityAttribute
  dsimp only
  repeat (split <;> try rfl)

theorem saveMappingsLoop_issued {σ : Type} (d : Driver σ) (entityID : Int)
    (stored : List Attribute) :
    ∀ (q : Session σ) (originals mapped : List EntityAttributeEmbed),
      ∃ rest, (saveMappingsLoop d entityID q stored originals mapped).2.issued =
        q.issued ++ rest := by
  induction stored with
  | nil => intro q originals mapped; exact ⟨[], by simp [saveMappingsLoop]⟩
  | cons attr rest ih =>
    intro q originals mapped
    cases originals with
    | nil => exact ⟨[], by simp [saveMappingsLoop]⟩
    | cons original originals =>
      have hs := CreateEntityAttribute_session d q ⟨entityID, attr.ID, original.Required⟩
      unfold saveMappingsLoop
      split
      · next x err q1 heq =>
        rw [heq] at hs
        exact ⟨_, by rw [show q1 = _ from hs]; exact Session.send_issued _ _ _⟩
      · next x mapping q1 heq =>
        rw [heq] at hs
        obtain ⟨more, hmore⟩ := ih q1 originals (mapped ++ [.mk attr mapping.Required])
        refine ⟨⟨createEntityAttribute,
          [.int entityID, .int attr.ID, .bool original.Required]⟩ :: more, ?_⟩
        rw [hmore, show q1 = _ from hs, Session.send_issued]
        simp

/-! ### C2: where the vocabulary check is made -/

/-- C2, as stated, fails: the tag `varchar` is outside the vocabulary, yet `CreateAttribute`
issues the insert carrying it and, when the store returns the inserted row, returns no error;
`Entity.Save` of a new entity with a new attribute of that tag issues the three inserts and
returns no error. -/
theorem CreateAttribute_unknown_tag_is_written :
    ValidAttributeType "varchar" = false ∧
      (CreateAttribute scriptDriver
        (freshSession [.rows [[.int 7, .text "Title", .text "title", .text "varchar"]]])
        ⟨"Title", "title", "varchar"⟩).1.2 = none ∧
      (CreateAttribute scriptDriver
        (freshSession [.rows [[.int 7, .text "Title", .text "title", .text "varchar"]]])
        ⟨"Title", "title", "varchar"⟩).2.issued =
          [⟨createAttribute, [.text "Title", .text "title", .text "varchar"]⟩] ∧
      (Entity.Save scriptDriver
        (freshSession [.rows [[.int 1, .text "Book", .text "book"]],
          .rows [[.int 7, .text "Title", .text "title", .text "varchar"]],
          .rows [[.int 1, .int 7, .int 0]]])
        (NewEntity "Book" "book" [WithAttribute (NewAttribute "Title" "title" "varchar")])).1.2
          = none ∧
      (Entity.Save scriptDriver
        (freshSession [.rows [[.int 1, .text "Book", .text "book"]],
          .rows [[.int 7, .text "Title", .text "title", .text "varchar"]],
          .rows [[.int 1, .int 7, .int 0]]])
        (NewEntity "Book" "book" [WithAttribute (NewAttribute "Title" "title" "varchar")])).2.issued
          = [⟨createEntity, [.text "Book", .text "book"]⟩,
             ⟨createAttribute, [.text "Title", .text "title", .text "varchar"]⟩,
             ⟨createEntityAttribute, [.int 1, .int 7, .bool false]⟩] := by
  refine ⟨by decide, by rfl, by rfl, by rfl, by rfl⟩

/-- C2, amended: for a tag outside the vocabulary it is the command `createAttributeCommand`
that fails (exit status 1) without issuing any statement. The registry makes no vocabulary
check: `CreateAttribute` always issues its insert, carrying the tag as given, and returns the
inserted row without error when the store returns it; `Entity.Save` of a new entity with a
new attribute of that tag issues, once the entity row is created, the insert of the attribute
with the tag as given. -/
theorem unknown_tag_rejected_by_command_only {σ : Type} (d : Driver σ) (q : Session σ)
    (name slug tag entityName entitySlug : String) (h : ValidAttributeType tag = false) :
    createAttributeCommand d q name slug tag = (.exited 1, q) ∧
      (CreateAttribute d q ⟨name, slug, tag⟩).2.issued =
        q.issued ++ [⟨createAttribute, [.text name, .text slug, .text tag]⟩] ∧
      (∀ id, (d.answer q.db ⟨createAttribute, [.text name, .text slug, .text tag]⟩).1 =
          .rows [[.int id, .text name, .text slug, .text tag]] →
        (CreateAttribute d q ⟨name, slug, tag⟩).1 = (.mk id name slug tag [] false, none)) ∧
      (∀ entity q1, CreateEntity d q ⟨entityName, entitySlug⟩ = ((entity, none), q1) →
        ∃ rest,
          (Entity.Save d q (NewEntity entityName entitySlug
            [WithAttribute (NewAttribute name slug tag)])).2.issued =
            q.issued ++ [⟨createEntity, [.text entityName, .text entitySlug]⟩,
              ⟨createAttribute, [.text name, .text slug, .text tag]⟩] ++ rest) := by
  refine ⟨?_, ?_, ?_, ?_⟩
  · unfold createAttributeCommand
    by_cases hempty : name = "" ∨ slug = "" ∨ tag = ""
    · simp [hempty]
    · simp [hempty, h]
  · rw [CreateAttribute_session, Session.send_issued]
  · intro id hreply
    simp [CreateAttribute, Session.send, hreply, Reply.firstRow, scanInt64, scanString,
      scanAttributeType, asString]
  · intro entity q1 hcreate
    have hq1 : q1.issued = q.issued ++ [⟨createEntity, [.text entityName, .text entitySlug]⟩] := by
      have := CreateEntity_session d q ⟨entityName, entitySlug⟩
      rw [hcreate] at this
      rw [show q1 = _ from this, Session.send_issued]
    have hattr := CreateAttribute_session d q1 ⟨name, slug, tag⟩
    simp only [Entity.Save, NewEntity, WithAttribute, NewAttribute, List.foldl, Entity.ID,
      Entity.Name, Entity.Slug, Entity.setAttributes, Entity.attributes, Entity.setID, ne_eq,
      not_true_eq_false, if_false, hcreate, List.nil_append, saveAttributesLoop,
      EntityAttributeEmbed.Attribute, Attribute.ID, Attribute.Name, Attribute.Slug,
      Attribute.Typ, if_true]
    rcases hca : CreateAttribute d q1 ⟨name, slug, tag⟩ with ⟨⟨stored, err⟩, q2⟩
    rw [hca] at hattr
    have hq2 : q2.issued = q.issued ++ [⟨createEntity, [.text entityName, .text entitySlug]⟩,
        ⟨createAttribute, [.text name, .text slug, .text tag]⟩] := by
      rw [show q2 = _ from hattr, Session.send_issued, hq1]
      simp
    cases err with
    | some e => exact ⟨[], by simp [hq2]⟩
    | none =>
      simp only
      obtain ⟨more, hmore⟩ := saveMappingsLoop_issued d entity.ID [stored] q2
        [.mk (.mk 0 name slug tag [] false) false] []
      rcases hm : saveMappingsLoop d entity.ID q2 [stored]
        [.mk (.mk 0 name slug tag [] false) false] [] with ⟨⟨mapped, merr⟩, q3⟩
      rw [hm] at hmore
      simp only [Entity.ID] at hm
      cases merr with
      | some e => exact ⟨more, by rw [hm]; exact hmore.trans (by rw [hq2])⟩
      | none => exact ⟨more, by rw [hm]; exact hmore.trans (by rw [hq2])⟩

/-- C2, amended, at the tag `varchar`, with a store that returns the inserted rows. -/
theorem unknown_tag_rejected_by_command_only_witness :
    createAttributeCommand scriptDriver
        (freshSession [.rows [[.int 7, .text "Title", .text "title", .text "varchar"]]])
        "Title" "title" "varchar" =
      (.exited 1,
        freshSession [.rows [[.int 7, .text "Title", .text "title", .text "varchar"]]]) ∧
      (CreateAttribute scriptDriver
        (freshSession [.rows [[.int 7, .text "Title", .text "title", .text "varchar"]]])
        ⟨"Title", "title", "varchar"⟩).2.issued =
          [] ++ [⟨createAttribute, [.text "Title", .text "title", .text "varchar"]⟩] :=
  have h := unknown_tag_rejected_by_command_only scriptDriver
    (freshSession [.rows [[.int 7, .text "Title", .text "title", .text "varchar"]]])
    "Title" "title" "varchar" "Book" "book" (by decide)
  ⟨h.1, h.2.1⟩

/-! ### C3, C4: the lookups -/

theorem GetEntity_rejected {σ : Type} (k : Selectors) (j : JsonDecoder) (d : Driver σ)
    (q : Session σ) (arg : GetEntityParam) (e : Error) (h : entitySelector k arg = .error e) :
    GetEntity k j d q arg = ((Entity.zero, some e), q) := by
  simp [GetEntity, h]

theorem GetEntity_selected {σ : Type} (k : Selectors) (j : JsonDecoder) (d : Driver σ)
    (q : Session σ) (arg : GetEntityParam) (field : GetType) (value : DriverValue)
    (h : entitySelector k arg = .ok (field, value)) :
    GetEntity k j d q arg =
      (match (d.answer q.db ⟨Sprintf (if arg.WithAttributes then getEntityWithAttributes
            else getEntityNoAttributes) field, [value]⟩).1.firstRow with
        | .error e => (Entity.zero, some e)
        | .ok cols => readEntityRow j arg.WithAttributes cols,
       (q.send d ⟨Sprintf (if arg.WithAttributes then getEntityWithAttributes
            else getEntityNoAttributes) field, [value]⟩).2) := by
  simp only [GetEntity, h, Session.send]
  split <;> rfl

theorem GetAttribute_rejected {σ : Type} (k : Selectors) (j : JsonDecoder) (d : Driver σ)
    (q : Session σ) (arg : GetAttributeParam) (e : Error)
    (h : attributeSelector k arg = .error e) :
    GetAttribute k j d q arg = ((Attribute.zero, some e), q) := by
  simp [GetAttribute, h]

theorem GetAttribute_selected {σ : Type} (k : Selectors) (j : JsonDecoder) (d : Driver σ)
    (q : Session σ) (arg : GetAttributeParam) (field : GetType) (value : DriverValue)
    (h : attributeSelector k arg = .ok (field, value)) :
    GetAttribute k j d q arg =
      (match (d.answer q.db ⟨Sprintf (if arg.WithEntities then getAttributesWithEntities
            else getAttributeNoEntitie) field, [value]⟩).1.firstRow with
        | .error e => (Attribute.zero, some e)
        | .ok cols => readAttributeRow j arg.WithEntities cols,
       (q.send d ⟨Sprintf (if arg.WithEntities then getAttributesWithEntities
            else getAttributeNoEntitie) field, [value]⟩).2) := by
  simp only [GetAttribute, h, Session.send]
  split <;> rfl

/-- The switch of `GetEntity` returns an error exactly on the selectors the specification
calls invalid, and otherwise one of the two fixed column references. -/
theorem entitySelector_cases (k : Selectors) (hk : k.ByID ≠ k.BySlug) (arg : GetEntityParam) :
    (selectorRejected k arg.Field arg.Value ∧ ∃ e, entitySelector k arg = .error e) ∨
      (¬ selectorRejected k arg.Field arg.Value ∧
        ∃ column value, (column = "entities.id" ∨ column = "entities.slug") ∧
          entitySelector k arg = .ok (column, value)) := by
  unfold entitySelector selectorRejected
  by_cases h1 : arg.Field = k.ByID
  · have h2 : arg.Field ≠ k.BySlug := fun h => hk (h1.symm.trans h)
    cases hv : arg.Value <;> simp [h1, h2, hk, GoAny.isInt64, GoAny.isString]
  · by_cases h2 : arg.Field = k.BySlug
    · have h3 : k.BySlug ≠ k.ByID := fun h => hk h.symm
      cases hv : arg.Value <;> simp [h2, h3, GoAny.isInt64, GoAny.isString]
    · simp [h1, h2]

/-- The switch of `GetAttribute` returns an error exactly on the selectors the specification
calls invalid, and otherwise one of the two fixed column references. -/
theorem attributeSelector_cases (k : Selectors) (hk : k.ByID ≠ k.BySlug)
    (arg : GetAttributeParam) :
    (selectorRejected k arg.Field arg.Value ∧ ∃ e, attributeSelector k arg = .error e) ∨
      (¬ selectorRejected k arg.Field arg.Value ∧
        ∃ column value, (column = "attributes.id" ∨ column = "attributes.slug") ∧
          attributeSelector k arg = .ok (column, value)) := by
  unfold attributeSelector selectorRejected
  by_cases h1 : arg.Field = k.ByID
  · have h2 : arg.Field ≠ k.BySlug := fun h => hk (h1.symm.trans h)
    cases hv : arg.Value <;> simp [h1, h2, hk, GoAny.isInt64, GoAny.isString]
  · by_cases h2 : arg.Field = k.BySlug
    · have h3 : k.BySlug ≠ k.ByID := fun h => hk h.symm
      cases hv : arg.Value <;> simp [h2, h3, GoAny.isInt64, GoAny.isString]
    · simp [h1, h2]

/-- When the store answers the lookup with an empty result set, as it does without hydration
when no row matches, `GetEntity` and `GetAttribute`, by id and by slug, return the zero
record together with `sql.ErrNoRows`; whatever the parameter, the error they return is not
nil. -/
theorem lookup_without_match_is_not_found {σ : Type} (k : Selectors) (j : JsonDecoder)
    (d : Driver σ) (q : Session σ) (hk : k.ByID ≠ k.BySlug)
    (h : ∀ st, (d.answer q.db st).1 = .rows []) (hydrate : Bool) (id : Int) (slug : String) :
    (GetEntity k j d q ⟨hydrate, k.ByID, .int64 id⟩).1 = (Entity.zero, some .sqlErrNoRows) ∧
      (GetEntity k j d q ⟨hydrate, k.BySlug, .string slug⟩).1 =
        (Entity.zero, some .sqlErrNoRows) ∧
      (GetAttribute k j d q ⟨hydrate, k.ByID, .int64 id⟩).1 =
        (Attribute.zero, some .sqlErrNoRows) ∧
      (GetAttribute k j d q ⟨hydrate, k.BySlug, .string slug⟩).1 =
        (Attribute.zero, some .sqlErrNoRows) ∧
      (∀ arg, (GetEntity k j d q arg).1.2 ≠ none) ∧
      (∀ arg, (GetAttribute k j d q arg).1.2 ≠ none) := by
  have hk2 : k.BySlug ≠ k.ByID := fun h => hk h.symm
  refine ⟨?_, ?_, ?_, ?_, ?_, ?_⟩
  · rw [GetEntity_selected k j d q _ "entities.id" (.int id) (by simp [entitySelector])]
    simp [h, Reply.firstRow]
  · rw [GetEntity_selected k j d q _ "entities.slug" (.text slug)
      (by simp [entitySelector, hk2])]
    simp [h, Reply.firstRow]
  · rw [GetAttribute_selected k j d q _ "attributes.id" (.int id) (by simp [attributeSelector])]
    simp [h, Reply.firstRow]
  · rw [GetAttribute_selected k j d q _ "attributes.slug" (.text slug)
      (by simp [attributeSelector, hk2])]
    simp [h, Reply.firstRow]
  · intro arg
    rcases entitySelector_cases k hk arg with ⟨_, e, he⟩ | ⟨_, column, value, _, hs⟩
    · rw [GetEntity_rejected k j d q arg e he]; simp
    · rw [GetEntity_selected k j d q arg column value hs]
      simp [h, Reply.firstRow]
  · intro arg
    rcases attributeSelector_cases k hk arg with ⟨_, e, he⟩ | ⟨_, column, value, _, hs⟩
    · rw [GetAttribute_rejected k j d q arg e he]; simp
    · rw [GetAttribute_selected k j d q arg column value hs]
      simp [h, Reply.firstRow]

/-- At a store whose every result set is empty, looking up the entity 42 returns the zero
record and `sql.ErrNoRows`. -/
theorem lookup_without_match_is_not_found_witness :
    sampleSelectors.ByID ≠ sampleSelectors.BySlug ∧
      (∀ st, ((constDriver (.rows [])).answer (freshSession ()).db st).1 = .rows []) ∧
      (GetEntity sampleSelectors flatDecoder (constDriver (.rows [])) (freshSession ())
        ⟨true, sampleSelectors.ByID, .int64 42⟩).1 = (Entity.zero, some .sqlErrNoRows) :=
  ⟨by decide, fun _ => rfl,
    (lookup_without_match_is_not_found sampleSelectors flatDecoder (constDriver (.rows []))
      (freshSession ()) (by decide) (fun _ => rfl) true 42 "book").1⟩

/-- The eager lookup query aggregates without grouping; should the store answer it with one
row whose columns are all NULL, the scan of the id fails and the lookup still returns an
error. -/
theorem GetEntity_null_row_is_error {σ : Type} (k : Selectors) (j : JsonDecoder)
    (d : Driver σ) (q : Session σ) (hk : k.ByID ≠ k.BySlug)
    (h : ∀ st, (d.answer q.db st).1 = .rows [[.null, .null, .null, .null]])
    (arg : GetEntityParam) : (GetEntity k j d q arg).1.2 ≠ none := by
  rcases entitySelector_cases k hk arg with ⟨_, e, he⟩ | ⟨_, column, value, _, hs⟩
  · rw [GetEntity_rejected k j d q arg e he]; simp
  · rw [GetEntity_selected k j d q arg column value hs]
    simp [h, Reply.firstRow, readEntityRow, scanEntityCols, scanInt64]

/-- C4: `GetEntity` and `GetAttribute` return an error and leave the session as it was (no
statement issued) on every invalid selector: a field that is neither `ByID` nor `BySlug`,
`ByID` with a value that is not an `int64`, `BySlug` with a value that is not a string. On
every other parameter they issue exactly one statement, whose text is the query with its
`%s` replaced by one of the two fixed column references. -/
theorem lookup_selector_is_checked {σ : Type} (k : Selectors) (j : JsonDecoder)
    (d : Driver σ) (q : Session σ) (hk : k.ByID ≠ k.BySlug)
    (arg : GetEntityParam) (argA : GetAttributeParam) :
    (selectorRejected k arg.Field arg.Value →
        (GetEntity k j d q arg).1.2 ≠ none ∧ (GetEntity k j d q arg).2 = q) ∧
      (¬ selectorRejected k arg.Field arg.Value →
        ∃ column value, (column = "entities.id" ∨ column = "entities.slug") ∧
          (GetEntity k j d q arg).2.issued = q.issued ++
            [⟨Sprintf (if arg.WithAttributes then getEntityWithAttributes
              else getEntityNoAttributes) column, [value]⟩]) ∧
      (selectorRejected k argA.Field argA.Value →
        (GetAttribute k j d q argA).1.2 ≠ none ∧ (GetAttribute k j d q argA).2 = q) ∧
      (¬ selectorRejected k argA.Field argA.Value →
        ∃ column value, (column = "attributes.id" ∨ column = "attributes.slug") ∧
          (GetAttribute k j d q argA).2.issued = q.issued ++
            [⟨Sprintf (if argA.WithEntities then getAttributesWithEntities
              else getAttributeNoEntitie) column, [value]⟩]) := by
  refine ⟨?_, ?_, ?_, ?_⟩
  · intro hr
    rcases entitySelector_cases k hk arg with ⟨_, e, he⟩ | ⟨hn, _⟩
    · rw [GetEntity_rejected k j d q arg e he]; simp
    · exact absurd hr hn
  · intro hn
    rcases entitySelector_cases k hk arg with ⟨hr, _⟩ | ⟨_, column, value, hc, hs⟩
    · exact absurd hr hn
    · exact ⟨column, value, hc, by rw [GetEntity_selected k j d q arg column value hs]; rfl⟩
  · intro hr
    rcases attributeSelector_cases k hk argA with ⟨_, e, he⟩ | ⟨hn, _⟩
    · rw [GetAttribute_rejected k j d q argA e he]; simp
    · exact absurd hr hn
  · intro hn
    rcases attributeSelector_cases k hk argA with ⟨hr, _⟩ | ⟨_, column, value, hc, hs⟩
    · exact absurd hr hn
    · exact ⟨column, value, hc, by rw [GetAttribute_selected k j d q argA column value hs]; rfl⟩

/-- C4 at the sample selectors: a lookup by an unknown field and a lookup by id with a string
value are refused without a statement; the query texts of the valid lookups by id read
`WHERE entities.id = ?` and `WHERE attributes.id = ?`. -/
theorem lookup_selector_is_checked_witness :
    sampleSelectors.ByID ≠ sampleSelectors.BySlug ∧
      selectorRejected sampleSelectors "name; DROP TABLE entities" (.string "x") ∧
      ((GetEntity sampleSelectors flatDecoder (constDriver (.rows [])) (freshSession ())
          ⟨false, "name; DROP TABLE entities", .string "x"⟩).1.2 ≠ none ∧
        (GetEntity sampleSelectors flatDecoder (constDriver (.rows [])) (freshSession ())
          ⟨false, "name; DROP TABLE entities", .string "x"⟩).2 = freshSession ()) ∧
      selectorRejected sampleSelectors sampleSelectors.ByID (.string "7") ∧
      ((GetAttribute sampleSelectors flatDecoder (constDriver (.rows [])) (freshSession ())
          ⟨true, sampleSelectors.ByID, .string "7"⟩).1.2 ≠ none ∧
        (GetAttribute sampleSelectors flatDecoder (constDriver (.rows [])) (freshSession ())
          ⟨true, sampleSelectors.ByID, .string "7"⟩).2 = freshSession ()) ∧
      Sprintf getEntityNoAttributes "entities.id" =
        "\nSELECT id, name, slug, null FROM entities WHERE entities.id = ?;\n" ∧
      Sprintf getAttributeNoEntitie "attributes.id" =
        "\nSELECT id, name, slug, type, null FROM attributes WHERE attributes.id = ?;\n" :=
  have hk : sampleSelectors.ByID ≠ sampleSelectors.BySlug := by decide
  have h1 : selectorRejected sampleSelectors "name; DROP TABLE entities" (.string "x") :=
    Or.inl ⟨by decide, by decide⟩
  have h2 : selectorRejected sampleSelectors sampleSelectors.ByID (.string "7") :=
    Or.inr (Or.inl ⟨rfl, rfl⟩)
  ⟨hk, h1,
    (lookup_selector_is_checked sampleSelectors flatDecoder (constDriver (.rows []))
      (freshSession ()) hk ⟨false, "name; DROP TABLE entities", .string "x"⟩
      ⟨true, sampleSelectors.ByID, .string "7"⟩).1 h1,
    h2,
    (lookup_selector_is_checked sampleSelectors flatDecoder (constDriver (.rows []))
      (freshSession ()) hk ⟨false, "name; DROP TABLE entities", .string "x"⟩
      ⟨true, sampleSelectors.ByID, .string "7"⟩).2.2.1 h2,
    by decide, by decide⟩

/-! ### C5: memoization of the relation -/

theorem Entity.GetAttributes_of_loaded {σ : Type} (j : JsonDecoder) (d : Driver σ)
    (q : Session σ) (e : Entity) (h : e.loadedAttributes = true) :
    e.GetAttributes j d q = ((e, e.attributes, none), q) := by
  simp [Entity.GetAttributes, h]

theorem Entity.GetAttributes_marks_loaded {σ : Type} (j : JsonDecoder) (d : Driver σ)
    (q : Session σ) (e : Entity) :
    (e.GetAttributes j d q).1.1.loadedAttributes = true ∧
      (e.GetAttributes j d q).1.1.attributes = (e.GetAttributes j d q).1.2.1 := by
  cases e with
  | mk id name slug attributes loaded =>
    cases loaded <;>
      simp [Entity.GetAttributes, Entity.loadedAttributes, Entity.attributes,
        Entity.setAttributes, Entity.setLoadedAttributes]

theorem Entity.GetAttributesAgain_of_loaded {σ : Type} (j : JsonDecoder) (d : Driver σ)
    (e : Entity) (h : e.loadedAttributes = true) (later : List (Session σ)) :
    Entity.GetAttributesAgain j d e later = later.map fun q => ((e.attributes, none), q) := by
  induction later with
  | nil => rfl
  | cons q qs ih =>
    simp only [Entity.GetAttributesAgain, Entity.GetAttributes_of_loaded j d q e h, List.map_cons]
    rw [ih]

theorem Attribute.GetEntities_of_loaded {σ : Type} (j : JsonDecoder) (d : Driver σ)
    (q : Session σ) (a : Attribute) (h : a.loadedEntities = true) :
    a.GetEntities j d q = (.returned (a, a.entities, none), q) := by
  simp [Attribute.GetEntities, h]

theorem Attribute.GetEntities_marks_loaded {σ : Type} (j : JsonDecoder) (d : Driver σ)
    (q q1 : Session σ) (a a1 : Attribute) (entities : List attributeEntityEmbed)
    (err : Option Error) (h : a.GetEntities j d q = (.returned (a1, entities, err), q1)) :
    a1.loadedEntities = true ∧ a1.entities = entities := by
  cases a with
  | mk id name slug typ ents loaded =>
    cases loaded
    · simp only [Attribute.GetEntities, Attribute.loadedEntities, Bool.not_false, if_true,
        Attribute.ID] at h
      split at h
      · simp at h
      · simp only [Prod.mk.injEq, Outcome.returned.injEq] at h
        obtain ⟨⟨rfl, rfl, _⟩, _⟩ := h
        simp [Attribute.loadedEntities, Attribute.entities, Attribute.setEntities,
          Attribute.setLoadedEntities]
    · simp only [Attribute.GetEntities, Attribute.loadedEntities, Bool.not_true,
        Bool.false_eq_true, if_false, Prod.mk.injEq, Outcome.returned.injEq,
        Attribute.entities] at h
      obtain ⟨⟨rfl, rfl, _⟩, _⟩ := h
      simp [Attribute.loadedEntities, Attribute.entities]

theorem Attribute.GetEntitiesAgain_of_loaded {σ : Type} (j : JsonDecoder) (d : Driver σ)
    (a : Attribute) (h : a.loadedEntities = true) (later : List (Session σ)) :
    Attribute.GetEntitiesAgain j d a later =
      later.map fun q => (.returned (a.entities, none), q) := by
  induction later with
  | nil => rfl
  | cons q qs ih =>
    simp only [Attribute.GetEntitiesAgain, Attribute.GetEntities_of_loaded j d q a h,
      List.map_cons]
    rw [ih]

/-- C5: once a call of `GetAttributes` has returned, every later call on the same object,
whatever the store and its state at that time, returns the collection the first call returned
(with a nil error) and leaves its session as it was: no statement is issued. The same holds
of `GetEntities` once a call of it has returned. -/
theorem relation_is_memoized {σ : Type} (j j2 : JsonDecoder) (d d2 : Driver σ)
    (q : Session σ) (later : List (Session σ)) (e : Entity) (a : Attribute) :
    Entity.GetAttributesAgain j2 d2 (e.GetAttributes j d q).1.1 later =
        later.map (fun q2 => (((e.GetAttributes j d q).1.2.1, none), q2)) ∧
      (∀ a1 entities err q1, a.GetEntities j d q = (.returned (a1, entities, err), q1) →
        Attribute.GetEntitiesAgain j2 d2 a1 later =
          later.map (fun q2 => (.returned (entities, none), q2))) := by
  constructor
  · obtain ⟨hl, ha⟩ := Entity.GetAttributes_marks_loaded j d q e
    rw [Entity.GetAttributesAgain_of_loaded j2 d2 _ hl, ha]
  · intro a1 entities err q1 h
    obtain ⟨hl, ha⟩ := Attribute.GetEntities_marks_loaded j d q q1 a a1 entities err h
    rw [Attribute.GetEntitiesAgain_of_loaded j2 d2 _ hl, ha]

/-- C5 at an attribute whose first `GetEntities` decodes one linked entity: two later calls,
against a store with nothing to say and against a store that would now answer NULL, return
that same entity and issue nothing. -/
theorem relation_is_memoized_witness :
    Attribute.GetEntities flatDecoder scriptDriver
        (freshSession [.rows [[.text sampleEntitiesAggregate]]])
        (.mk 7 "Title" "title" "string" [] false) =
      (.returned (.mk 7 "Title" "title" "string" [.mk (.mk 1 "Book" "book" [] false) true] true,
        [.mk (.mk 1 "Book" "book" [] false) true], none),
        ⟨[], [⟨loadEntitiesByAttribute, [.int 7]⟩]⟩) ∧
      Attribute.GetEntitiesAgain flatDecoder scriptDriver
        (.mk 7 "Title" "title" "string" [.mk (.mk 1 "Book" "book" [] false) true] true)
        [freshSession [], freshSession [.rows [[.null]]]] =
      [freshSession [], freshSession [.rows [[.null]]]].map
        (fun q2 => (.returned ([.mk (.mk 1 "Book" "book" [] false) true], none), q2)) :=
  ⟨by rfl,
    (relation_is_memoized flatDecoder flatDecoder scriptDriver scriptDriver
      (freshSession [.rows [[.text sampleEntitiesAggregate]]])
      [freshSession [], freshSession [.rows [[.null]]]] Entity.zero
      (.mk 7 "Title" "title" "string" [] false)).2
      (.mk 7 "Title" "title" "string" [.mk (.mk 1 "Book" "book" [] false) true] true)
      [.mk (.mk 1 "Book" "book" [] false) true] none
      ⟨[], [⟨loadEntitiesByAttribute, [.int 7]⟩]⟩ (by rfl)⟩

/-! ### Rows, loops and hydration -/

theorem scanStringPtr_ok (c : DriverValue) : ∃ agg, scanStringPtr c = .ok agg := by
  cases c <;> simp [scanStringPtr]

theorem scanEntityCols_ok (cols : List DriverValue) (i : Entity) (agg : Option String)
    (h : scanEntityCols Entity.zero cols = ((i, agg), none)) :
    ∃ c0 c1 c2 c3, cols = [c0, c1, c2, c3] ∧ scanStringPtr c3 = .ok agg ∧
      i.attributes = [] ∧ i.loadedAttributes = false := by
  unfold scanEntityCols at h
  split at h
  · next c0 c1 c2 c3 =>
    refine ⟨c0, c1, c2, c3, rfl, ?_⟩
    split at h
    · simp at h
    · split at h
      · simp at h
      · split at h
        · simp at h
        · split at h
          · simp at h
          · next hagg =>
            simp only [Prod.mk.injEq, and_true] at h
            obtain ⟨rfl, rfl⟩ := h
            exact ⟨hagg, rfl, rfl⟩
  · simp at h

theorem scanAttributeCols_ok (cols : List DriverValue) (i : Attribute) (agg : Option String)
    (h : scanAttributeCols Attribute.zero cols = ((i, agg), none)) :
    ∃ c0 c1 c2 c3 c4, cols = [c0, c1, c2, c3, c4] ∧ scanStringPtr c4 = .ok agg ∧
      i.entities = [] ∧ i.loadedEntities = false := by
  unfold scanAttributeCols at h
  split at h
  · next c0 c1 c2 c3 c4 =>
    refine ⟨c0, c1, c2, c3, c4, rfl, ?_⟩
    split at h
    · simp at h
    · split at h
      · simp at h
      · split at h
        · simp at h
        · split at h
          · simp at h
          · split at h
            · simp at h
            · next hagg =>
              simp only [Prod.mk.injEq, and_true] at h
              obtain ⟨rfl, rfl⟩ := h
              exact ⟨hagg, rfl, rfl⟩
  · simp at h

theorem listEntitiesLoop_error (j : JsonDecoder) (w : Bool) (row : List DriverValue)
    (hrow : (readEntityRow j w row).2 ≠ none) :
    ∀ (rows : List (List DriverValue)) (items : List Entity), row ∈ rows →
      (listEntitiesLoop j w rows items).2 ≠ none := by
  intro rows
  induction rows with
  | nil => intro items hmem; simp at hmem
  | cons r rest ih =>
    intro items hmem
    unfold listEntitiesLoop
    split
    · simp
    · next i hr =>
      rcases List.mem_cons.1 hmem with rfl | hin
      · rw [hr] at hrow; exact absurd rfl hrow
      · exact ih _ hin

theorem listEntitiesLoop_ok (j : JsonDecoder) (w : Bool) :
    ∀ (rows : List (List DriverValue)) (items result : List Entity),
      listEntitiesLoop j w rows items = (result, none) →
        result = items ++ rows.map (fun r => (readEntityRow j w r).1) ∧
          ∀ r ∈ rows, (readEntityRow j w r).2 = none := by
  intro rows
  induction rows with
  | nil =>
    intro items result h
    simp only [listEntitiesLoop, Prod.mk.injEq, and_true] at h
    simp [h]
  | cons r rest ih =>
    intro items result h
    unfold listEntitiesLoop at h
    split at h
    · simp at h
    · next i hr =>
      obtain ⟨h1, h2⟩ := ih _ _ h
      refine ⟨?_, ?_⟩
      · rw [h1]; simp [hr]
      · intro r1 hmem
        rcases List.mem_cons.1 hmem with rfl | hin
        · rw [hr]
        · exact h2 _ hin

theorem listAttributesLoop_error (j : JsonDecoder) (w : Bool) (row : List DriverValue)
    (hrow : (readAttributeRow j w row).2 ≠ none) :
    ∀ (rows : List (List DriverValue)) (items : List Attribute), row ∈ rows →
      (listAttributesLoop j w rows items).2 ≠ none := by
  intro rows
  induction rows with
  | nil => intro items hmem; simp at hmem
  | cons r rest ih =>
    intro items hmem
    unfold listAttributesLoop
    split
    · simp
    · next i hr =>
      rcases List.mem_cons.1 hmem with rfl | hin
      · rw [hr] at hrow; exact absurd rfl hrow
      · exact ih _ hin

theorem listAttributesLoop_ok (j : JsonDecoder) (w : Bool) :
    ∀ (rows : List (List DriverValue)) (items result : List Attribute),
      listAttributesLoop j w rows items = (result, none) →
        result = items ++ rows.map (fun r => (readAttributeRow j w r).1) ∧
          ∀ r ∈ rows, (readAttributeRow j w r).2 = none := by
  intro rows
  induction rows with
  | nil =>
    intro items result h
    simp only [listAttributesLoop, Prod.mk.injEq, and_true] at h
    simp [h]
  | cons r rest ih =>
    intro items result h
    unfold listAttributesLoop at h
    split at h
    · simp at h
    · next i hr =>
      obtain ⟨h1, h2⟩ := ih _ _ h
      refine ⟨?_, ?_⟩
      · rw [h1]; simp [hr]
      · intro r1 hmem
        rcases List.mem_cons.1 hmem with rfl | hin
        · rw [hr]
        · exact h2 _ hin

theorem ListEntities_const (j : JsonDecoder) (rows : List (List DriverValue))
    (q : Session Unit) (w : Bool) :
    (ListEntities j (constDriver (.rows rows)) q w).1 = listEntitiesLoop j w rows [] := rfl

theorem ListAttributes_const (j : JsonDecoder) (rows : List (List DriverValue))
    (q : Session Unit) (w : Bool) :
    (ListAttributes j (constDriver (.rows rows)) q w).1 = listAttributesLoop j w rows [] := rfl

/-! ### C6: the eager and the lazy path -/

theorem Entity.setLoadedAttributes_fields (i : Entity) (b : Bool) :
    (i.setLoadedAttributes b).loadedAttributes = b ∧
      (i.setLoadedAttributes b).attributes = i.attributes := by
  cases i; exact ⟨rfl, rfl⟩

theorem Entity.setAttributes_fields (i : Entity) (l : List EntityAttributeEmbed) :
    (i.setAttributes l).loadedAttributes = i.loadedAttributes ∧
      (i.setAttributes l).attributes = l := by
  cases i; exact ⟨rfl, rfl⟩

theorem LoadAttributesByEntity_const (j : JsonDecoder) (c : DriverValue) (agg : Option String)
    (q : Session Unit) (id : Int) (h : scanStringPtr c = .ok agg) :
    (LoadAttributesByEntity j (constDriver (.rows [[c]])) q id).1 =
      match agg with
      | none => ([], none)
      | some text =>
        match parseAttributesJson j text with
        | (_, some e) => ([], some e)
        | (attributes, none) => (attributes, none) := by
  simp only [LoadAttributesByEntity, Session.send, constDriver, Reply.firstRow, h]
  cases agg with
  | none => rfl
  | some text =>
    simp only
    split <;> simp_all

/-- A row that the eager path reads without error yields an entity marked loaded whose
collection is the one the lazy loader returns for the aggregate of that row. -/
theorem eager_row_matches_lazy (j : JsonDecoder) (row : List DriverValue) (q : Session Unit)
    (id : Int) (h : (readEntityRow j true row).2 = none) :
    (readEntityRow j true row).1.loadedAttributes = true ∧
      (readEntityRow j true row).1.attributes =
        (LoadAttributesByEntity j (constDriver (.rows [[row.getD 3 .null]])) q id).1.1 := by
  rcases hs : scanEntityCols Entity.zero row with ⟨⟨i, agg⟩, err⟩
  cases err with
  | some e => simp [readEntityRow, hs] at h
  | none =>
    obtain ⟨c0, c1, c2, c3, rfl, hagg, hattrs, -⟩ := scanEntityCols_ok row i agg hs
    have hload := LoadAttributesByEntity_const j c3 agg q id hagg
    simp only [List.getD_cons_succ, List.getD_cons_zero] at *
    rw [hload]
    simp only [readEntityRow, hs, hydrateEntity, if_true] at h ⊢
    cases agg with
    | none => simp [Entity.setLoadedAttributes_fields, hattrs]
    | some text =>
      simp only at h ⊢
      rcases hp : parseAttributesJson j text with ⟨attributes, perr⟩
      rw [hp] at h
      cases perr with
      | some e => simp at h
      | none =>
        simp [Entity.setLoadedAttributes_fields, Entity.setAttributes_fields]

theorem GetEntity_const_row (k : Selectors) (j : JsonDecoder) (cols : List DriverValue)
    (q : Session Unit) (arg : GetEntityParam) (hk : k.ByID ≠ k.BySlug)
    (hsel : ¬ selectorRejected k arg.Field arg.Value) :
    (GetEntity k j (constDriver (.rows [cols])) q arg).1 =
      readEntityRow j arg.WithAttributes cols := by
  rcases entitySelector_cases k hk arg with ⟨hr, _⟩ | ⟨_, column, value, _, hs⟩
  · exact absurd hr hsel
  · rw [GetEntity_selected k j _ q _ column value hs]
    rfl

theorem GetAttribute_const_row (k : Selectors) (j : JsonDecoder) (cols : List DriverValue)
    (q : Session Unit) (arg : GetAttributeParam) (hk : k.ByID ≠ k.BySlug)
    (hsel : ¬ selectorRejected k arg.Field arg.Value) :
    (GetAttribute k j (constDriver (.rows [cols])) q arg).1 =
      readAttributeRow j arg.WithEntities cols := by
  rcases attributeSelector_cases k hk arg with ⟨hr, _⟩ | ⟨_, column, value, _, hs⟩
  · exact absurd hr hsel
  · rw [GetAttribute_selected k j _ q _ column value hs]
    rfl

/-- C6: for every entity row and every aggregate payload the store returns for it (NULL, a
text, or any other value) and every valid selector, by id or by slug, the collection
attached by the eager `GetEntity` and then
returned by `GetAttributes` is the collection that `GetAttributes` loads lazily for the same
entity fetched without hydration, records and required flags alike; the eager lookup fails
exactly when the lazy load fails, with the same error; and every entity of an eager
`ListEntities` that returned without error carries the collection the lazy loader returns
for its aggregate. The hydrated entity answers `GetAttributes` without a statement. -/
theorem eager_and_lazy_agree {σ : Type} (k : Selectors) (j : JsonDecoder) (d : Driver σ)
    (q : Session σ) (q0 : Session Unit) (id : Int) (name slug : String) (agg : DriverValue)
    (rows : List (List DriverValue)) (field : GetType) (value : GoAny)
    (hk : k.ByID ≠ k.BySlug) (hsel : ¬ selectorRejected k field value) :
    (((GetEntity k j (constDriver (.rows [[.int id, .text name, .text slug, agg]])) q0
          ⟨true, field, value⟩).1.1).GetAttributes j d q).1.2.1 =
        (((GetEntity k j (constDriver (.rows [[.int id, .text name, .text slug, .null]])) q0
          ⟨false, field, value⟩).1.1).GetAttributes j
            (constDriver (.rows [[agg]])) q0).1.2.1 ∧
      (GetEntity k j (constDriver (.rows [[.int id, .text name, .text slug, agg]])) q0
          ⟨true, field, value⟩).1.2 =
        (((GetEntity k j (constDriver (.rows [[.int id, .text name, .text slug, .null]])) q0
          ⟨false, field, value⟩).1.1).GetAttributes j
            (constDriver (.rows [[agg]])) q0).1.2.2 ∧
      (((GetEntity k j (constDriver (.rows [[.int id, .text name, .text slug, agg]])) q0
          ⟨true, field, value⟩).1.1).GetAttributes j d q).2 = q ∧
      (∀ items, (ListEntities j (constDriver (.rows rows)) q0 true).1 = (items, none) →
        items.map (fun P => (P.GetAttributes j d q).1.2.1) =
          rows.map (fun row =>
            (LoadAttributesByEntity j (constDriver (.rows [[row.getD 3 .null]])) q0 id).1.1)) := by
  obtain ⟨p, hp⟩ := scanStringPtr_ok agg
  have hplain : readEntityRow j false [.int id, .text name, .text slug, .null] =
      (.mk id name slug [] false, none) := by
    simp [readEntityRow, scanEntityCols, scanInt64, scanString, scanStringPtr, asString,
      hydrateEntity, Entity.zero, Entity.setID, Entity.setName, Entity.setSlug]
  have hscan : scanEntityCols Entity.zero [.int id, .text name, .text slug, agg] =
      ((.mk id name slug [] false, p), none) := by
    simp [scanEntityCols, scanInt64, scanString, asString, hp,
      Entity.zero, Entity.setID, Entity.setName, Entity.setSlug]
  have hlazy := LoadAttributesByEntity_const j agg p q0 id hp
  have hlazyCall : ((Entity.mk id name slug [] false).GetAttributes j
      (constDriver (.rows [[agg]])) q0).1.2 =
      (LoadAttributesByEntity j (constDriver (.rows [[agg]])) q0 id).1 := by
    simp [Entity.GetAttributes, Entity.loadedAttributes, Entity.ID, Entity.setAttributes,
      Entity.setLoadedAttributes, Entity.attributes]
  rw [GetEntity_const_row k j _ q0 ⟨true, field, value⟩ hk hsel,
    GetEntity_const_row k j _ q0 ⟨false, field, value⟩ hk hsel]
  simp only [hplain]
  refine ⟨?_, ?_, ?_, ?_⟩
  · rw [show ((Entity.mk id name slug [] false).GetAttributes j
        (constDriver (.rows [[agg]])) q0).1.2.1 =
        (LoadAttributesByEntity j (constDriver (.rows [[agg]])) q0 id).1.1 from
        congrArg Prod.fst hlazyCall, hlazy]
    simp only [readEntityRow, hscan, hydrateEntity, if_true]
    cases p with
    | none =>
      simp [Entity.GetAttributes, Entity.setLoadedAttributes, Entity.loadedAttributes,
        Entity.attributes]
    | some text =>
      simp only
      rcases hparse : parseAttributesJson j text with ⟨attributes, perr⟩
      cases perr <;>
        simp [Entity.GetAttributes, Entity.setLoadedAttributes, Entity.loadedAttributes,
          Entity.attributes, Entity.setAttributes]
  · rw [show ((Entity.mk id name slug [] false).GetAttributes j
        (constDriver (.rows [[agg]])) q0).1.2.2 =
        (LoadAttributesByEntity j (constDriver (.rows [[agg]])) q0 id).1.2 from
        congrArg Prod.snd hlazyCall, hlazy]
    simp only [readEntityRow, hscan, hydrateEntity, if_true]
    cases p with
    | none => rfl
    | some text =>
      simp only
      rcases hparse : parseAttributesJson j text with ⟨attributes, perr⟩
      cases perr <;> rfl
  · simp only [readEntityRow, hscan, hydrateEntity, if_true]
    cases p with
    | none =>
      simp [Entity.GetAttributes, Entity.setLoadedAttributes, Entity.loadedAttributes]
    | some text =>
      simp only
      rcases hparse : parseAttributesJson j text with ⟨attributes, perr⟩
      cases perr <;>
        simp [Entity.GetAttributes, Entity.setLoadedAttributes, Entity.loadedAttributes,
          Entity.setAttributes]
  · intro items hitems
    rw [ListEntities_const] at hitems
    obtain ⟨hres, hok⟩ := listEntitiesLoop_ok j true rows [] items hitems
    rw [hres, List.nil_append, List.map_map]
    apply List.map_congr_left
    intro row hmem
    obtain ⟨hl, ha⟩ := eager_row_matches_lazy j row q0 id (hok row hmem)
    simp only [Function.comp, Entity.GetAttributes_of_loaded j d q _ hl, ha]

/-- C6 at the two sample parent rows: the eager list returns both parents, and their
collections are the ones the lazy loader returns for the two aggregates. -/
theorem eager_and_lazy_agree_witness :
    (ListEntities flatDecoder (constDriver (.rows sampleEntityRows)) (freshSession ()) true).1 =
        ([.mk 1 "Book" "book"
            [.mk (.mk 7 "Title" "title" "string" [] false) true, EntityAttributeEmbed.zero] true,
          .mk 2 "Film" "film" [] true], none) ∧
      ([.mk 1 "Book" "book"
            [.mk (.mk 7 "Title" "title" "string" [] false) true, EntityAttributeEmbed.zero] true,
          .mk 2 "Film" "film" [] true] : List Entity).map
          (fun P => (P.GetAttributes flatDecoder scriptDriver (freshSession [])).1.2.1) =
        sampleEntityRows.map (fun row =>
          (LoadAttributesByEntity flatDecoder (constDriver (.rows [[row.getD 3 .null]]))
            (freshSession ()) 1).1.1) :=
  ⟨by rfl,
    (eager_and_lazy_agree sampleSelectors flatDecoder scriptDriver (freshSession [])
      (freshSession ()) 1 "Book" "book" (.text sampleAttributesAggregate)
      sampleEntityRows sampleSelectors.BySlug (.string "book") (by decide)
      (by decide)).2.2.2 _ (by rfl)⟩

/-! ### A parent row with a NULL aggregate -/

/-- A parent row whose aggregate column is NULL, should the store return one, comes out of
the eager operations
(`GetEntity` and `GetAttribute` with hydration, for every valid selector; `ListEntities` and
`ListAttributes` with hydration, at the index of the row, when they return without error)
marked loaded and with an empty collection, and the following `GetAttributes` or
`GetEntities` returns the empty collection, no error, and issues no statement. -/
theorem null_aggregate_is_loaded_and_empty {σ : Type} (k : Selectors) (j : JsonDecoder)
    (d : Driver σ) (q : Session σ) (q0 : Session Unit) (id : Int) (name slug typ : String)
    (rows : List (List DriverValue)) (n : Nat) (field : GetType) (value : GoAny)
    (hk : k.ByID ≠ k.BySlug) (hsel : ¬ selectorRejected k field value) :
    (GetEntity k j (constDriver (.rows [[.int id, .text name, .text slug, .null]])) q0
        ⟨true, field, value⟩).1 = (.mk id name slug [] true, none) ∧
      (∀ items, (ListEntities j (constDriver (.rows rows)) q0 true).1 = (items, none) →
        rows[n]? = some [.int id, .text name, .text slug, .null] →
          items[n]? = some (.mk id name slug [] true)) ∧
      (Entity.mk id name slug [] true).GetAttributes j d q =
        ((.mk id name slug [] true, [], none), q) ∧
      (GetAttribute k j
        (constDriver (.rows [[.int id, .text name, .text slug, .text typ, .null]])) q0
        ⟨true, field, value⟩).1 = (.mk id name slug typ [] true, none) ∧
      (∀ items, (ListAttributes j (constDriver (.rows rows)) q0 true).1 = (items, none) →
        rows[n]? = some [.int id, .text name, .text slug, .text typ, .null] →
          items[n]? = some (.mk id name slug typ [] true)) ∧
      (Attribute.mk id name slug typ [] true).GetEntities j d q =
        (.returned (.mk id name slug typ [] true, [], none), q) := by
  have hE : readEntityRow j true [.int id, .text name, .text slug, .null] =
      (.mk id name slug [] true, none) := by
    simp [readEntityRow, scanEntityCols, scanInt64, scanString, scanStringPtr, asString,
      hydrateEntity, Entity.zero, Entity.setID, Entity.setName, Entity.setSlug,
      Entity.setLoadedAttributes]
  have hA : readAttributeRow j true [.int id, .text name, .text slug, .text typ, .null] =
      (.mk id name slug typ [] true, none) := by
    simp [readAttributeRow, scanAttributeCols, scanInt64, scanString, scanStringPtr, asString,
      scanAttributeType, hydrateAttribute, Attribute.zero, Attribute.setID, Attribute.setName,
      Attribute.setSlug, Attribute.setTyp, Attribute.setLoadedEntities]
  refine ⟨?_, ?_, ?_, ?_, ?_, ?_⟩
  · rw [GetEntity_const_row k j _ q0 ⟨true, field, value⟩ hk hsel, hE]
  · intro items hitems hrow
    rw [ListEntities_const] at hitems
    obtain ⟨hres, -⟩ := listEntitiesLoop_ok j true rows [] items hitems
    rw [hres, List.nil_append, List.getElem?_map, hrow, Option.map_some', hE]
  · exact Entity.GetAttributes_of_loaded j d q _ rfl
  · rw [GetAttribute_const_row k j _ q0 ⟨true, field, value⟩ hk hsel, hA]
  · intro items hitems hrow
    rw [ListAttributes_const] at hitems
    obtain ⟨hres, -⟩ := listAttributesLoop_ok j true rows [] items hitems
    rw [hres, List.nil_append, List.getElem?_map, hrow, Option.map_some', hA]
  · exact Attribute.GetEntities_of_loaded j d q _ rfl

/-- At the sample parent rows the film, second row of the eager list, has a NULL
aggregate and comes out loaded and empty. -/
theorem null_aggregate_is_loaded_and_empty_witness :
    (ListEntities flatDecoder (constDriver (.rows sampleEntityRows)) (freshSession ()) true).1 =
        ([.mk 1 "Book" "book"
            [.mk (.mk 7 "Title" "title" "string" [] false) true, EntityAttributeEmbed.zero] true,
          .mk 2 "Film" "film" [] true], none) ∧
      sampleEntityRows[1]? = some [.int 2, .text "Film", .text "film", .null] ∧
      ([.mk 1 "Book" "book"
            [.mk (.mk 7 "Title" "title" "string" [] false) true, EntityAttributeEmbed.zero] true,
          .mk 2 "Film" "film" [] true] : List Entity)[1]? = some (.mk 2 "Film" "film" [] true) :=
  ⟨by rfl, by rfl,
    (null_aggregate_is_loaded_and_empty sampleSelectors flatDecoder scriptDriver
      (freshSession []) (freshSession ()) 2 "Film" "film" "string" sampleEntityRows 1
      sampleSelectors.ByID (.int64 2) (by decide) (by decide)).2.1 _ (by rfl) (by rfl)⟩

/-! ### C8: a NULL aggregate on the lazy path -/

/-- C8: when the store answers the lazy query with a NULL aggregate,
`LoadAttributesByEntity` returns the empty collection and no error, and `GetAttributes`
with it; `LoadEntitiesByAttribute` dereferences the nil pointer and panics, and
`GetEntities` with it. -/
theorem LoadEntitiesByAttribute_null_panics (j : JsonDecoder) (q0 : Session Unit) (id : Int)
    (name slug typ : String) :
    (LoadAttributesByEntity j (constDriver (.rows [[.null]])) q0 id).1 = ([], none) ∧
      ((Entity.mk id name slug [] false).GetAttributes j (constDriver (.rows [[.null]])) q0).1 =
        (.mk id name slug [] true, [], none) ∧
      (LoadEntitiesByAttribute j (constDriver (.rows [[.null]])) q0 id).1 = .panicked ∧
      ((Attribute.mk id name slug typ [] false).GetEntities j
        (constDriver (.rows [[.null]])) q0).1 = .panicked :=
  ⟨rfl, rfl, rfl, rfl⟩

/-! ### C9: a malformed aggregate -/

theorem readEntityRow_malformed (j : JsonDecoder) (text : String) (e : Error)
    (h : j.attributes text = .error e) (c0 c1 c2 : DriverValue) :
    (readEntityRow j true [c0, c1, c2, .text text]).2 ≠ none := by
  have hp : parseAttributesJson j text = ([], some e) := by simp [parseAttributesJson, h]
  simp only [readEntityRow, scanEntityCols, scanStringPtr, asString]
  cases scanInt64 c0 <;> cases scanString c1 <;> cases scanString c2 <;>
    simp [hydrateEntity, hp]

theorem readAttributeRow_malformed (j : JsonDecoder) (text : String) (e : Error)
    (h : j.entities text = .error e) (c0 c1 c2 c3 : DriverValue) :
    (readAttributeRow j true [c0, c1, c2, c3, .text text]).2 ≠ none := by
  have hp : parseEntitiesJson j text = ([], some e) := by simp [parseEntitiesJson, h]
  simp only [readAttributeRow, scanAttributeCols, scanStringPtr, asString]
  cases scanInt64 c0 <;> cases scanString c1 <;> cases scanString c2 <;>
    cases scanAttributeType c3 <;> simp [hydrateAttribute, hp]

/-- C9, as stated, fails: `Decoder.Decode` accepts texts that are not a well-formed array of
the element shape. On the text `null` both parse functions return an empty collection and no
error, and the eager `GetEntity` whose row carries it returns the entity marked as loaded,
with an empty collection and no error. On an array followed by other bytes the array is
decoded and what follows is not read. On the array of one object with the member `id` only,
`parseEntitiesJson` returns without error a record with that id and an empty name and
slug. -/
theorem unshaped_aggregate_is_accepted :
    parseAttributesJson flatDecoder "null" = ([], none) ∧
      parseEntitiesJson flatDecoder "null" = ([], none) ∧
      (GetEntity sampleSelectors flatDecoder
        (constDriver (.rows [[.int 1, .text "Book", .text "book", .text "null"]]))
        (freshSession ()) ⟨true, sampleSelectors.ByID, .int64 1⟩).1 =
        (.mk 1 "Book" "book" [] true, none) ∧
      parseEntitiesJson flatDecoder
          "[\x7b\"id\":1,\"name\":\"Book\",\"slug\":\"book\",\"required\":1\x7d] and more" =
        ([.mk (.mk 1 "Book" "book" [] false) true], none) ∧
      parseEntitiesJson flatDecoder "[\x7b\"id\":7\x7d]" =
        ([.mk (.mk 7 "" "" [] false) false], none) := by
  refine ⟨by rfl, by rfl, by rfl, by rfl, by rfl⟩

/-- C9, amended: when the decoder rejects an aggregate text, `parseAttributesJson` and
`parseEntitiesJson` return its error, and every operation that decodes the text returns a
non-nil error: the eager `GetEntity` and `GetAttribute` whatever the selector and the
other columns of the row, the eager `ListEntities` and `ListAttributes` whenever such a row is among the rows,
and the lazy loaders, which return the decoder's error with the nil slice. -/
theorem malformed_aggregate_is_error (k : Selectors) (j : JsonDecoder) (q0 : Session Unit)
    (id : Int) (textA textE : String) (eA eE : Error) (c0 c1 c2 c3 : DriverValue)
    (rows : List (List DriverValue)) (field : GetType) (value : GoAny)
    (hA : j.attributes textA = .error eA) (hE : j.entities textE = .error eE) :
    parseAttributesJson j textA = ([], some eA) ∧
      parseEntitiesJson j textE = ([], some eE) ∧
      (GetEntity k j (constDriver (.rows [[c0, c1, c2, .text textA]])) q0
        ⟨true, field, value⟩).1.2 ≠ none ∧
      ([c0, c1, c2, .text textA] ∈ rows →
        (ListEntities j (constDriver (.rows rows)) q0 true).1.2 ≠ none) ∧
      (LoadAttributesByEntity j (constDriver (.rows [[.text textA]])) q0 id).1 =
        ([], some eA) ∧
      (GetAttribute k j (constDriver (.rows [[c0, c1, c2, c3, .text textE]])) q0
        ⟨true, field, value⟩).1.2 ≠ none ∧
      ([c0, c1, c2, c3, .text textE] ∈ rows →
        (ListAttributes j (constDriver (.rows rows)) q0 true).1.2 ≠ none) ∧
      (LoadEntitiesByAttribute j (constDriver (.rows [[.text textE]])) q0 id).1 =
        .returned ([], some eE) := by
  have hpA : parseAttributesJson j textA = ([], some eA) := by simp [parseAttributesJson, hA]
  have hpE : parseEntitiesJson j textE = ([], some eE) := by simp [parseEntitiesJson, hE]
  refine ⟨hpA, hpE, ?_, ?_, ?_, ?_, ?_, ?_⟩
  · cases hs : entitySelector k ⟨true, field, value⟩ with
    | error e => rw [GetEntity_rejected k j _ q0 _ e hs]; simp
    | ok sel =>
      rw [GetEntity_selected k j _ q0 _ sel.1 sel.2 hs]
      exact readEntityRow_malformed j textA eA hA c0 c1 c2
  · intro hmem
    rw [ListEntities_const]
    exact listEntitiesLoop_error j true _ (readEntityRow_malformed j textA eA hA c0 c1 c2)
      rows [] hmem
  · simp [LoadAttributesByEntity, Session.send, constDriver, Reply.firstRow, scanStringPtr,
      asString, hpA]
  · cases hs : attributeSelector k ⟨true, field, value⟩ with
    | error e => rw [GetAttribute_rejected k j _ q0 _ e hs]; simp
    | ok sel =>
      rw [GetAttribute_selected k j _ q0 _ sel.1 sel.2 hs]
      exact readAttributeRow_malformed j textE eE hE c0 c1 c2 c3
  · intro hmem
    rw [ListAttributes_const]
    exact listAttributesLoop_error j true _
      (readAttributeRow_malformed j textE eE hE c0 c1 c2 c3) rows [] hmem
  · simp [LoadEntitiesByAttribute, Session.send, constDriver, Reply.firstRow, scanStringPtr,
      asString, hpE]

/-- C9, amended, at the text `[` (an array that is never closed), which the decoder rejects
in both element shapes; it also rejects a number, an object, an array of a number and an
element whose `id` is a string. -/
theorem malformed_aggregate_is_error_witness :
    (∃ e, flatDecoder.attributes "[" = .error e) ∧
      (∃ e, flatDecoder.entities "[" = .error e) ∧
      (∃ e, flatDecoder.attributes "7" = .error e) ∧
      (∃ e, flatDecoder.entities "\x7b\"id\":1\x7d" = .error e) ∧
      (∃ e, flatDecoder.attributes "[1]" = .error e) ∧
      (∃ e, flatDecoder.entities "[\x7b\"id\":\"x\"\x7d]" = .error e) ∧
      (GetEntity sampleSelectors flatDecoder
        (constDriver (.rows [[.int 1, .text "Book", .text "book", .text "["]])) (freshSession ())
        ⟨true, sampleSelectors.ByID, .int64 1⟩).1.2 ≠ none ∧
      (∃ e, (LoadEntitiesByAttribute flatDecoder (constDriver (.rows [[.text "["]]))
        (freshSession ()) 1).1 = .returned ([], some e)) :=
  have h := malformed_aggregate_is_error sampleSelectors flatDecoder (freshSession ()) 1
    "[" "[" (.decode "invalid character or unexpected end of JSON input")
    (.decode "invalid character or unexpected end of JSON input")
    (.int 1) (.text "Book") (.text "book") (.text "string") [] sampleSelectors.ByID (.int64 1)
    (by rfl) (by rfl)
  ⟨⟨_, by rfl⟩, ⟨_, by rfl⟩, ⟨_, by rfl⟩, ⟨_, by rfl⟩, ⟨_, by rfl⟩, ⟨_, by rfl⟩, h.2.2.1,
    ⟨_, h.2.2.2.2.2.2.2⟩⟩

/-! ### C10: entries with an invalid type tag -/

theorem set_at_length_append {α : Type} (pre : List α) (a b : α) (post : List α) :
    (pre ++ a :: post).set pre.length b = pre ++ b :: post := by
  induction pre with
  | nil => rfl
  | cons x xs ih => simp [List.set, ih]

theorem parseAttributesLoop_eq (parsed : List parsedAttribute) :
    ∀ done : List EntityAttributeEmbed,
      parseAttributesLoop parsed done.length
          (done ++ List.replicate parsed.length EntityAttributeEmbed.zero) =
        done ++ parsed.map (fun p =>
          if ValidAttributeType p.Typ then p.embed else EntityAttributeEmbed.zero) := by
  induction parsed with
  | nil => intro done; simp [parseAttributesLoop]
  | cons p rest ih =>
    intro done
    simp only [parseAttributesLoop, List.length_cons, List.replicate_succ, List.map_cons]
    by_cases hv : ValidAttributeType p.Typ = true
    · have := ih (done ++ [p.embed])
      simp only [List.length_append, List.length_singleton, List.append_assoc,
        List.singleton_append] at this
      simp [hv, set_at_length_append, this]
    · have := ih (done ++ [EntityAttributeEmbed.zero])
      simp only [List.length_append, List.length_singleton, List.append_assoc,
        List.singleton_append] at this
      simp [hv, this]

/-- What `parseAttributesJson` returns on a text the decoder accepts: one record per entry,
in order, the zero record standing for every entry whose type tag is invalid. -/
theorem parseAttributesJson_of_decoded (j : JsonDecoder) (text : String)
    (parsed : List parsedAttribute) (h : j.attributes text = .ok parsed) :
    parseAttributesJson j text =
      (parsed.map (fun p =>
        if ValidAttributeType p.Typ then p.embed else EntityAttributeEmbed.zero), none) := by
  have := parseAttributesLoop_eq parsed []
  simp only [List.length_nil, List.nil_append] at this
  simp [parseAttributesJson, h, this]

/-- C10: on the sample aggregate, whose second entry carries the type tag `varchar`,
`parseAttributesJson` returns no error and two records: the first entry, and in the place of
the second entry the zero record (id 0, empty name, slug and type) instead of nothing. -/
theorem parseAttributesJson_keeps_zero_record :
    ValidAttributeType "varchar" = false ∧
      flatDecoder.attributes sampleAttributesAggregate =
        .ok [⟨7, "Title", "title", "string", 1⟩, ⟨8, "Pages", "pages", "varchar", 0⟩] ∧
      parseAttributesJson flatDecoder sampleAttributesAggregate =
        ([.mk (.mk 7 "Title" "title" "string" [] false) true, .mk (.mk 0 "" "" "" [] false) false],
          none) :=
  ⟨by decide, by rfl, by rfl⟩

/-! ### C11: what the parse functions copy -/

theorem parseEntitiesLoop_eq (parsed : List parsedEntity) :
    ∀ done : List attributeEntityEmbed,
      parseEntitiesLoop parsed done.length
          (done ++ List.replicate parsed.length attributeEntityEmbed.zero) =
        done ++ parsed.map (fun p => p.embed) := by
  induction parsed with
  | nil => intro done; simp [parseEntitiesLoop]
  | cons p rest ih =>
    intro done
    simp only [parseEntitiesLoop, List.length_cons, List.replicate_succ, List.map_cons]
    have := ih (done ++ [p.embed])
    simp only [List.length_append, List.length_singleton, List.append_assoc,
      List.singleton_append] at this
    simp [set_at_length_append, this]

/-- What `parseEntitiesJson` returns on a text the decoder accepts: one record per entry, in
order. -/
theorem parseEntitiesJson_of_decoded (j : JsonDecoder) (text : String)
    (parsed : List parsedEntity) (h : j.entities text = .ok parsed) :
    parseEntitiesJson j text = (parsed.map (fun p => p.embed), none) := by
  have := parseEntitiesLoop_eq parsed []
  simp only [List.length_nil, List.nil_append] at this
  simp [parseEntitiesJson, h, this]

/-- C11: on an aggregate the decoder accepts and whose entries all carry a valid type tag,
`parseAttributesJson` returns no error and one record per entry, in the order of the
entries: the record at index `n` has the id, name, slug and type of the entry at index `n`,
is required when the field `required` of the entry is 1 and is not when it is 0. The same
holds of `parseEntitiesJson`, whose entries have no type. -/
theorem parse_copies_every_entry (j : JsonDecoder) (textA textE : String)
    (attrs : List parsedAttribute) (ents : List parsedEntity)
    (hA : j.attributes textA = .ok attrs)
    (hvalid : ∀ p ∈ attrs, ValidAttributeType p.Typ = true)
    (hE : j.entities textE = .ok ents) :
    (parseAttributesJson j textA).2 = none ∧
      (parseAttributesJson j textA).1.length = attrs.length ∧
      (∀ (n : Nat) (p : parsedAttribute), attrs[n]? = some p →
        ∃ r : EntityAttributeEmbed, (parseAttributesJson j textA).1[n]? = some r ∧
          r.Attribute.ID = p.ID ∧ r.Attribute.Name = p.Name ∧ r.Attribute.Slug = p.Slug ∧
          r.Attribute.Typ = p.Typ ∧ (p.Required = 1 → r.Required = true) ∧
          (p.Required = 0 → r.Required = false)) ∧
      (parseEntitiesJson j textE).2 = none ∧
      (parseEntitiesJson j textE).1.length = ents.length ∧
      (∀ (n : Nat) (p : parsedEntity), ents[n]? = some p →
        ∃ r : attributeEntityEmbed, (parseEntitiesJson j textE).1[n]? = some r ∧
          r.Entity.ID = p.ID ∧ r.Entity.Name = p.Name ∧ r.Entity.Slug = p.Slug ∧
          (p.Required = 1 → r.Required = true) ∧ (p.Required = 0 → r.Required = false)) := by
  have hmapA : attrs.map (fun p =>
      if ValidAttributeType p.Typ then p.embed else EntityAttributeEmbed.zero) =
      attrs.map (fun p => p.embed) :=
    List.map_congr_left fun p hp => by simp [hvalid p hp]
  rw [parseAttributesJson_of_decoded j textA attrs hA, hmapA,
    parseEntitiesJson_of_decoded j textE ents hE]
  refine ⟨rfl, by simp, ?_, rfl, by simp, ?_⟩
  · intro n p hp
    refine ⟨p.embed, by simp [hp], rfl, rfl, rfl, rfl, ?_, ?_⟩
    · intro h1; simp [parsedAttribute.embed, EntityAttributeEmbed.Required, h1]
    · intro h0; simp [parsedAttribute.embed, EntityAttributeEmbed.Required, h0]
  · intro n p hp
    refine ⟨p.embed, by simp [hp], rfl, rfl, rfl, ?_, ?_⟩
    · intro h1; simp [parsedEntity.embed, attributeEntityEmbed.Required, h1]
    · intro h0; simp [parsedEntity.embed, attributeEntityEmbed.Required, h0]

/-- C11 at the sample entity aggregate and at an attribute aggregate of one valid entry. -/
theorem parse_copies_every_entry_witness :
    parseAttributesJson flatDecoder
        "[\x7b\"id\":7,\"name\":\"Title\",\"slug\":\"title\",\"type\":\"string\",\"required\":1\x7d]" =
        ([.mk (.mk 7 "Title" "title" "string" [] false) true], none) ∧
      (parseAttributesJson flatDecoder
        "[\x7b\"id\":7,\"name\":\"Title\",\"slug\":\"title\",\"type\":\"string\",\"required\":1\x7d]").2
        = none ∧
      (parseEntitiesJson flatDecoder sampleEntitiesAggregate).1.length = 1 :=
  have h := parse_copies_every_entry flatDecoder
    "[\x7b\"id\":7,\"name\":\"Title\",\"slug\":\"title\",\"type\":\"string\",\"required\":1\x7d]"
    sampleEntitiesAggregate [⟨7, "Title", "title", "string", 1⟩] [⟨1, "Book", "book", 1⟩]
    (by rfl) (by decide) (by rfl)
  ⟨by rfl, h.1, h.2.2.2.2.1⟩

/-! ### The store on the statements of `item.go` -/

theorem Session.exec_issued {σ : Type} (d : Driver σ) (q : Session σ) (st : Stmt) :
    (q.exec d st).2.issued = q.issued ++ [st] := by
  unfold Session.exec
  dsimp only
  split <;> rfl

theorem Session.exec_error {σ : Type} (d : Driver σ) (q : Session σ) (st : Stmt) :
    (q.exec d st).1 =
      match (d.answer q.db st).1 with
      | .failure e => some e
      | _ => none := by
  unfold Session.exec Session.send
  split <;> simp_all

theorem Session.exec_db {σ : Type} (d : Driver σ) (q : Session σ) (st : Stmt) :
    (q.exec d st).2.db = (d.answer q.db st).2 := by
  unfold Session.exec
  dsimp only
  split <;> rfl

theorem Session.exec_eq {σ : Type} (d : Driver σ) (q : Session σ) (st : Stmt) :
    q.exec d st =
      ((match (d.answer q.db st).1 with
        | .failure e => some e
        | _ => none),
       { db := (d.answer q.db st).2, issued := q.issued ++ [st] }) := by
  unfold Session.exec Session.send
  dsimp only
  split <;> simp_all

theorem sqliteStore_updateItemEntityID (s : Store) (entityId id : Int) (more : List DriverValue) :
    sqliteStore.answer s ⟨updateItemEntityID, .int entityId :: .int id :: more⟩ =
      (.done (s.items.filter fun r => r.1 = id).length,
        { s with items := s.items.map fun r => if r.1 = id then (r.1, entityId) else r }) := by
  rfl

theorem sqliteStore_deleteItemAttributesByItem (s : Store) (itemId : Int)
    (more : List DriverValue) :
    sqliteStore.answer s ⟨deleteItemAttributesByItem, .int itemId :: more⟩ =
      (.done (s.values.filter fun r => r.1 = itemId).length,
        { s with values := s.values.filter fun r => ¬ r.1 = itemId }) := by
  rfl

theorem sqliteStore_deleteItem (s : Store) (id : Int) (more : List DriverValue) :
    sqliteStore.answer s ⟨deleteItem, .int id :: more⟩ =
      (.done (s.items.filter fun r => r.1 = id).length,
        { s with items := s.items.filter fun r => ¬ r.1 = id }) := by
  rfl

theorem sqliteStore_insertItemAttribute (s : Store) (itemId attributeId : Int)
    (v : DriverValue) :
    sqliteStore.answer s ⟨insertItemAttribute, [.int itemId, .int attributeId, v]⟩ =
      if s.values.any (fun r => r.1 = itemId ∧ r.2.1 = attributeId) then
        (.failure (.storage "UNIQUE constraint failed: item_attribute.item_id, item_attribute.attribute_id"),
          s)
      else (.done 1, { s with values := s.values ++ [(itemId, attributeId, storedValue v)] }) := by
  rfl

theorem sqliteStore_updateItemAttribute (s : Store) (itemId attributeId : Int)
    (v : DriverValue) :
    sqliteStore.answer s ⟨updateItemAttribute, [v, .int itemId, .int attributeId]⟩ =
      (.done (s.values.filter fun r => r.1 = itemId ∧ r.2.1 = attributeId).length,
        { s with values := s.values.map fun r =>
            if r.1 = itemId ∧ r.2.1 = attributeId then (r.1, r.2.1, storedValue v) else r }) := by
  rfl

theorem sqliteStore_selectItemAttribute (s : Store) (itemId attributeId : Int) :
    sqliteStore.answer s ⟨selectItemAttribute, [.int itemId, .int attributeId]⟩ =
      (.rows ((s.values.filter fun r => r.1 = itemId ∧ r.2.1 = attributeId).map
        fun r => [r.2.2]), s) := by
  rfl

/-! ### C12: what a successful change of entity leaves -/

theorem Item.ChangeEntityID_sqliteStore (q : Session Store) (i : Item) (entityId : Int) :
    i.ChangeEntityID sqliteStore q entityId =
      ((⟨i.ID, entityId⟩, none),
        { db := { q.db with
                  items := q.db.items.map fun r => if r.1 = i.ID then (r.1, entityId) else r
                  values := q.db.values.filter fun r => ¬ r.1 = i.ID }
          issued := q.issued ++ [⟨updateItemEntityID, [.int entityId, .int i.ID]⟩,
            ⟨deleteItemAttributesByItem, [.int i.ID]⟩] }) := by
  simp [Item.ChangeEntityID, UpdateItemEntityID, DeleteItemAttributesByItem, Session.exec,
    Session.send, sqliteStore_updateItemEntityID, sqliteStore_deleteItemAttributesByItem]

/-- C12: whenever `ChangeEntityID` returns without error, on any store, it has issued the
update of the item row and the delete of the values of the item, and the in-memory item
carries the new entity id. On the SQLite store it returns without error, and afterwards no
value of the item is left, every stored row of the item points at the new entity id, the ids
of the item rows are those of before, and the values left are exactly the values of the
other items, unchanged. `ChangeEntity` is `ChangeEntityID` at the id of the entity. -/
theorem ChangeEntityID_purges_and_repoints {σ : Type} (d : Driver σ) (qd : Session σ)
    (q : Session Store) (i : Item) (entityId : Int) (entity : Entity) :
    ((i.ChangeEntityID d qd entityId).1.2 = none →
        (i.ChangeEntityID d qd entityId).1.1 = ⟨i.ID, entityId⟩ ∧
        (i.ChangeEntityID d qd entityId).2.issued = qd.issued ++
          [⟨updateItemEntityID, [.int entityId, .int i.ID]⟩,
           ⟨deleteItemAttributesByItem, [.int i.ID]⟩]) ∧
      (i.ChangeEntityID sqliteStore q entityId).1 = (⟨i.ID, entityId⟩, none) ∧
      (∀ r ∈ (i.ChangeEntityID sqliteStore q entityId).2.db.values, r.1 ≠ i.ID) ∧
      (∀ r ∈ (i.ChangeEntityID sqliteStore q entityId).2.db.items,
        r.1 = i.ID → r.2 = entityId) ∧
      (i.ChangeEntityID sqliteStore q entityId).2.db.items.map (fun r => r.1) =
        q.db.items.map (fun r => r.1) ∧
      (i.ChangeEntityID sqliteStore q entityId).2.db.values =
        q.db.values.filter (fun r => ¬ r.1 = i.ID) ∧
      i.ChangeEntity d qd entity = i.ChangeEntityID d qd entity.ID := by
  refine ⟨?_, ?_, ?_, ?_, ?_, ?_, rfl⟩
  · intro h
    unfold Item.ChangeEntityID at h ⊢
    rcases hu : UpdateItemEntityID d qd entityId i.ID with ⟨eu, q1⟩
    have hq1 : q1.issued = qd.issued ++ [⟨updateItemEntityID, [.int entityId, .int i.ID]⟩] := by
      have := Session.exec_issued d qd ⟨updateItemEntityID, [.int entityId, .int i.ID]⟩
      unfold UpdateItemEntityID at hu
      rw [hu] at this
      exact this
    rw [hu] at h
    cases eu with
    | some err => simp at h
    | none =>
      simp only at h ⊢
      rcases hp : DeleteItemAttributesByItem d q1 i.ID with ⟨ep, q2⟩
      have hq2 : q2.issued = q1.issued ++ [⟨deleteItemAttributesByItem, [.int i.ID]⟩] := by
        have := Session.exec_issued d q1 ⟨deleteItemAttributesByItem, [.int i.ID]⟩
        unfold DeleteItemAttributesByItem at hp
        rw [hp] at this
        exact this
      rw [hp] at h
      cases ep with
      | some err => simp at h
      | none => simp [hq2, hq1]
  · rw [Item.ChangeEntityID_sqliteStore]
  · rw [Item.ChangeEntityID_sqliteStore]
    intro r hr
    simp only [List.mem_filter, decide_eq_true_eq] at hr
    exact hr.2
  · rw [Item.ChangeEntityID_sqliteStore]
    intro r hr hid
    simp only [List.mem_map] at hr
    obtain ⟨r0, _, hr0⟩ := hr
    by_cases h0 : r0.1 = i.ID
    · simp [h0] at hr0; rw [← hr0]
    · simp [h0] at hr0; rw [← hr0] at hid; exact absurd hid h0
  · rw [Item.ChangeEntityID_sqliteStore]
    simp only [List.map_map]
    apply List.map_congr_left
    intro r _
    by_cases h0 : r.1 = i.ID <;> simp [h0]
  · rw [Item.ChangeEntityID_sqliteStore]

/-- C12 at the sample store: item 1, which has two values, is moved to the entity 5; the
call returns without error, the one value left is that of item 2, and the row of item 1
points at the entity 5. -/
theorem ChangeEntityID_purges_and_repoints_witness :
    ((⟨1, 1⟩ : Item).ChangeEntityID sqliteStore (freshSession sampleStore) 5).1.2 = none ∧
      ((⟨1, 1⟩ : Item).ChangeEntityID sqliteStore (freshSession sampleStore) 5).1.1 = ⟨1, 5⟩ ∧
      ((⟨1, 1⟩ : Item).ChangeEntityID sqliteStore (freshSession sampleStore) 5).2.issued =
        [] ++ [⟨updateItemEntityID, [.int 5, .int 1]⟩, ⟨deleteItemAttributesByItem, [.int 1]⟩] ∧
      ((⟨1, 1⟩ : Item).ChangeEntityID sqliteStore (freshSession sampleStore) 5).2.db.values =
        [(2, 9, .int 96)] ∧
      ((⟨1, 1⟩ : Item).ChangeEntityID sqliteStore (freshSession sampleStore) 5).2.db.items =
        [(1, 5), (2, 1)] :=
  have h := (ChangeEntityID_purges_and_repoints sqliteStore (freshSession sampleStore)
    (freshSession sampleStore) ⟨1, 1⟩ 5 Entity.zero).1 (by rfl)
  ⟨by rfl, h.1, h.2, by rfl, by rfl⟩

/-! ### C13: the order of the two statements of a change of entity -/

/-- C13, as stated, fails: on the sample store `ChangeEntityID` of item 1 to the entity 5
issues the update of the item row first and the delete of the values second; and when the
store fails the delete, the call returns the error while the stored row of item 1 already
points at the entity 5 and its values are still there. -/
theorem ChangeEntityID_repoints_before_purge :
    ((⟨1, 1⟩ : Item).ChangeEntityID sqliteStore (freshSession sampleStore) 5).2.issued =
        [⟨updateItemEntityID, [.int 5, .int 1]⟩, ⟨deleteItemAttributesByItem, [.int 1]⟩] ∧
      ((⟨1, 1⟩ : Item).ChangeEntityID
        (failingOn deleteItemAttributesByItem (.storage "disk I/O error") sqliteStore)
        (freshSession sampleStore) 5).1 = (⟨1, 1⟩, some (.storage "disk I/O error")) ∧
      ((⟨1, 1⟩ : Item).ChangeEntityID
        (failingOn deleteItemAttributesByItem (.storage "disk I/O error") sqliteStore)
        (freshSession sampleStore) 5).2.db.items = [(1, 5), (2, 1)] ∧
      ((⟨1, 1⟩ : Item).ChangeEntityID
        (failingOn deleteItemAttributesByItem (.storage "disk I/O error") sqliteStore)
        (freshSession sampleStore) 5).2.db.values = sampleStore.values := by
  refine ⟨by rfl, by rfl, by rfl, by rfl⟩

/-- C13, amended: `ChangeEntityID` re-points the item before it purges. On every store the
first statement it issues is the update of the entity id of the item; when the store fails
it, the error is returned, the in-memory item is unchanged and no delete is issued;
otherwise the delete of the values of the item follows. When the store fails that delete
(the SQLite store with a failing purge), the error is returned, the in-memory item is
unchanged, the stored row of the item already points at the new entity and no value has
been removed. -/
theorem ChangeEntityID_updates_then_deletes {σ : Type} (d : Driver σ) (qd : Session σ)
    (q : Session Store) (i : Item) (entityId : Int) (e : Error) :
    (i.ChangeEntityID d qd entityId).2.issued =
        qd.issued ++ ⟨updateItemEntityID, [.int entityId, .int i.ID]⟩ ::
          (match (d.answer qd.db ⟨updateItemEntityID, [.int entityId, .int i.ID]⟩).1 with
            | .failure _ => []
            | _ => [⟨deleteItemAttributesByItem, [.int i.ID]⟩]) ∧
      (∀ err, (d.answer qd.db ⟨updateItemEntityID, [.int entityId, .int i.ID]⟩).1 =
          .failure err → (i.ChangeEntityID d qd entityId).1 = (i, some err)) ∧
      (i.ChangeEntityID (failingOn deleteItemAttributesByItem e sqliteStore) q entityId).1 =
        (i, some e) ∧
      (i.ChangeEntityID (failingOn deleteItemAttributesByItem e sqliteStore) q entityId).2.db =
        { q.db with
          items := q.db.items.map fun r => if r.1 = i.ID then (r.1, entityId) else r } := by
  have hne : updateItemEntityID ≠ deleteItemAttributesByItem := by decide
  refine ⟨?_, ?_, ?_, ?_⟩
  · simp only [Item.ChangeEntityID, UpdateItemEntityID, DeleteItemAttributesByItem,
      Session.exec_eq]
    cases (d.answer qd.db ⟨updateItemEntityID, [.int entityId, .int i.ID]⟩).1 with
    | failure err => simp
    | rows rs =>
      simp only
      split
      all_goals
        rename_i h
        simp only [Prod.mk.injEq] at h
        rw [← h.2]
        simp
    | done n =>
      simp only
      split
      all_goals
        rename_i h
        simp only [Prod.mk.injEq] at h
        rw [← h.2]
        simp
  · intro err herr
    simp [Item.ChangeEntityID, UpdateItemEntityID, Session.exec, Session.send, herr]
  · simp [Item.ChangeEntityID, UpdateItemEntityID, DeleteItemAttributesByItem, Session.exec,
      Session.send, failingOn, hne, sqliteStore_updateItemEntityID]
  · simp [Item.ChangeEntityID, UpdateItemEntityID, DeleteItemAttributesByItem, Session.exec,
      Session.send, failingOn, hne, sqliteStore_updateItemEntityID]

/-- C13, amended, at a store that fails the update: nothing but the update is issued. -/
theorem ChangeEntityID_updates_then_deletes_witness :
    ((⟨1, 1⟩ : Item).ChangeEntityID
        (failingOn updateItemEntityID (.storage "disk I/O error") sqliteStore)
        (freshSession sampleStore) 5).1 = (⟨1, 1⟩, some (.storage "disk I/O error")) ∧
      ((⟨1, 1⟩ : Item).ChangeEntityID
        (failingOn updateItemEntityID (.storage "disk I/O error") sqliteStore)
        (freshSession sampleStore) 5).2.issued = [⟨updateItemEntityID, [.int 5, .int 1]⟩] :=
  ⟨(ChangeEntityID_updates_then_deletes
      (failingOn updateItemEntityID (.storage "disk I/O error") sqliteStore)
      (freshSession sampleStore) (freshSession sampleStore) ⟨1, 1⟩ 5
      (.storage "disk I/O error")).2.1 (.storage "disk I/O error") (by rfl),
    by rfl⟩

/-! ### C14: deleting an item -/

/-- C14: `Item.Delete` issues the purge of the values of the item first; when the store fails
it, that error is returned and the delete of the item row is not issued; otherwise the delete
of the item row follows and its error is returned. `deleteItemCommand` issues the same
statements for the id it parses and returns the error of the purge wrapped. On the SQLite
store `Item.Delete` returns without error and leaves no row of the item and no value of the
item, the other rows and values being as before. -/
theorem Delete_purges_then_deletes {σ : Type} (d : Driver σ) (qd : Session σ)
    (q : Session Store) (i : Item) (cmdName arg : String) (more : List String)
    (harg : ParseInt64 arg = some i.ID) :
    (i.Delete d qd).2.issued =
        qd.issued ++ ⟨deleteItemAttributesByItem, [.int i.ID]⟩ ::
          (match (d.answer qd.db ⟨deleteItemAttributesByItem, [.int i.ID]⟩).1 with
            | .failure _ => []
            | _ => [⟨deleteItem, [.int i.ID]⟩]) ∧
      (∀ err, (d.answer qd.db ⟨deleteItemAttributesByItem, [.int i.ID]⟩).1 = .failure err →
        (i.Delete d qd).1 = some err ∧
        (deleteItemCommand d qd cmdName (arg :: more)).1 =
          some (.wrapped "Failed to delete item attributes: " err)) ∧
      (deleteItemCommand d qd cmdName (arg :: more)).2 = (i.Delete d qd).2 ∧
      ((i.Delete d qd).1 = none → (deleteItemCommand d qd cmdName (arg :: more)).1 = none) ∧
      (i.Delete sqliteStore q).1 = none ∧
      (i.Delete sqliteStore q).2.db =
        { q.db with
          items := q.db.items.filter fun r => ¬ r.1 = i.ID
          values := q.db.values.filter fun r => ¬ r.1 = i.ID } ∧
      (∀ r ∈ (i.Delete sqliteStore q).2.db.items, r.1 ≠ i.ID) ∧
      (∀ r ∈ (i.Delete sqliteStore q).2.db.values, r.1 ≠ i.ID) := by
  have hstore : i.Delete sqliteStore q = (none,
      { db := { q.db with
                items := q.db.items.filter fun r => ¬ r.1 = i.ID
                values := q.db.values.filter fun r => ¬ r.1 = i.ID }
        issued := q.issued ++ [⟨deleteItemAttributesByItem, [.int i.ID]⟩,
          ⟨deleteItem, [.int i.ID]⟩] }) := by
    simp [Item.Delete, DeleteItemAttributesByItem, DeleteItem, Session.exec, Session.send,
      sqliteStore_deleteItemAttributesByItem, sqliteStore_deleteItem]
  refine ⟨?_, ?_, ?_, ?_, ?_, ?_, ?_, ?_⟩
  · simp only [Item.Delete, DeleteItemAttributesByItem, DeleteItem, Session.exec_eq]
    cases (d.answer qd.db ⟨deleteItemAttributesByItem, [.int i.ID]⟩).1 with
    | failure err => simp
    | rows rs => simp
    | done n => simp
  · intro err herr
    simp [Item.Delete, deleteItemCommand, harg, DeleteItemAttributesByItem, Session.exec,
      Session.send, herr]
  · simp only [Item.Delete, deleteItemCommand, harg]
    rcases DeleteItemAttributesByItem d qd i.ID with ⟨ep, q1⟩
    cases ep <;> rfl
  · simp only [Item.Delete, deleteItemCommand, harg]
    rcases DeleteItemAttributesByItem d qd i.ID with ⟨ep, q1⟩
    cases ep with
    | some err => simp
    | none => exact id
  · rw [hstore]
  · rw [hstore]
  · rw [hstore]
    intro r hr
    simp only [List.mem_filter, decide_eq_true_eq] at hr
    exact hr.2
  · rw [hstore]
    intro r hr
    simp only [List.mem_filter, decide_eq_true_eq] at hr
    exact hr.2

/-- C14 at the sample store: deleting item 1 leaves item 2 and its value. -/
theorem Delete_purges_then_deletes_witness :
    ParseInt64 "1" = some 1 ∧
      ((⟨1, 1⟩ : Item).Delete sqliteStore (freshSession sampleStore)).1 = none ∧
      ((⟨1, 1⟩ : Item).Delete sqliteStore (freshSession sampleStore)).2.db =
        { sampleStore with items := [(2, 1)], values := [(2, 9, .int 96)] } ∧
      (deleteItemCommand sqliteStore (freshSession sampleStore) "delete" ["1"]).1 = none :=
  have h := Delete_purges_then_deletes sqliteStore (freshSession sampleStore)
    (freshSession sampleStore) ⟨1, 1⟩ "delete" "1" [] (by rfl)
  ⟨by rfl, h.2.2.2.2.1, by rfl, h.2.2.2.1 h.2.2.2.2.1⟩

/-! ### C15: deleting one value -/

/-- C15: `DeleteItemAttributes` executes the text `deleteItemAttributesByItem`, which is not
the text `deleteItemAttribute`, with the item id and the attribute id as arguments. On the
sample store, where item 1 has the values of the attributes 9 and 8, deleting the pair
(1, 9) removes both and leaves the value of item 2 only, and so does `item del 1 pages`. -/
theorem DeleteItemAttributes_removes_every_value :
    (DeleteItemAttributes sqliteStore (freshSession sampleStore) 1 9).2.issued =
        [⟨deleteItemAttributesByItem, [.int 1, .int 9]⟩] ∧
      deleteItemAttributesByItem ≠ deleteItemAttribute ∧
      sampleStore.values = [(1, 9, .int 100), (1, 8, .int 68), (2, 9, .int 96)] ∧
      (DeleteItemAttributes sqliteStore (freshSession sampleStore) 1 9).1 = none ∧
      (DeleteItemAttributes sqliteStore (freshSession sampleStore) 1 9).2.db.values =
        [(2, 9, .int 96)] ∧
      (itemDelAttributeCommand sampleSelectors flatDecoder sqliteStore
        (freshSession sampleStore) "del" ["1", "pages"]).1 = none ∧
      (itemDelAttributeCommand sampleSelectors flatDecoder sqliteStore
        (freshSession sampleStore) "del" ["1", "pages"]).2.db.values = [(2, 9, .int 96)] := by
  refine ⟨by rfl, by decide, by rfl, by rfl, by rfl, by rfl, by rfl⟩

/-! ### C16 to C18: the switch of the write commands -/

theorem writeItemAttribute_bound {σ T : Type} (m : WriteMethod) (kind : GoKind T)
    (d : Driver σ) (q : Session σ) (itemID attributeID : Int) (value : T) (v : DriverValue)
    (hv : kind.bind value = .ok v) :
    writeItemAttribute m kind d q itemID attributeID value =
      writeBound m d q itemID attributeID v := by
  cases m <;>
    simp only [writeItemAttribute, writeBound, writeStmt, ItemAttribute.Create,
      ItemAttribute.Update, hv]

theorem itemWriteCommand_switch {σ : Type} (k : Selectors) (j : JsonDecoder)
    (parseFloat : String → Nat → Option GoFloat) (m : WriteMethod) (d : Driver σ)
    (q q1 q2 : Session σ) (cmdName a0 a1 a2 : String) (more : List String) (id : Int)
    (item : Item) (attr : Attribute)
    (hid : ParseInt64 a0 = some id) (hitem : GetItem d q id = ((item, none), q1))
    (hattr : getAttributeByIdOrSlug k j d q1 a1 false = ((attr, none), q2)) :
    itemWriteCommand k j parseFloat m d q cmdName (a0 :: a1 :: a2 :: more) =
      itemAttributeSwitch parseFloat m d q2 item attr a2 := by
  simp only [itemWriteCommand, hid, hitem, hattr]

theorem itemAttributeSwitch_unparsable {σ : Type} (parseFloat : String → Nat → Option GoFloat)
    (m : WriteMethod) (d : Driver σ) (q : Session σ) (item : Item) (attr : Attribute)
    (text : String) (hbad : unparsable parseFloat attr.Typ text) :
    itemAttributeSwitch parseFloat m d q item attr text =
      writeBound m d q item.ID attr.ID .null := by
  unfold unparsable at hbad
  unfold itemAttributeSwitch
  rcases hbad with h | h | h | h | h | h | h | h | h | h | h | h | h | h | h | h <;>
    obtain ⟨ht, hp⟩ := h <;>
    rw [ht, hp] <;>
    simp only [BoolType, StringType, IntType, Int8Type, Int16Type, Int32Type, Int64Type,
      UintType, Uint8Type, Uint16Type, Uint32Type, Uint64Type, ByteType, RuneType,
      Float32Type, Float64Type, BlobType, DateType, TimeType, DatetimeType,
      String.reduceEq, if_true, if_false, ↓reduceIte] <;>
    exact writeItemAttribute_bound _ _ _ _ _ _ _ _ rfl

theorem writeBound_issued {σ : Type} (m : WriteMethod) (d : Driver σ) (q : Session σ)
    (itemID attributeID : Int) (v : DriverValue) :
    (writeBound m d q itemID attributeID v).2.issued =
      q.issued ++ [writeStmt m itemID attributeID v] := by
  simp only [writeBound, Session.exec_eq]
  split <;> rename_i h <;> simp only [Prod.mk.injEq] at h <;> rw [← h.2]

theorem writeBound_returned {σ : Type} (m : WriteMethod) (d : Driver σ) (q : Session σ)
    (itemID attributeID : Int) (v : DriverValue) :
    (writeBound m d q itemID attributeID v).1 =
      match (d.answer q.db (writeStmt m itemID attributeID v)).1 with
      | .failure e => .returned (some (.wrapped "failed to create item_attribute record: " e))
      | _ => .returned none := by
  simp only [writeBound, Session.exec_eq]
  cases (d.answer q.db (writeStmt m itemID attributeID v)).1 <;> rfl

theorem writeBound_update_sqliteStore (q : Session Store) (itemID attributeID : Int)
    (v : DriverValue) :
    writeBound .update sqliteStore q itemID attributeID v =
      (.returned none,
        { db := { q.db with values := q.db.values.map fun r =>
                    if r.1 = itemID ∧ r.2.1 = attributeID then (r.1, r.2.1, storedValue v)
                    else r }
          issued := q.issued ++ [⟨updateItemAttribute, [v, .int itemID, .int attributeID]⟩] }) := by
  simp [writeBound, writeStmt, Session.exec_eq, sqliteStore_updateItemAttribute]

theorem writeBound_create_sqliteStore (q : Session Store) (itemID attributeID : Int)
    (v : DriverValue)
    (hnew : q.db.values.any (fun r => r.1 = itemID ∧ r.2.1 = attributeID) = false) :
    writeBound .create sqliteStore q itemID attributeID v =
      (.returned none,
        { db := { q.db with values := q.db.values ++ [(itemID, attributeID, storedValue v)] }
          issued := q.issued ++ [⟨insertItemAttribute, [.int itemID, .int attributeID, v]⟩] }) := by
  simp only [writeBound, writeStmt, Session.exec_eq, sqliteStore_insertItemAttribute, hnew,
    Bool.false_eq_true, ↓reduceIte]

/-- C16: when the item id parses and the item and the attribute are found, and the text does
not parse into the shape of the tag of the attribute, `itemAddAttributeCommand` and
`itemSetAttributeCommand` issue exactly one more statement, the insert (the update) of the
pair with the value NULL, and return without error unless the store fails that statement.
On the SQLite store the update returns without error and leaves the value of the pair NULL,
and the insert of a pair that has no value yet returns without error and stores NULL for
it. -/
theorem unparsable_text_is_written_as_null {σ : Type} (k : Selectors) (j : JsonDecoder)
    (parseFloat : String → Nat → Option GoFloat) (d : Driver σ)
    (q q1 q2 : Session σ) (cmdName a0 a1 a2 : String) (more : List String) (id : Int)
    (item : Item) (attr : Attribute) (qs : Session Store)
    (hid : ParseInt64 a0 = some id) (hitem : GetItem d q id = ((item, none), q1))
    (hattr : getAttributeByIdOrSlug k j d q1 a1 false = ((attr, none), q2))
    (hbad : unparsable parseFloat attr.Typ a2) :
    (itemAddAttributeCommand k j parseFloat d q cmdName (a0 :: a1 :: a2 :: more)).2.issued =
        q2.issued ++ [⟨insertItemAttribute, [.int item.ID, .int attr.ID, .null]⟩] ∧
      (itemSetAttributeCommand k j parseFloat d q cmdName (a0 :: a1 :: a2 :: more)).2.issued =
        q2.issued ++ [⟨updateItemAttribute, [.null, .int item.ID, .int attr.ID]⟩] ∧
      (itemAddAttributeCommand k j parseFloat d q cmdName (a0 :: a1 :: a2 :: more)).1 =
        (match (d.answer q2.db
            ⟨insertItemAttribute, [.int item.ID, .int attr.ID, .null]⟩).1 with
          | .failure e =>
            .returned (some (.wrapped "failed to create item_attribute record: " e))
          | _ => .returned none) ∧
      (itemSetAttributeCommand k j parseFloat d q cmdName (a0 :: a1 :: a2 :: more)).1 =
        (match (d.answer q2.db
            ⟨updateItemAttribute, [.null, .int item.ID, .int attr.ID]⟩).1 with
          | .failure e =>
            .returned (some (.wrapped "failed to create item_attribute record: " e))
          | _ => .returned none) ∧
      itemAttributeSwitch parseFloat .update sqliteStore qs item attr a2 =
        (.returned none,
          { db := { qs.db with values := qs.db.values.map fun r =>
                      if r.1 = item.ID ∧ r.2.1 = attr.ID then (r.1, r.2.1, .null) else r }
            issued := qs.issued ++
              [⟨updateItemAttribute, [.null, .int item.ID, .int attr.ID]⟩] }) ∧
      (qs.db.values.any (fun r => r.1 = item.ID ∧ r.2.1 = attr.ID) = false →
        itemAttributeSwitch parseFloat .create sqliteStore qs item attr a2 =
          (.returned none,
            { db := { qs.db with values := qs.db.values ++ [(item.ID, attr.ID, .null)] }
              issued := qs.issued ++
                [⟨insertItemAttribute, [.int item.ID, .int attr.ID, .null]⟩] })) := by
  have hadd := itemWriteCommand_switch k j parseFloat .create d q q1 q2 cmdName a0 a1 a2 more
    id item attr hid hitem hattr
  have hset := itemWriteCommand_switch k j parseFloat .update d q q1 q2 cmdName a0 a1 a2 more
    id item attr hid hitem hattr
  refine ⟨?_, ?_, ?_, ?_, ?_, ?_⟩
  · rw [itemAddAttributeCommand, hadd, itemAttributeSwitch_unparsable _ _ _ _ _ _ _ hbad,
      writeBound_issued]
    rfl
  · rw [itemSetAttributeCommand, hset, itemAttributeSwitch_unparsable _ _ _ _ _ _ _ hbad,
      writeBound_issued]
    rfl
  · rw [itemAddAttributeCommand, hadd, itemAttributeSwitch_unparsable _ _ _ _ _ _ _ hbad,
      writeBound_returned]
    rfl
  · rw [itemSetAttributeCommand, hset, itemAttributeSwitch_unparsable _ _ _ _ _ _ _ hbad,
      writeBound_returned]
    rfl
  · rw [itemAttributeSwitch_unparsable _ _ _ _ _ _ _ hbad, writeBound_update_sqliteStore]
    rfl
  · intro hnew
    rw [itemAttributeSwitch_unparsable _ _ _ _ _ _ _ hbad,
      writeBound_create_sqliteStore _ _ _ _ hnew]
    rfl

/-- C16 at the sample store: the attribute `pages` has the tag `int8`, the text `128` is out
of its range; `item set 1 pages 128` returns without error and leaves the value of the pair
(1, 9) NULL, and `item add 2 released yesterday` returns without error and stores NULL for
the pair (2, 7). -/
theorem unparsable_text_is_written_as_null_witness :
    unparsable sampleParseFloat "int8" "128" ∧
      itemSetAttributeCommand sampleSelectors flatDecoder sampleParseFloat sqliteStore
        (freshSession sampleStore) "set" ["1", "pages", "128"] =
        (.returned none,
          { db := { sampleStore with
                    values := [(1, 9, .null), (1, 8, .int 68), (2, 9, .int 96)] }
            issued := [⟨getItem, [.int 1]⟩,
              ⟨Sprintf getAttributeNoEntitie "attributes.slug", [.text "pages"]⟩,
              ⟨updateItemAttribute, [.null, .int 1, .int 9]⟩] }) ∧
      (itemAddAttributeCommand sampleSelectors flatDecoder sampleParseFloat sqliteStore
        (freshSession sampleStore) "add" ["2", "released", "yesterday"]).1 = .returned none ∧
      (itemAddAttributeCommand sampleSelectors flatDecoder sampleParseFloat sqliteStore
        (freshSession sampleStore) "add" ["2", "released", "yesterday"]).2.db.values =
        [(1, 9, .int 100), (1, 8, .int 68), (2, 9, .int 96), (2, 7, .null)] :=
  have h := unparsable_text_is_written_as_null sampleSelectors flatDecoder sampleParseFloat
    sqliteStore (freshSession sampleStore)
    { db := sampleStore, issued := [⟨getItem, [.int 1]⟩] }
    { db := sampleStore, issued := [⟨getItem, [.int 1]⟩,
        ⟨Sprintf getAttributeNoEntitie "attributes.slug", [.text "pages"]⟩] }
    "set" "1" "pages" "128" [] 1 ⟨1, 1⟩ (.mk 9 "Pages" "pages" "int8" [] false)
    (freshSession sampleStore) (by rfl) (by rfl) (by rfl) (by decide)
  ⟨by decide, by rfl, by rfl, by rfl⟩

theorem utf8EncodeChar_cons (c : Char) : ∃ x xs, String.utf8EncodeChar c = x :: xs := by
  unfold String.utf8EncodeChar
  dsimp only
  split_ifs <;> exact ⟨_, _, rfl⟩

theorem goBytes_cons (c : Char) (rest : List Char) :
    goBytes (String.mk (c :: rest)) =
      (String.utf8EncodeChar c).map UInt8.toNat ++ goBytes (String.mk rest) := by
  simp [goBytes]

theorem uint_bind_small (w n : Nat) (hw : w ≠ 64) (hn : n < 2 ^ 63) :
    (GoKind.pointer (ElemKind.uint w)).bind (some n) = .ok (.int n) := by
  have hmod : n % 2 ^ 64 = n := Nat.mod_eq_of_lt (by omega)
  simp only [GoKind.pointer, ElemKind.uint, hw, if_false, hmod, hn, if_true]

theorem itemAttributeSwitch_byte {σ : Type} (parseFloat : String → Nat → Option GoFloat)
    (m : WriteMethod) (d : Driver σ) (q : Session σ) (item : Item) (attr : Attribute)
    (text : String) (b : Nat) (bs : List Nat) (ht : attr.Typ = ByteType)
    (hb : goBytes text = b :: bs) (hlt : b < 256) :
    itemAttributeSwitch parseFloat m d q item attr text =
      writeBound m d q item.ID attr.ID (.int b) := by
  unfold itemAttributeSwitch
  rw [ht, hb]
  simp only [BoolType, StringType, IntType, Int8Type, Int16Type, Int32Type, Int64Type,
    UintType, Uint8Type, Uint16Type, Uint32Type, Uint64Type, ByteType,
    String.reduceEq, if_true, if_false, ↓reduceIte]
  apply writeItemAttribute_bound
  exact uint_bind_small 8 b (by decide) (by omega)

theorem itemAttributeSwitch_rune {σ : Type} (parseFloat : String → Nat → Option GoFloat)
    (m : WriteMethod) (d : Driver σ) (q : Session σ) (item : Item) (attr : Attribute)
    (text : String) (r : Int) (rs : List Int) (ht : attr.Typ = RuneType)
    (hr : goRunes text = r :: rs) :
    itemAttributeSwitch parseFloat m d q item attr text =
      writeBound m d q item.ID attr.ID (.int r) := by
  unfold itemAttributeSwitch
  rw [ht, hr]
  simp only [BoolType, StringType, IntType, Int8Type, Int16Type, Int32Type, Int64Type,
    UintType, Uint8Type, Uint16Type, Uint32Type, Uint64Type, ByteType, RuneType,
    String.reduceEq, if_true, if_false, ↓reduceIte]
  exact writeItemAttribute_bound _ _ _ _ _ _ _ _ rfl

/-- C17: for a text that starts with the character `c`, the UTF-8 encoding of `c` has a first
byte `b`, which is the first byte of the encoding of the text, and the first code point of
the text is that of `c`. Under the tag `byte` the switch of `itemAddAttributeCommand` and of
`itemSetAttributeCommand` executes the insert (the update) of the pair with the integer `b`
as value, under the tag `rune` with the code point of `c` as value; what follows `c` in the
text does not enter the statement. -/
theorem byte_and_rune_store_first_unit {σ : Type} (parseFloat : String → Nat → Option GoFloat)
    (m : WriteMethod) (d : Driver σ) (q : Session σ) (item : Item) (attr : Attribute)
    (c : Char) (rest : List Char) :
    ∃ b more, (String.utf8EncodeChar c).map UInt8.toNat = b :: more ∧
      goBytes (String.mk (c :: rest)) = b :: (more ++ goBytes (String.mk rest)) ∧
      goRunes (String.mk (c :: rest)) = (c.toNat : Int) :: goRunes (String.mk rest) ∧
      (attr.Typ = ByteType →
        itemAttributeSwitch parseFloat m d q item attr (String.mk (c :: rest)) =
          writeBound m d q item.ID attr.ID (.int b) ∧
        (itemAttributeSwitch parseFloat m d q item attr (String.mk (c :: rest))).2.issued =
          q.issued ++ [writeStmt m item.ID attr.ID (.int b)]) ∧
      (attr.Typ = RuneType →
        itemAttributeSwitch parseFloat m d q item attr (String.mk (c :: rest)) =
          writeBound m d q item.ID attr.ID (.int c.toNat) ∧
        (itemAttributeSwitch parseFloat m d q item attr (String.mk (c :: rest))).2.issued =
          q.issued ++ [writeStmt m item.ID attr.ID (.int c.toNat)]) := by
  obtain ⟨x, xs, hx⟩ := utf8EncodeChar_cons c
  have hbytes : goBytes (String.mk (c :: rest)) =
      x.toNat :: (xs.map UInt8.toNat ++ goBytes (String.mk rest)) := by
    rw [goBytes_cons, hx]
    rfl
  have hrunes : goRunes (String.mk (c :: rest)) = (c.toNat : Int) :: goRunes (String.mk rest) :=
    rfl
  refine ⟨x.toNat, xs.map UInt8.toNat, by rw [hx]; rfl, hbytes, hrunes, ?_, ?_⟩
  · intro ht
    have h := itemAttributeSwitch_byte parseFloat m d q item attr _ _ _ ht hbytes
      x.toNat_lt
    exact ⟨h, by rw [h, writeBound_issued]⟩
  · intro ht
    have h := itemAttributeSwitch_rune parseFloat m d q item attr _ _ _ ht hrunes
    exact ⟨h, by rw [h, writeBound_issued]⟩

/-- C17 at the sample store: `item set 1 initial héllo` leaves 104, the byte of `h`, as the
value of the pair (1, 8); `item add 2 initial €uro` stores 226, the first of the three bytes
of the euro sign; `item add 2 symbol €uro` stores 8364, its code point. -/
theorem byte_and_rune_store_first_unit_witness :
    (itemSetAttributeCommand sampleSelectors flatDecoder sampleParseFloat sqliteStore
        (freshSession sampleStore) "set" ["1", "initial", "héllo"]).2.db.values =
        [(1, 9, .int 100), (1, 8, .int 104), (2, 9, .int 96)] ∧
      (itemAddAttributeCommand sampleSelectors flatDecoder sampleParseFloat sqliteStore
        (freshSession sampleStore) "add" ["2", "initial", "€uro"]).2.db.values =
        [(1, 9, .int 100), (1, 8, .int 68), (2, 9, .int 96), (2, 8, .int 226)] ∧
      (itemAddAttributeCommand sampleSelectors flatDecoder sampleParseFloat sqliteStore
        (freshSession sampleStore) "add" ["2", "symbol", "€uro"]).2.db.values =
        [(1, 9, .int 100), (1, 8, .int 68), (2, 9, .int 96), (2, 10, .int 8364)] ∧
      itemAttributeSwitch sampleParseFloat .create sqliteStore (freshSession sampleStore)
        ⟨2, 1⟩ (.mk 10 "Symbol" "symbol" "rune" [] false) "€uro" =
        writeBound .create sqliteStore (freshSession sampleStore) 2 10 (.int 8364) :=
  have h := byte_and_rune_store_first_unit sampleParseFloat .create sqliteStore
    (freshSession sampleStore) ⟨2, 1⟩ (.mk 10 "Symbol" "symbol" "rune" [] false) '€'
    ['u', 'r', 'o']
  ⟨by rfl, by rfl, by rfl,
    h.elim fun _ h1 => h1.elim fun _ h2 => (h2.2.2.2.2 (by rfl)).1⟩

/-- C18: on the sample store, where the attribute `initial` has the tag `byte` and the
attribute `symbol` the tag `rune`, `item add 2 initial ""`, `item set 1 initial ""`,
`item add 2 symbol ""` and `item set 1 symbol ""` do not return: the element 0 of the empty
conversion of the text is taken, which is an index out of range, after the item and the
attribute have been looked up and before any statement writes. The same holds of the switch
for every item and every attribute of the tag `byte` or `rune`. -/
theorem empty_text_under_byte_or_rune_panics :
    itemAddAttributeCommand sampleSelectors flatDecoder sampleParseFloat sqliteStore
        (freshSession sampleStore) "add" ["2", "initial", ""] =
        (.panicked, { db := sampleStore, issued := [⟨getItem, [.int 2]⟩,
          ⟨Sprintf getAttributeNoEntitie "attributes.slug", [.text "initial"]⟩] }) ∧
      (itemSetAttributeCommand sampleSelectors flatDecoder sampleParseFloat sqliteStore
        (freshSession sampleStore) "set" ["1", "initial", ""]).1 = .panicked ∧
      (itemAddAttributeCommand sampleSelectors flatDecoder sampleParseFloat sqliteStore
        (freshSession sampleStore) "add" ["2", "symbol", ""]).1 = .panicked ∧
      (itemSetAttributeCommand sampleSelectors flatDecoder sampleParseFloat sqliteStore
        (freshSession sampleStore) "set" ["1", "symbol", ""]).1 = .panicked ∧
      (∀ (m : WriteMethod) (item : Item) (q : Session Store) (id : Int) (name slug : String),
        itemAttributeSwitch sampleParseFloat m sqliteStore q item
            (.mk id name slug ByteType [] false) "" = (.panicked, q) ∧
          itemAttributeSwitch sampleParseFloat m sqliteStore q item
            (.mk id name slug RuneType [] false) "" = (.panicked, q)) := by
  refine ⟨by rfl, by rfl, by rfl, by rfl, ?_⟩
  intro m item q id name slug
  exact ⟨rfl, rfl⟩

/-! ### C19: a date written and read back -/

theorem digitValue_digitChar (k : Nat) : digitValue (digitChar k) = some (k % 10) := by
  have h : k % 10 < 10 := Nat.mod_lt _ (by decide)
  unfold digitChar digitValue
  interval_cases (k % 10) <;> rfl

theorem padDigits_two (n : Nat) (h : n < 100) : padDigits 2 n = [digitChar (n / 10), digitChar n] := by
  have : n / 10 / 10 = 0 := by omega
  simp [padDigits, this]

theorem padDigits_four (n : Nat) (h : n < 10000) :
    padDigits 4 n = [digitChar (n / 10 / 10 / 10), digitChar (n / 10 / 10), digitChar (n / 10), digitChar n] := by
  have : n / 10 / 10 / 10 / 10 = 0 := by omega
  simp [padDigits, this]

theorem getnum_padDigits (n : Nat) (h : n < 100) (rest : List Char) :
    getnum true (padDigits 2 n ++ rest) = some (n, rest) := by
  rw [padDigits_two n h]
  simp only [List.cons_append, List.nil_append, getnum, digitValue_digitChar]
  congr 2
  omega

theorem getnum_free_padDigits (n : Nat) (h : n < 100) (rest : List Char) :
    getnum false (padDigits 2 n ++ rest) = some (n, rest) := by
  rw [padDigits_two n h]
  simp only [List.cons_append, List.nil_append, getnum, digitValue_digitChar]
  congr 2
  omega

theorem parseChunk_literal (p : ParsedTime) (c : Char) (rest : List Char) (h : c ≠ ' ') :
    parseChunk p (c :: rest) (.literal c) = .ok (p, rest) := by
  simp [parseChunk, h]

theorem parseChunk_space (p : ParsedTime) (c : Char) (rest : List Char) (h : c ≠ ' ') :
    parseChunk p (' ' :: c :: rest) (.literal ' ') = .ok (p, c :: rest) := by
  simp [parseChunk, List.dropWhile, h]

theorem parseChunk_longYear (p : ParsedTime) (y : Nat) (hy : y < 10000) (rest : List Char) :
    parseChunk p (padDigits 4 y ++ rest) .longYear = .ok ({ p with year := y }, rest) := by
  have hyear : y / 10 / 10 / 10 % 10 * 1000 + y / 10 / 10 % 10 * 100 + y / 10 % 10 * 10 +
      y % 10 = y := by omega
  simp only [padDigits_four y hy, parseChunk, List.cons_append, List.nil_append,
    digitValue_digitChar, hyear]

theorem parseChunk_zeroMonth (p : ParsedTime) (m : Nat) (hm : 1 ≤ m ∧ m ≤ 12)
    (rest : List Char) :
    parseChunk p (padDigits 2 m ++ rest) .zeroMonth = .ok ({ p with month := some m }, rest) := by
  simp only [parseChunk, getnum_padDigits m (by omega)]
  rw [if_neg (by omega)]

theorem parseChunk_zeroDay (p : ParsedTime) (d : Nat) (hd : d < 100) (rest : List Char) :
    parseChunk p (padDigits 2 d ++ rest) .zeroDay = .ok ({ p with day := some d }, rest) := by
  simp only [parseChunk, getnum_padDigits d hd]

theorem parseChunk_zeroDay_end (p : ParsedTime) (d : Nat) (hd : d < 100) :
    parseChunk p (padDigits 2 d) .zeroDay = .ok ({ p with day := some d }, []) := by
  have := parseChunk_zeroDay p d hd []
  rwa [List.append_nil] at this

theorem parseChunk_hour (p : ParsedTime) (h : Nat) (hh : h < 24) (rest : List Char) :
    parseChunk p (padDigits 2 h ++ rest) .hour = .ok ({ p with hour := h }, rest) := by
  simp only [parseChunk, getnum_free_padDigits h (by omega)]
  rw [if_neg (by omega)]

theorem parseChunk_zeroMinute (p : ParsedTime) (m : Nat) (hm : m < 60) (rest : List Char) :
    parseChunk p (padDigits 2 m ++ rest) .zeroMinute = .ok ({ p with minute := m }, rest) := by
  simp only [parseChunk, getnum_padDigits m (by omega)]
  rw [if_neg (by omega)]

theorem parseChunk_zeroSecond (p : ParsedTime) (s : Nat) (hs : s < 60) (rest : List Char) :
    parseChunk p (padDigits 2 s ++ ' ' :: rest) .zeroSecond =
      .ok ({ p with second := s }, ' ' :: rest) := by
  simp only [parseChunk, getnum_padDigits s (by omega)]
  rw [if_neg (by omega)]
  cases rest <;> simp

theorem parseChunk_numTZ_zero (p : ParsedTime) (rest : List Char) :
    parseChunk p ('+' :: '0' :: '0' :: '0' :: '0' :: rest) .numTZ =
      .ok ({ p with zoneOffset := some 0 }, rest) := by
  have h : getnum true ['0', '0'] = some (0, []) := by rfl
  simp [parseChunk, h]

theorem parseChunk_tz_utc (p : ParsedTime) :
    parseChunk p ['U', 'T', 'C'] .tz = .ok ({ p with utc := true }, []) := by
  rfl

theorem layoutChunks_date : layoutChunks "2006-01-02" =
    [.longYear, .literal '-', .zeroMonth, .literal '-', .zeroDay] := by rfl

theorem layoutChunks_stored : layoutChunks "2006-01-02 15:04:05 -0700 MST" =
    [.longYear, .literal '-', .zeroMonth, .literal '-', .zeroDay, .literal ' ', .hour,
      .literal ':', .zeroMinute, .literal ':', .zeroSecond, .literal ' ', .numTZ, .literal ' ',
      .tz] := by rfl

theorem daysIn_le (m y : Nat) : daysIn m y ≤ 31 := by
  unfold daysIn; split_ifs <;> omega

theorem ParseTime_dateText (y m d : Nat) (hy : y < 10000) (hm : 1 ≤ m ∧ m ≤ 12)
    (hd : 1 ≤ d ∧ d ≤ daysIn m y) :
    ParseTime "2006-01-02" (dateText y m d) = .ok (GoTime.date y m d) := by
  have hd31 : d < 100 := by have := daysIn_le m y; omega
  unfold ParseTime
  rw [layoutChunks_date]
  simp only [dateText, parseChunks, parseChunk_longYear _ y hy, List.append_assoc,
    parseChunk_literal _ '-' _ (by decide), parseChunk_zeroMonth _ m hm, List.cons_append]
  simp only [parseChunk_zeroDay_end _ d hd31]
  simp [GoTime.date]
  omega

theorem digitChar_ne_space (k : Nat) : digitChar k ≠ ' ' := by
  have h : k % 10 < 10 := Nat.mod_lt _ (by decide)
  unfold digitChar
  interval_cases (k % 10) <;> decide

theorem parseChunk_space_pad (p : ParsedTime) (n : Nat) (hn : n < 100) (rest : List Char) :
    parseChunk p (' ' :: (padDigits 2 n ++ rest)) (.literal ' ') =
      .ok (p, padDigits 2 n ++ rest) := by
  rw [padDigits_two n hn]
  exact parseChunk_space p _ _ (digitChar_ne_space _)

/-- Reading back what `Time.String` writes: for a time in UTC with whole seconds, the layout
`2006-01-02 15:04:05 -0700 MST` parses the text of the time into the time itself. -/
theorem ParseTime_goString_utc (y m d h mi s : Nat) (hy : y < 10000) (hm : 1 ≤ m ∧ m ≤ 12)
    (hd : 1 ≤ d ∧ d ≤ daysIn m y) (hh : h < 24) (hmi : mi < 60) (hs : s < 60) :
    ParseTime "2006-01-02 15:04:05 -0700 MST"
        (GoTime.goString ⟨y, m, d, h, mi, s, 0, 0, "UTC"⟩) =
      .ok ⟨y, m, d, h, mi, s, 0, 0, "UTC"⟩ := by
  have hd31 : d < 100 := by have := daysIn_le m y; omega
  have hzone : numericZone 0 = ['+', '0', '0', '0', '0'] := by rfl
  have hfrac : fractionText 0 = [] := by rfl
  have hutc : ∀ l : List Char,
      (if ("UTC" : String) = "" then l else "UTC".data) = ['U', 'T', 'C'] := fun _ => rfl
  unfold ParseTime
  rw [layoutChunks_stored]
  simp only [GoTime.goString, hfrac, hzone, hutc, List.nil_append, List.cons_append,
    List.append_assoc, parseChunks, parseChunk_longYear _ y hy,
    parseChunk_literal _ '-' _ (by decide), parseChunk_zeroMonth _ m hm,
    parseChunk_zeroDay _ d hd31, parseChunk_space_pad _ h (by omega),
    parseChunk_hour _ h hh, parseChunk_literal _ ':' _ (by decide),
    parseChunk_zeroMinute _ mi hmi, parseChunk_zeroSecond _ s hs,
    parseChunk_space _ '+' _ (by decide), parseChunk_numTZ_zero,
    parseChunk_space _ 'U' _ (by decide), parseChunk_tz_utc]
  simp
  omega

theorem itemAttributeSwitch_date {σ : Type} (parseFloat : String → Nat → Option GoFloat)
    (m : WriteMethod) (d : Driver σ) (q : Session σ) (item : Item) (attr : Attribute)
    (text : String) (t : GoTime) (ht : attr.Typ = DateType)
    (hp : ParseTime "2006-01-02" text = .ok t) :
    itemAttributeSwitch parseFloat m d q item attr text =
      writeBound m d q item.ID attr.ID (.time t) := by
  unfold itemAttributeSwitch
  rw [ht, hp]
  simp only [BoolType, StringType, IntType, Int8Type, Int16Type, Int32Type, Int64Type,
    UintType, Uint8Type, Uint16Type, Uint32Type, Uint64Type, ByteType, RuneType,
    Float32Type, Float64Type, BlobType, DateType, TimeType, DatetimeType,
    String.reduceEq, if_true, if_false, ↓reduceIte]
  exact writeItemAttribute_bound _ _ _ _ _ _ _ _ rfl

theorem Load_stored_time (q : Session Store) (itemID attributeID : Int) (tag : AttributeType)
    (v0 : Option GoTime) (text : String) (t : GoTime) (more : List (Int × Int × DriverValue))
    (htag : tag = TimeType ∨ tag = DateType ∨ tag = DatetimeType)
    (hrow : (q.db.values.filter fun r => r.1 = itemID ∧ r.2.1 = attributeID) =
      (itemID, attributeID, .text text) :: more)
    (hp : ParseTime "2006-01-02 15:04:05 -0700 MST" text = .ok t) :
    ItemAttribute.Load (.pointer .time) sqliteStore q ⟨itemID, attributeID, tag, v0⟩ =
      (.returned (⟨itemID, attributeID, tag, some t⟩, none),
        { db := q.db
          issued := q.issued ++ [⟨selectItemAttribute, [.int itemID, .int attributeID]⟩] }) := by
  unfold ItemAttribute.Load
  simp only [Session.send, sqliteStore_selectItemAttribute, hrow, htag, if_true, List.map_cons,
    Reply.firstRow, scanStringPtr, asString, hp, GoKind.pointer, ElemKind.time, Option.map_some,
    id_eq]
  rfl

/-- C19: on the SQLite store, when the item id parses, the item and an attribute of the tag
`date` are found and the pair has no value yet, `itemAddAttributeCommand` with the text
`YYYY-MM-DD` of a valid calendar date (a year below 10000, a month from 1 to 12, a day of that
month) returns without error, and `ItemAttribute.Load` of the pair into a `*time.Time`
afterwards returns without error a time with that year, month and day, the time of day zero
and the offset zero. -/
theorem date_round_trip (k : Selectors) (j : JsonDecoder)
    (parseFloat : String → Nat → Option GoFloat) (q q1 q2 : Session Store)
    (cmdName a0 a1 : String) (more : List String) (id : Int) (item : Item) (attr : Attribute)
    (y m d : Nat) (v0 : Option GoTime)
    (hid : ParseInt64 a0 = some id) (hitem : GetItem sqliteStore q id = ((item, none), q1))
    (hattr : getAttributeByIdOrSlug k j sqliteStore q1 a1 false = ((attr, none), q2))
    (ht : attr.Typ = DateType)
    (hnew : q2.db.values.any (fun r => r.1 = item.ID ∧ r.2.1 = attr.ID) = false)
    (hy : y < 10000) (hm : 1 ≤ m ∧ m ≤ 12) (hd : 1 ≤ d ∧ d ≤ daysIn m y) :
    (itemAddAttributeCommand k j parseFloat sqliteStore q cmdName
        (a0 :: a1 :: dateText y m d :: more)).1 = .returned none ∧
      ∃ t : GoTime,
        (ItemAttribute.Load (.pointer .time) sqliteStore
          (itemAddAttributeCommand k j parseFloat sqliteStore q cmdName
            (a0 :: a1 :: dateText y m d :: more)).2
          ⟨item.ID, attr.ID, DateType, v0⟩).1 =
          .returned (⟨item.ID, attr.ID, DateType, some t⟩, none) ∧
        t = GoTime.date y m d ∧
        t.year = y ∧ t.month = m ∧ t.day = d ∧
        t.hour = 0 ∧ t.minute = 0 ∧ t.second = 0 ∧ t.nanosecond = 0 ∧ t.offset = 0 := by
  have hcmd : itemAddAttributeCommand k j parseFloat sqliteStore q cmdName
      (a0 :: a1 :: dateText y m d :: more) =
      (.returned none,
        { db := { q2.db with
                  values := q2.db.values ++
                    [(item.ID, attr.ID, .text (GoTime.date y m d).goString)] }
          issued := q2.issued ++
            [⟨insertItemAttribute, [.int item.ID, .int attr.ID, .time (GoTime.date y m d)]⟩] }) := by
    rw [itemAddAttributeCommand,
      itemWriteCommand_switch k j parseFloat .create sqliteStore q q1 q2 cmdName a0 a1 _ more
        id item attr hid hitem hattr,
      itemAttributeSwitch_date _ _ _ _ _ _ _ _ ht (ParseTime_dateText y m d hy hm hd),
      writeBound_create_sqliteStore _ _ _ _ hnew]
    rfl
  have hold : (q2.db.values.filter fun r => r.1 = item.ID ∧ r.2.1 = attr.ID) = [] := by
    rw [List.filter_eq_nil_iff]
    intro r hr
    have := List.any_eq_false.mp hnew r hr
    simpa using this
  have hdays : daysIn m y ≤ 31 := daysIn_le m y
  refine ⟨by rw [hcmd], GoTime.date y m d, ?_, rfl, rfl, rfl, rfl, rfl, rfl, rfl, rfl, rfl⟩
  rw [hcmd]
  rw [Load_stored_time _ item.ID attr.ID DateType v0 (GoTime.date y m d).goString
    (GoTime.date y m d) [] (Or.inr (Or.inl rfl))]
  · simp only [List.filter_append, hold, List.nil_append]
    simp
  · exact ParseTime_goString_utc y m d 0 0 0 hy hm hd (by omega) (by omega) (by omega)

/-- C19 at the sample store, where the attribute `released` has the tag `date` and item 2 has
no value for it: `item add 2 released 2023-10-05` and the load of the pair (2, 7) yield the
5th of October 2023 with a zero time of day. -/
theorem date_round_trip_witness :
    dateText 2023 10 5 = "2023-10-05" ∧
      (itemAddAttributeCommand sampleSelectors flatDecoder sampleParseFloat sqliteStore
        (freshSession sampleStore) "add" ["2", "released", "2023-10-05"]).1 = .returned none ∧
      (itemAddAttributeCommand sampleSelectors flatDecoder sampleParseFloat sqliteStore
        (freshSession sampleStore) "add" ["2", "released", "2023-10-05"]).2.db.values =
        [(1, 9, .int 100), (1, 8, .int 68), (2, 9, .int 96),
          (2, 7, .text "2023-10-05 00:00:00 +0000 UTC")] ∧
      (ItemAttribute.Load (.pointer .time) sqliteStore
          (itemAddAttributeCommand sampleSelectors flatDecoder sampleParseFloat sqliteStore
            (freshSession sampleStore) "add" ["2", "released", "2023-10-05"]).2
          ⟨2, 7, DateType, none⟩).1 =
        .returned (⟨2, 7, DateType, some ⟨2023, 10, 5, 0, 0, 0, 0, 0, "UTC"⟩⟩, none) :=
  have h := date_round_trip sampleSelectors flatDecoder sampleParseFloat
    (freshSession sampleStore)
    { db := sampleStore, issued := [⟨getItem, [.int 2]⟩] }
    { db := sampleStore, issued := [⟨getItem, [.int 2]⟩,
        ⟨Sprintf getAttributeNoEntitie "attributes.slug", [.text "released"]⟩] }
    "add" "2" "released" [] 2 ⟨2, 1⟩ (.mk 7 "Released" "released" "date" [] false)
    2023 10 5 none (by rfl) (by rfl) (by rfl) (by rfl) (by rfl) (by decide) (by decide)
    (by decide)
  ⟨by rfl, h.1, by rfl, by rfl⟩

/-! ### C20: loading a pair whose stored value is NULL -/

/-- C20, as stated, fails: on the store where the values of the pairs (2, 9), of the tag
`int8`, and (2, 7), of the tag `date`, are NULL, `ItemAttribute.Load` of the pair (2, 9) into
an `ItemAttribute[int8]`, whose `Value` is not a pointer, returns the error of the scan of
NULL and leaves `Value` as it was; and `ItemAttribute.Load` of the pair (2, 7) into an
`ItemAttribute[*time.Time]` whose `Value` points at the 5th of October 2023 returns without
error and `Value` still points at that date, not nil. -/
theorem Load_of_null_is_not_always_nil :
    sampleNullStore.values = [(2, 7, .null), (2, 9, .null)] ∧
      (∃ err, (ItemAttribute.Load (.plain (.int 8)) sqliteStore (freshSession sampleNullStore)
        ⟨2, 9, Int8Type, 5⟩).1 = .returned (⟨2, 9, Int8Type, 5⟩, some err)) ∧
      (ItemAttribute.Load (.pointer .time) sqliteStore (freshSession sampleNullStore)
        ⟨2, 7, DateType, some (GoTime.date 2023 10 5)⟩).1 =
        .returned (⟨2, 7, DateType, some (GoTime.date 2023 10 5)⟩, none) := by
  refine ⟨by rfl, ⟨_, by rfl⟩, by rfl⟩

/-- C20, amended: when the store answers the select of the pair with a row whose value is
NULL, `ItemAttribute.Load` issues that one select and, for the tags `time`, `date` and
`datetime`, returns without error right after the scan, whatever the type of `Value` is:
nothing is parsed and the pointer is not asserted; a receiver built with a nil `Value`, as
every receiver of `geaves-cli` is, has a nil `Value` after the call. For every other tag:
when `Value` is of a pointer type the call returns without error and `Value` is nil after it,
not a pointer to a zero value; when `Value` is of a type into which NULL does not convert,
the call returns the error of the scan and `Value` is what it was. -/
theorem Load_of_null {σ X : Type} (kind : GoKind (Option X)) (e : ElemKind X) (d : Driver σ)
    (q : Session σ) (ia : ItemAttribute (Option X)) (more : List (List DriverValue))
    (hnull : (d.answer q.db ⟨selectItemAttribute, [.int ia.ItemID, .int ia.AttributeID]⟩).1 =
      .rows ([.null] :: more)) :
    ((ia.Typ = TimeType ∨ ia.Typ = DateType ∨ ia.Typ = DatetimeType) →
        (∃ after, (ItemAttribute.Load kind d q ia).1 = .returned (after, none)) ∧
        (ia.Value = none →
          (ItemAttribute.Load kind d q ia).1 =
            .returned (⟨ia.ItemID, ia.AttributeID, ia.Typ, none⟩, none))) ∧
      (¬ (ia.Typ = TimeType ∨ ia.Typ = DateType ∨ ia.Typ = DatetimeType) →
        (ItemAttribute.Load (.pointer e) d q ia).1 =
            .returned (⟨ia.ItemID, ia.AttributeID, ia.Typ, none⟩, none) ∧
          ∀ (x : X) (err : Error), e.scan .null = .error err →
            (ItemAttribute.Load (.plain e) d q ⟨ia.ItemID, ia.AttributeID, ia.Typ, x⟩).1 =
              .returned (⟨ia.ItemID, ia.AttributeID, ia.Typ, x⟩, some err)) ∧
      (ItemAttribute.Load kind d q ia).2.issued =
        q.issued ++ [⟨selectItemAttribute, [.int ia.ItemID, .int ia.AttributeID]⟩] := by
  refine ⟨?_, ?_, ?_⟩
  · intro ht
    have h : (ItemAttribute.Load kind d q ia).1 = .returned (ia, none) := by
      unfold ItemAttribute.Load
      simp only [Session.send, hnull, ht, if_true, Reply.firstRow, scanStringPtr]
    refine ⟨⟨ia, h⟩, ?_⟩
    intro hv
    rw [h]
    cases ia
    simp only at hv
    rw [hv]
  · intro ht
    constructor
    · unfold ItemAttribute.Load
      simp only [Session.send, hnull, ht, if_false, Reply.firstRow, GoKind.pointer]
    · intro x err herr
      unfold ItemAttribute.Load
      simp only [Session.send, hnull, ht, if_false, Reply.firstRow, GoKind.plain, herr]
  · unfold ItemAttribute.Load
    simp only [Session.send]
    split_ifs <;> (repeat' split) <;> rfl

/-- C20, amended, at the store where the values of the pairs (2, 7), of the tag `date`, and
(2, 9), of the tag `int8`, are NULL: the load of either pair into a receiver built with a nil
`Value` returns without error and `Value` is nil. -/
theorem Load_of_null_witness :
    (sqliteStore.answer (freshSession sampleNullStore).db
        ⟨selectItemAttribute, [.int 2, .int 7]⟩).1 = .rows [[.null]] ∧
      (ItemAttribute.Load (.pointer .time) sqliteStore (freshSession sampleNullStore)
        ⟨2, 7, DateType, none⟩).1 = .returned (⟨2, 7, DateType, none⟩, none) ∧
      (ItemAttribute.Load (.pointer (.int 8)) sqliteStore (freshSession sampleNullStore)
        ⟨2, 9, Int8Type, none⟩).1 = .returned (⟨2, 9, Int8Type, none⟩, none) :=
  ⟨by rfl,
    ((Load_of_null (.pointer .time) .time sqliteStore (freshSession sampleNullStore)
      ⟨2, 7, DateType, none⟩ [] (by rfl)).1 (Or.inr (Or.inl rfl))).2 rfl,
    by rfl⟩

/-! ### C21: what a listed value carries -/

theorem scanItemAttributeRow_Typ (cols : List DriverValue) :
    (scanItemAttributeRow cols).1.Typ = "" := by
  unfold scanItemAttributeRow
  repeat' split
  all_goals rfl

theorem listItemAttributesLoop_Typ (rows : List (List DriverValue)) :
    ∀ items : List (ItemAttribute (Option DriverValue)),
      (∀ i ∈ items, i.Typ = "") → ∀ i ∈ (listItemAttributesLoop rows items).1, i.Typ = "" := by
  induction rows with
  | nil => intro items h; exact h
  | cons cols rest ih =>
    intro items h
    unfold listItemAttributesLoop
    have hrow := scanItemAttributeRow_Typ cols
    rcases hs : scanItemAttributeRow cols with ⟨i, e⟩
    rw [hs] at hrow
    cases e with
    | some err => exact h
    | none =>
      apply ih
      intro x hx
      rcases List.mem_append.mp hx with hx | hx
      · exact h x hx
      · rw [List.mem_singleton.mp hx]; exact hrow

theorem ListItemAttributes_Typ_empty {σ : Type} (d : Driver σ) (q : Session σ) (itemId : Int) :
    ∀ i ∈ (ListItemAttributes d q itemId).1.1, i.Typ = "" := by
  unfold ListItemAttributes
  dsimp only
  split
  · intro i hi; simp at hi
  · exact listItemAttributesLoop_Typ _ [] (by intro i hi; simp at hi)

/-- C21: when the store answers the query of `ListItemAttributes(1)` with the two value rows
of item 1, (1, 9, 100, `int8`) and (1, 8, 68, `byte`), the call returns without error two
records, one per row, with the item id, the attribute id and the value of the row, and the
`Type` of each record is the empty string, not `int8` and `byte`: the declared type is
scanned into a local variable and is not copied into the record. On every store and for every
item id, the `Type` of every record returned is the empty string. -/
theorem ListItemAttributes_leaves_Type_empty {σ : Type} (d : Driver σ) (q : Session σ)
    (itemId : Int) :
    ListItemAttributes
        (constDriver (.rows [[.int 1, .int 9, .int 100, .text "int8"],
          [.int 1, .int 8, .int 68, .text "byte"]])) (freshSession ()) 1 =
      (([⟨1, 9, "", some (.int 100)⟩, ⟨1, 8, "", some (.int 68)⟩], none),
        { db := (), issued := [⟨listItemAttributesByItem, [.int 1]⟩] }) ∧
      (ListItemAttributes d q itemId).1.1.map (fun i => i.Typ) =
        List.replicate (ListItemAttributes d q itemId).1.1.length "" := by
  refine ⟨by rfl, ?_⟩
  rw [List.eq_replicate_iff]
  refine ⟨by simp, ?_⟩
  intro t ht
  obtain ⟨i, hi, hit⟩ := List.mem_map.mp ht
  rw [← hit]
  exact ListItemAttributes_Typ_empty d q itemId i hi

/-! ### C22: an update of a pair that has no value -/

theorem map_of_no_match {α : Type} (l : List α) (p : α → Prop) [DecidablePred p] (f : α → α)
    (h : l.any (fun r => decide (p r)) = false) :
    l.map (fun r => if p r then f r else r) = l := by
  induction l with
  | nil => rfl
  | cons a rest ih =>
    simp only [List.any_cons, Bool.or_eq_false_iff, decide_eq_false_iff_not] at h
    simp only [List.map_cons, h.1, if_false, ih h.2]

/-- C22, as stated, fails: on the sample store, where item 2 has no value for the attribute 7,
`ItemAttribute.Update` of the pair (2, 7) returns without error, having issued the update,
and the store is as it was. -/
theorem Update_of_absent_pair_succeeds :
    sampleStore.values.any (fun r => r.1 = 2 ∧ r.2.1 = 7) = false ∧
      ItemAttribute.Update (.pointer (.int 8)) sqliteStore (freshSession sampleStore)
        ⟨2, 7, "", some 5⟩ =
      (none, { db := sampleStore, issued := [⟨updateItemAttribute, [.int 5, .int 2, .int 7]⟩] }) := by
  refine ⟨by rfl, by rfl⟩

/-- C22, amended: `ItemAttribute.Update` does not look at the number of rows the update
changed. On every store, once the value is bound, it issues the update and returns the error
of the store, if any, and no other; on the SQLite store, for a pair for which no value is
stored, it returns without error and leaves the store as it was. -/
theorem Update_ignores_rows_affected {σ T : Type} (kind : GoKind T) (d : Driver σ)
    (qd : Session σ) (q : Session Store) (ia : ItemAttribute T) (v : DriverValue)
    (hv : kind.bind ia.Value = .ok v)
    (habsent : q.db.values.any (fun r => r.1 = ia.ItemID ∧ r.2.1 = ia.AttributeID) = false) :
    (ItemAttribute.Update kind d qd ia).2.issued =
        qd.issued ++ [⟨updateItemAttribute, [v, .int ia.ItemID, .int ia.AttributeID]⟩] ∧
      (ItemAttribute.Update kind d qd ia).1 =
        (match (d.answer qd.db
            ⟨updateItemAttribute, [v, .int ia.ItemID, .int ia.AttributeID]⟩).1 with
          | .failure e => some e
          | _ => none) ∧
      (sqliteStore.answer q.db
          ⟨updateItemAttribute, [v, .int ia.ItemID, .int ia.AttributeID]⟩).1 = .done 0 ∧
      ItemAttribute.Update kind sqliteStore q ia =
        (none,
          { db := q.db
            issued := q.issued ++
              [⟨updateItemAttribute, [v, .int ia.ItemID, .int ia.AttributeID]⟩] }) := by
  have hmap := map_of_no_match q.db.values
    (fun r => r.1 = ia.ItemID ∧ r.2.1 = ia.AttributeID)
    (fun r => (r.1, r.2.1, storedValue v)) habsent
  have hfilter : (q.db.values.filter fun r => r.1 = ia.ItemID ∧ r.2.1 = ia.AttributeID) = [] := by
    rw [List.filter_eq_nil_iff]
    intro r hr
    have := List.any_eq_false.mp habsent r hr
    simpa using this
  refine ⟨?_, ?_, ?_, ?_⟩
  · simp only [ItemAttribute.Update, hv, Session.exec_issued]
  · simp only [ItemAttribute.Update, hv, Session.exec_error]
  · rw [sqliteStore_updateItemAttribute, hfilter]
    rfl
  · simp only [ItemAttribute.Update, hv, Session.exec_eq, sqliteStore_updateItemAttribute,
      hmap]

/-- C22, amended, at the sample store and the pair (2, 7). -/
theorem Update_ignores_rows_affected_witness :
    (sqliteStore.answer sampleStore ⟨updateItemAttribute, [.int 5, .int 2, .int 7]⟩).1 =
        .done 0 ∧
      (ItemAttribute.Update (.pointer (.int 8)) sqliteStore (freshSession sampleStore)
        ⟨2, 7, "", some 5⟩).1 = none :=
  have h := Update_ignores_rows_affected (.pointer (.int 8)) sqliteStore
    (freshSession sampleStore) (freshSession sampleStore) ⟨2, 7, "", some 5⟩ (.int 5)
    (by rfl) (by rfl)
  ⟨h.2.2.1, by rw [h.2.2.2]⟩

/-! ### C23: the statements of the three attribute updates -/

/-- C23: `UpdateAttributeName`, `UpdateAttributeSlug` and `UpdateAttributeType` execute the
texts `UPDATE entities SET name`, `UPDATE entities SET slug` and again `UPDATE entities SET
slug`, which are the texts `UpdateEntityName` and `UpdateEntitySlug` execute and not the
texts declared for the attributes. On the registry with the entities 7 and 8 and the
attributes 7 and 9, each of the three calls for the id 7 leaves the attributes as they were
and changes the row of the entity 7: its name becomes the new attribute name, its slug the
new attribute slug, its slug the new type. -/
theorem UpdateAttribute_executes_entity_statements :
    (∀ (d : Driver Registry) (q : Session Registry) (text : String) (id : Int),
        UpdateAttributeName d q text id = UpdateEntityName d q text id ∧
        UpdateAttributeSlug d q text id = UpdateEntitySlug d q text id ∧
        UpdateAttributeType d q text id = UpdateEntitySlug d q text id) ∧
      updateEntityName = "\nUPDATE entities SET name = ? WHERE id = ?;\n" ∧
      updateEntitySlug = "\nUPDATE entities SET slug = ? WHERE id = ?;\n" ∧
      updateEntityName ≠ updateAttributeName ∧ updateEntitySlug ≠ updateAttributeSlug ∧
      updateEntitySlug ≠ updateAttributeType ∧
      UpdateAttributeName registryStore (freshSession sampleRegistry) "Published" 7 =
        (none,
          { db := { sampleRegistry with
                    entities := [(7, "Published", "book"), (8, "Film", "film")] }
            issued := [⟨updateEntityName, [.text "Published", .int 7]⟩] }) ∧
      UpdateAttributeSlug registryStore (freshSession sampleRegistry) "published" 7 =
        (none,
          { db := { sampleRegistry with
                    entities := [(7, "Book", "published"), (8, "Film", "film")] }
            issued := [⟨updateEntitySlug, [.text "published", .int 7]⟩] }) ∧
      UpdateAttributeType registryStore (freshSession sampleRegistry) "datetime" 7 =
        (none,
          { db := { sampleRegistry with
                    entities := [(7, "Book", "datetime"), (8, "Film", "film")] }
            issued := [⟨updateEntitySlug, [.text "datetime", .int 7]⟩] }) := by
  refine ⟨fun _ _ _ _ => ⟨rfl, rfl, rfl⟩, by rfl, by rfl, by decide, by decide, by decide,
    by rfl, by rfl, by rfl⟩

/-! ### C24: deleting an attribute -/

theorem GetAttribute_issued {σ : Type} (k : Selectors) (j : JsonDecoder) (d : Driver σ)
    (q : Session σ) (arg : GetAttributeParam) :
    (∃ e, GetAttribute k j d q arg = ((Attribute.zero, some e), q)) ∨
      ∃ column value, (column = "attributes.id" ∨ column = "attributes.slug") ∧
        (GetAttribute k j d q arg).2.issued =
          q.issued ++ [⟨Sprintf (if arg.WithEntities then getAttributesWithEntities
            else getAttributeNoEntitie) column, [value]⟩] := by
  cases hsel : attributeSelector k arg with
  | error e =>
    left
    exact ⟨e, GetAttribute_rejected k j d q arg e hsel⟩
  | ok fv =>
    right
    obtain ⟨field, value⟩ := fv
    have hcol : field = "attributes.id" ∨ field = "attributes.slug" := by
      unfold attributeSelector at hsel
      split_ifs at hsel
      · split at hsel
        · simp only [Except.ok.injEq, Prod.mk.injEq] at hsel
          exact Or.inl hsel.1.symm
        · cases hsel
      · split at hsel
        · simp only [Except.ok.injEq, Prod.mk.injEq] at hsel
          exact Or.inr hsel.1.symm
        · cases hsel
    refine ⟨field, value, hcol, ?_⟩
    rw [GetAttribute_selected k j d q arg field value hsel]
    rfl

/-- C24: `DeleteAttribute` issues one statement, the delete of the row of the attribute, on
every store. `deleteAttributeCommand` issues at most the lookup of the attribute without
hydration, by id or by slug, and then, when the lookup returned an attribute, that one
delete. None of these texts names the relation `entity_attribute` or the relation
`item_attribute`. -/
theorem DeleteAttribute_issues_only_its_delete {σ : Type} (k : Selectors) (j : JsonDecoder)
    (d : Driver σ) (q : Session σ) (id : Int) (cmdName : String) (args : List String) :
    (DeleteAttribute d q id).2.issued = q.issued ++ [⟨deleteAttribute, [.int id]⟩] ∧
      deleteAttribute = "\nDELETE FROM attributes WHERE id = ?;\n" ∧
      (∃ added : List Stmt,
        (deleteAttributeCommand k j d q cmdName args).2.issued = q.issued ++ added ∧
        ∀ st ∈ added,
          (st.text = deleteAttribute ∨
            st.text = Sprintf getAttributeNoEntitie "attributes.id" ∨
            st.text = Sprintf getAttributeNoEntitie "attributes.slug") ∧
          mentions "entity_attribute" st.text = false ∧
          mentions "item_attribute" st.text = false) ∧
      ((deleteAttributeCommand k j d q cmdName args).1 = none →
        ∃ lookup attrID,
          (deleteAttributeCommand k j d q cmdName args).2.issued =
            q.issued ++ [lookup, ⟨deleteAttribute, [.int attrID]⟩]) := by
  have htexts : ∀ st : Stmt,
      (st.text = deleteAttribute ∨
        st.text = Sprintf getAttributeNoEntitie "attributes.id" ∨
        st.text = Sprintf getAttributeNoEntitie "attributes.slug") →
      (st.text = deleteAttribute ∨
        st.text = Sprintf getAttributeNoEntitie "attributes.id" ∨
        st.text = Sprintf getAttributeNoEntitie "attributes.slug") ∧
      mentions "entity_attribute" st.text = false ∧
      mentions "item_attribute" st.text = false := by
    intro st h
    refine ⟨h, ?_⟩
    rcases h with h | h | h <;> rw [h] <;> exact ⟨by rfl, by rfl⟩
  have hlookup : ∀ a0 : String,
      (∃ e, getAttributeByIdOrSlug k j d q a0 false = ((Attribute.zero, some e), q)) ∨
      ∃ lookup : Stmt,
        (lookup.text = Sprintf getAttributeNoEntitie "attributes.id" ∨
          lookup.text = Sprintf getAttributeNoEntitie "attributes.slug") ∧
        (getAttributeByIdOrSlug k j d q a0 false).2.issued = q.issued ++ [lookup] := by
    intro a0
    unfold getAttributeByIdOrSlug
    split
    all_goals
      rename_i h
      rcases GetAttribute_issued k j d q _ with hi | ⟨column, value, hcol, hi⟩
      · exact Or.inl hi
      · right
        refine ⟨_, ?_, hi⟩
        rcases hcol with hcol | hcol
        · left; rw [hcol]; rfl
        · right; rw [hcol]; rfl
  refine ⟨Session.exec_issued d q _, by rfl, ?_, ?_⟩
  · cases args with
    | nil => exact ⟨[], by simp [deleteAttributeCommand], by intro st hst; simp at hst⟩
    | cons a0 more =>
      simp only [deleteAttributeCommand]
      rcases hg : getAttributeByIdOrSlug k j d q a0 false with ⟨⟨attr, e⟩, q1⟩
      have hl := hlookup a0
      rw [hg] at hl
      cases e with
      | some err =>
        rcases hl with ⟨e0, hl⟩ | ⟨lookup, htext, hl⟩
        · simp only [Prod.mk.injEq] at hl
          exact ⟨[], by rw [hl.2]; simp, by intro st hst; simp at hst⟩
        · refine ⟨[lookup], hl, ?_⟩
          intro st hst
          rw [List.mem_singleton.mp hst]
          exact htexts lookup (Or.inr htext)
      | none =>
        simp only [DeleteAttribute, Session.exec_issued]
        rcases hl with ⟨e0, hl⟩ | ⟨lookup, htext, hl⟩
        · simp at hl
        · refine ⟨[lookup, ⟨deleteAttribute, [.int attr.ID]⟩], by rw [hl]; simp, ?_⟩
          intro st hst
          simp only [List.mem_cons, List.mem_singleton, List.not_mem_nil, or_false] at hst
          rcases hst with hst | hst
          · rw [hst]; exact htexts lookup (Or.inr htext)
          · rw [hst]; exact htexts _ (Or.inl rfl)
  · intro hnone
    cases args with
    | nil => simp [deleteAttributeCommand] at hnone
    | cons a0 more =>
      simp only [deleteAttributeCommand] at hnone ⊢
      rcases hg : getAttributeByIdOrSlug k j d q a0 false with ⟨⟨attr, e⟩, q1⟩
      rw [hg] at hnone
      have hl := hlookup a0
      rw [hg] at hl
      cases e with
      | some err => simp at hnone
      | none =>
        simp only [DeleteAttribute, Session.exec_issued]
        rcases hl with ⟨e0, hl⟩ | ⟨lookup, _, hl⟩
        · simp at hl
        · exact ⟨lookup, attr.ID, by rw [hl]; simp⟩

/-- C24 at a store that returns the row of the attribute 7 to the lookup and accepts the
delete: `attribute delete released` returns without error and has issued the lookup by slug
and the delete of the attribute 7, nothing else. -/
theorem DeleteAttribute_issues_only_its_delete_witness :
    (deleteAttributeCommand sampleSelectors flatDecoder scriptDriver
        (freshSession [.rows [[.int 7, .text "Released", .text "released", .text "date", .null]],
          .done 1]) "delete" ["released"]).1 = none ∧
      (∃ lookup attrID,
        (deleteAttributeCommand sampleSelectors flatDecoder scriptDriver
          (freshSession [.rows [[.int 7, .text "Released", .text "released", .text "date", .null]],
            .done 1]) "delete" ["released"]).2.issued =
          [] ++ [lookup, ⟨deleteAttribute, [.int attrID]⟩]) ∧
      (deleteAttributeCommand sampleSelectors flatDecoder scriptDriver
        (freshSession [.rows [[.int 7, .text "Released", .text "released", .text "date", .null]],
          .done 1]) "delete" ["released"]).2.issued =
        [⟨"\nSELECT id, name, slug, type, null FROM attributes WHERE attributes.slug = ?;\n",
            [.text "released"]⟩,
          ⟨"\nDELETE FROM attributes WHERE id = ?;\n", [.int 7]⟩] :=
  ⟨by rfl,
    (DeleteAttribute_issues_only_its_delete sampleSelectors flatDecoder scriptDriver
      (freshSession [.rows [[.int 7, .text "Released", .text "released", .text "date", .null]],
        .done 1]) 7 "delete" ["released"]).2.2.2 (by rfl),
    by rfl⟩

/-! ### C25: the hydration flag of the command-line lookups -/

/-- C25: `getEntityByIdOrSlug` of a search text that is not a number asks for the opposite of
the flag it was given. With the slug `book` and the flag false the query it issues is the
query with the aggregate of the attributes, and with the flag true the query without it; with
the id `3` the flag is forwarded as it is, and `getAttributeByIdOrSlug` forwards it for a
slug too. When the store returns the row of the entity with a NULL aggregate, the entity
looked up by slug with the flag false comes back marked as loaded, and with the flag true not
marked. -/
theorem getEntityByIdOrSlug_inverts_flag_for_slug :
    (getEntityByIdOrSlug sampleSelectors flatDecoder (constDriver (.rows [])) (freshSession ())
        "book" false).2.issued =
        [⟨Sprintf getEntityWithAttributes "entities.slug", [.text "book"]⟩] ∧
      (getEntityByIdOrSlug sampleSelectors flatDecoder (constDriver (.rows [])) (freshSession ())
        "book" true).2.issued =
        [⟨Sprintf getEntityNoAttributes "entities.slug", [.text "book"]⟩] ∧
      (getEntityByIdOrSlug sampleSelectors flatDecoder (constDriver (.rows [])) (freshSession ())
        "3" false).2.issued =
        [⟨Sprintf getEntityNoAttributes "entities.id", [.int 3]⟩] ∧
      (getEntityByIdOrSlug sampleSelectors flatDecoder (constDriver (.rows [])) (freshSession ())
        "3" true).2.issued =
        [⟨Sprintf getEntityWithAttributes "entities.id", [.int 3]⟩] ∧
      (getAttributeByIdOrSlug sampleSelectors flatDecoder (constDriver (.rows []))
        (freshSession ()) "released" false).2.issued =
        [⟨Sprintf getAttributeNoEntitie "attributes.slug", [.text "released"]⟩] ∧
      (getAttributeByIdOrSlug sampleSelectors flatDecoder (constDriver (.rows []))
        (freshSession ()) "released" true).2.issued =
        [⟨Sprintf getAttributesWithEntities "attributes.slug", [.text "released"]⟩] ∧
      (getEntityByIdOrSlug sampleSelectors flatDecoder
        (constDriver (.rows [[.int 3, .text "Book", .text "book", .null]])) (freshSession ())
        "book" false).1 = (.mk 3 "Book" "book" [] true, none) ∧
      (getEntityByIdOrSlug sampleSelectors flatDecoder
        (constDriver (.rows [[.int 3, .text "Book", .text "book", .null]])) (freshSession ())
        "book" true).1 = (.mk 3 "Book" "book" [] false, none) := by
  refine ⟨by rfl, by rfl, by rfl, by rfl, by rfl, by rfl, by rfl, by rfl⟩

/-! ### C26: the integer tags of fixed width -/

theorem foldDigits_some (cs : List Char) : ∀ a : Nat, (∀ c ∈ cs, c.isDigit = true) →
    cs.foldl (fun acc c => acc.bind fun n =>
      if c.isDigit then some (n * 10 + (c.toNat - '0'.toNat)) else none) (some a) =
    some (cs.foldl (fun acc c => acc * 10 + (c.toNat - '0'.toNat)) a) := by
  induction cs with
  | nil => intro a _; rfl
  | cons c rest ih =>
    intro a h
    have hc : c.isDigit = true := h c (List.mem_cons_self _ _)
    simp only [List.foldl_cons, Option.some_bind, hc, if_true]
    exact ih _ (fun x hx => h x (List.mem_cons_of_mem _ hx))

theorem foldDigits_none (cs : List Char) :
    cs.foldl (fun acc c => acc.bind fun n =>
      if c.isDigit then some (n * 10 + (c.toNat - '0'.toNat)) else none) none = none := by
  induction cs with
  | nil => rfl
  | cons c rest ih => simpa using ih

theorem parseDigits_decimal (cs : List Char) (h : isDecimal cs) :
    parseDigits cs = some (decimalValue cs) := by
  obtain ⟨hne, hd⟩ := h
  unfold parseDigits decimalValue
  cases cs with
  | nil => exact absurd rfl hne
  | cons c rest =>
    simp only [List.isEmpty_cons, Bool.false_eq_true, if_false]
    exact foldDigits_some _ 0 hd

theorem parseDigits_minus (cs : List Char) : parseDigits ('-' :: cs) = none := by
  unfold parseDigits
  simp only [List.isEmpty_cons, Bool.false_eq_true, if_false, List.foldl_cons, Option.some_bind]
  have : ('-' : Char).isDigit = false := by decide
  simp only [this, Bool.false_eq_true, if_false]
  exact foldDigits_none cs

theorem ParseInt_decimal (cs : List Char) (w : Nat) (h : isDecimal cs) :
    ParseInt (String.mk cs) w =
      if decimalValue cs < 2 ^ ((if w = 0 then 64 else w) - 1) then some (decimalValue cs : Int)
      else none := by
  have hp := parseDigits_decimal cs h
  obtain ⟨hne, hd⟩ := h
  cases cs with
  | nil => exact absurd rfl hne
  | cons c rest =>
    have hc : c.isDigit = true := hd c (List.mem_cons_self _ _)
    have h1 : c ≠ '-' := by intro h; rw [h] at hc; exact absurd hc (by decide)
    have h2 : c ≠ '+' := by intro h; rw [h] at hc; exact absurd hc (by decide)
    unfold ParseInt
    simp only
    split
    · rename_i heq; simp only [List.cons.injEq] at heq; exact absurd heq.1 h1
    · rename_i heq; simp only [List.cons.injEq] at heq; exact absurd heq.1 h2
    · rw [hp]; rfl

theorem ParseInt_minus_decimal (cs : List Char) (w : Nat) (h : isDecimal cs) :
    ParseInt (String.mk ('-' :: cs)) w =
      if decimalValue cs ≤ 2 ^ ((if w = 0 then 64 else w) - 1) then
        some (-(decimalValue cs : Int))
      else none := by
  have hp := parseDigits_decimal cs h
  unfold ParseInt
  simp only [hp]
  rfl

theorem ParseUint_decimal (cs : List Char) (w : Nat) (h : isDecimal cs) :
    ParseUint (String.mk cs) w =
      if decimalValue cs < 2 ^ (if w = 0 then 64 else w) then some (decimalValue cs)
      else none := by
  unfold ParseUint
  simp only [parseDigits_decimal cs h]
  rfl

theorem ParseUint_minus (cs : List Char) (w : Nat) :
    ParseUint (String.mk ('-' :: cs)) w = none := by
  unfold ParseUint
  simp only [parseDigits_minus]
  rfl

theorem itemAttributeSwitch_signed {σ : Type} (parseFloat : String → Nat → Option GoFloat)
    (m : WriteMethod) (d : Driver σ) (q : Session σ) (item : Item) (attr : Attribute)
    (text : String) (w : Nat) (tag : AttributeType)
    (hw : (w, tag) ∈ [(8, Int8Type), (16, Int16Type), (32, Int32Type), (64, Int64Type)])
    (ht : attr.Typ = tag) :
    itemAttributeSwitch parseFloat m d q item attr text =
      writeItemAttribute m (.pointer (.int w)) d q item.ID attr.ID (ParseInt text w) := by
  simp only [List.mem_cons, Prod.mk.injEq, List.mem_singleton, List.not_mem_nil, or_false] at hw
  unfold itemAttributeSwitch
  rw [ht]
  rcases hw with ⟨hw, htag⟩ | ⟨hw, htag⟩ | ⟨hw, htag⟩ | ⟨hw, htag⟩ <;>
    rw [hw, htag] <;>
    simp only [BoolType, StringType, IntType, Int8Type, Int16Type, Int32Type, Int64Type,
      String.reduceEq, if_true, if_false, ↓reduceIte]

theorem itemAttributeSwitch_unsigned {σ : Type} (parseFloat : String → Nat → Option GoFloat)
    (m : WriteMethod) (d : Driver σ) (q : Session σ) (item : Item) (attr : Attribute)
    (text : String) (w : Nat) (tag : AttributeType)
    (hw : (w, tag) ∈ [(8, Uint8Type), (16, Uint16Type), (32, Uint32Type), (64, Uint64Type)])
    (ht : attr.Typ = tag) :
    itemAttributeSwitch parseFloat m d q item attr text =
      writeItemAttribute m (.pointer (.uint w)) d q item.ID attr.ID (ParseUint text w) := by
  simp only [List.mem_cons, Prod.mk.injEq, List.mem_singleton, List.not_mem_nil, or_false] at hw
  unfold itemAttributeSwitch
  rw [ht]
  rcases hw with ⟨hw, htag⟩ | ⟨hw, htag⟩ | ⟨hw, htag⟩ | ⟨hw, htag⟩ <;>
    rw [hw, htag] <;>
    simp only [BoolType, StringType, IntType, Int8Type, Int16Type, Int32Type, Int64Type,
      UintType, Uint8Type, Uint16Type, Uint32Type, Uint64Type,
      String.reduceEq, if_true, if_false, ↓reduceIte]

theorem writeItemAttribute_high_bit {σ : Type} (m : WriteMethod) (d : Driver σ)
    (q : Session σ) (itemID attributeID : Int) (n : Nat) (h : ¬ n < 2 ^ 63) :
    writeItemAttribute m (.pointer (.uint 64)) d q itemID attributeID (some n) =
      (.returned (some (refusedHighBit m)), q) := by
  cases m <;>
    simp only [writeItemAttribute, ItemAttribute.Create, ItemAttribute.Update, GoKind.pointer,
      ElemKind.uint, h, if_false, if_true, refusedHighBit]

theorem uint_bind_wrapped (n : Nat) (h63 : ¬ n < 2 ^ 63) (h64 : n < 2 ^ 64) :
    (GoKind.pointer (ElemKind.uint 0)).bind (some n) = .ok (.int ((n : Int) - 2 ^ 64)) := by
  have hmod : n % 2 ^ 64 = n := Nat.mod_eq_of_lt h64
  simp only [GoKind.pointer, ElemKind.uint, hmod, h63, if_false]
  rfl

theorem itemAttributeSwitch_uint {σ : Type} (parseFloat : String → Nat → Option GoFloat)
    (m : WriteMethod) (d : Driver σ) (q : Session σ) (item : Item) (attr : Attribute)
    (text : String) (ht : attr.Typ = UintType) :
    itemAttributeSwitch parseFloat m d q item attr text =
      writeItemAttribute m (.pointer (.uint 0)) d q item.ID attr.ID (ParseUint text 0) := by
  unfold itemAttributeSwitch
  rw [ht]
  simp only [BoolType, StringType, IntType, Int8Type, Int16Type, Int32Type, Int64Type,
    UintType, String.reduceEq, if_true, if_false, ↓reduceIte]

/-- C26, as stated, fails for the tag `uint64`: the text `9223372036854775808` denotes 2^63,
which lies in the range of `uint64`, and `item add 2 views 9223372036854775808`, for the
attribute `views` of the tag `uint64`, returns an error and stores nothing: the number is
parsed, and the conversion of the third argument refuses a `uint64` whose high bit is set. -/
theorem high_uint64_is_not_stored :
    isDecimal "9223372036854775808".data ∧
      decimalValue "9223372036854775808".data = 2 ^ 63 ∧
      ParseUint "9223372036854775808" 64 = some (2 ^ 63) ∧
      itemAddAttributeCommand sampleSelectors flatDecoder sampleParseFloat sqliteStore
        (freshSession sampleStoreWithCounter) "add" ["2", "views", "9223372036854775808"] =
      (.returned (some (.wrapped "failed to create item_attribute record: "
          (.wrapped "sql: converting argument $3 type: "
            (.new "uint64 values with high bit set are not supported")))),
        { db := sampleStoreWithCounter
          issued := [⟨getItem, [.int 2]⟩,
            ⟨Sprintf getAttributeNoEntitie "attributes.slug", [.text "views"]⟩] }) := by
  refine ⟨by decide, by rfl, by rfl, by rfl⟩

/-- C26, amended: for a run of digits `cs` denoting the number `v`, the switch of
`itemAddAttributeCommand` and of `itemSetAttributeCommand` executes the insert (the update) of
the pair with this value. Under a signed tag of `w` bits: `v` for the text `cs` when
`v < 2^(w-1)` and NULL otherwise, `-v` for the text `-cs` when `v ≤ 2^(w-1)` and NULL
otherwise. Under `uint8`, `uint16` and `uint32`: `v` for the text `cs` when `v < 2^w` and
NULL otherwise, NULL for the text `-cs`. Under `uint64`: `v` when `v < 2^63`, NULL when
`2^64 ≤ v` and for the text `-cs`; when `2^63 ≤ v < 2^64` nothing is executed and the error
of the conversion of the argument is returned wrapped. Under these eight tags the value of a
statement is never a number other than the one the text denotes. Under the tag `uint`, which
is not of a fixed width, the value is `v` when `v < 2^63`, the wrapped number `v - 2^64` when
`2^63 ≤ v < 2^64`, and NULL when `2^64 ≤ v`. -/
theorem integer_text_is_stored_or_missing {σ : Type}
    (parseFloat : String → Nat → Option GoFloat) (m : WriteMethod) (d : Driver σ)
    (q : Session σ) (item : Item) (attr : Attribute) (cs : List Char) (w : Nat)
    (tag : AttributeType) (hcs : isDecimal cs) (ht : attr.Typ = tag) :
    ((w, tag) ∈ [(8, Int8Type), (16, Int16Type), (32, Int32Type), (64, Int64Type)] →
        itemAttributeSwitch parseFloat m d q item attr (String.mk cs) =
          writeBound m d q item.ID attr.ID
            (if decimalValue cs < 2 ^ (w - 1) then .int (decimalValue cs) else .null) ∧
        itemAttributeSwitch parseFloat m d q item attr (String.mk ('-' :: cs)) =
          writeBound m d q item.ID attr.ID
            (if decimalValue cs ≤ 2 ^ (w - 1) then .int (-(decimalValue cs : Int))
              else .null)) ∧
      ((w, tag) ∈ [(8, Uint8Type), (16, Uint16Type), (32, Uint32Type)] →
        itemAttributeSwitch parseFloat m d q item attr (String.mk cs) =
          writeBound m d q item.ID attr.ID
            (if decimalValue cs < 2 ^ w then .int (decimalValue cs) else .null) ∧
        itemAttributeSwitch parseFloat m d q item attr (String.mk ('-' :: cs)) =
          writeBound m d q item.ID attr.ID .null) ∧
      (tag = Uint64Type →
        itemAttributeSwitch parseFloat m d q item attr (String.mk cs) =
          (if decimalValue cs < 2 ^ 63 then
            writeBound m d q item.ID attr.ID (.int (decimalValue cs))
          else if decimalValue cs < 2 ^ 64 then (.returned (some (refusedHighBit m)), q)
          else writeBound m d q item.ID attr.ID .null) ∧
        itemAttributeSwitch parseFloat m d q item attr (String.mk ('-' :: cs)) =
          writeBound m d q item.ID attr.ID .null) ∧
      (tag = UintType →
        itemAttributeSwitch parseFloat m d q item attr (String.mk cs) =
          writeBound m d q item.ID attr.ID
            (if decimalValue cs < 2 ^ 63 then .int (decimalValue cs)
              else if decimalValue cs < 2 ^ 64 then .int ((decimalValue cs : Int) - 2 ^ 64)
              else .null)) := by
  refine ⟨?_, ?_, ?_, ?_⟩
  · intro hw
    have hpos : w ≠ 0 := by
      simp only [List.mem_cons, Prod.mk.injEq, List.mem_singleton, List.not_mem_nil,
        or_false] at hw
      omega
    rw [itemAttributeSwitch_signed parseFloat m d q item attr _ w tag hw ht,
      itemAttributeSwitch_signed parseFloat m d q item attr _ w tag hw ht,
      ParseInt_decimal cs w hcs, ParseInt_minus_decimal cs w hcs]
    simp only [hpos, if_false]
    constructor <;> split_ifs <;> exact writeItemAttribute_bound _ _ _ _ _ _ _ _ rfl
  · intro hw
    have hw4 : (w, tag) ∈
        [(8, Uint8Type), (16, Uint16Type), (32, Uint32Type), (64, Uint64Type)] := by
      simp only [List.mem_cons, Prod.mk.injEq, List.mem_singleton, List.not_mem_nil,
        or_false] at hw ⊢
      tauto
    have hle : w ≠ 0 ∧ w ≤ 32 := by
      simp only [List.mem_cons, Prod.mk.injEq, List.mem_singleton, List.not_mem_nil,
        or_false] at hw
      omega
    rw [itemAttributeSwitch_unsigned parseFloat m d q item attr _ w tag hw4 ht,
      itemAttributeSwitch_unsigned parseFloat m d q item attr _ w tag hw4 ht,
      ParseUint_decimal cs w hcs, ParseUint_minus cs w]
    simp only [hle.1, if_false]
    constructor
    · split_ifs with hv
      · apply writeItemAttribute_bound
        have h32 : 2 ^ w ≤ 2 ^ 32 := Nat.pow_le_pow_right (by decide) hle.2
        have h63 : decimalValue cs < 2 ^ 63 := by
          have : (2 : Nat) ^ 32 < 2 ^ 63 := by decide
          omega
        exact uint_bind_small w _ (by omega) h63
      · exact writeItemAttribute_bound _ _ _ _ _ _ _ _ rfl
    · exact writeItemAttribute_bound _ _ _ _ _ _ _ _ rfl
  · intro htag
    have hw4 : (64, tag) ∈
        [(8, Uint8Type), (16, Uint16Type), (32, Uint32Type), (64, Uint64Type)] := by
      rw [htag]
      simp
    rw [itemAttributeSwitch_unsigned parseFloat m d q item attr _ 64 tag hw4 ht,
      itemAttributeSwitch_unsigned parseFloat m d q item attr _ 64 tag hw4 ht,
      ParseUint_decimal cs 64 hcs, ParseUint_minus cs 64]
    constructor
    · by_cases h63 : decimalValue cs < 2 ^ 63
      · have h64 : decimalValue cs < 2 ^ 64 := by
          have : (2 : Nat) ^ 63 < 2 ^ 64 := by decide
          omega
        simp only [h63, if_true]
        rw [if_pos (by simpa using h64)]
        apply writeItemAttribute_bound
        simp only [GoKind.pointer, ElemKind.uint, if_true, h63]
      · by_cases h64 : decimalValue cs < 2 ^ 64
        · simp only [h63, h64, if_false, if_true]
          rw [if_pos (by simpa using h64)]
          exact writeItemAttribute_high_bit m d q item.ID attr.ID _ h63
        · simp only [h63, h64, if_false]
          rw [if_neg (by simpa using h64)]
          exact writeItemAttribute_bound _ _ _ _ _ _ _ _ rfl
    · exact writeItemAttribute_bound _ _ _ _ _ _ _ _ rfl
  · intro htag
    rw [itemAttributeSwitch_uint parseFloat m d q item attr _ (htag ▸ ht),
      ParseUint_decimal cs 0 hcs]
    simp only [if_true]
    by_cases h64 : decimalValue cs < 2 ^ 64
    · simp only [h64, if_true]
      apply writeItemAttribute_bound
      by_cases h63 : decimalValue cs < 2 ^ 63
      · simp only [h63, if_true]
        exact uint_bind_small 0 _ (by decide) h63
      · simp only [h63, if_false]
        exact uint_bind_wrapped _ h63 h64
    · have h63 : ¬ decimalValue cs < 2 ^ 63 := by
        have : (2 : Nat) ^ 63 < 2 ^ 64 := by decide
        omega
      simp only [h64, h63, if_false]
      exact writeItemAttribute_bound _ _ _ _ _ _ _ _ rfl

/-- C26, amended, at the attribute `pages` of the tag `int8` on the sample store: the texts
`128` and `-128` denote 128 and its opposite; `item set 1 pages 128` leaves the value of the
pair (1, 9) NULL, `item set 1 pages -128` leaves -128 and `item set 1 pages 127` leaves
127. -/
theorem integer_text_is_stored_or_missing_witness :
    isDecimal "128".data ∧ decimalValue "128".data = 128 ∧
      (itemAttributeSwitch sampleParseFloat .update sqliteStore (freshSession sampleStore)
          ⟨1, 1⟩ (.mk 9 "Pages" "pages" "int8" [] false) (String.mk "128".data) =
        writeBound .update sqliteStore (freshSession sampleStore) 1 9
          (if decimalValue "128".data < 2 ^ (8 - 1) then .int (decimalValue "128".data)
            else .null) ∧
        itemAttributeSwitch sampleParseFloat .update sqliteStore (freshSession sampleStore)
          ⟨1, 1⟩ (.mk 9 "Pages" "pages" "int8" [] false) (String.mk ('-' :: "128".data)) =
        writeBound .update sqliteStore (freshSession sampleStore) 1 9
          (if decimalValue "128".data ≤ 2 ^ (8 - 1) then .int (-(decimalValue "128".data : Int))
            else .null)) ∧
      (itemSetAttributeCommand sampleSelectors flatDecoder sampleParseFloat sqliteStore
        (freshSession sampleStore) "set" ["1", "pages", "128"]).2.db.values =
        [(1, 9, .null), (1, 8, .int 68), (2, 9, .int 96)] ∧
      (itemSetAttributeCommand sampleSelectors flatDecoder sampleParseFloat sqliteStore
        (freshSession sampleStore) "set" ["1", "pages", "-128"]).2.db.values =
        [(1, 9, .int (-128)), (1, 8, .int 68), (2, 9, .int 96)] ∧
      (itemSetAttributeCommand sampleSelectors flatDecoder sampleParseFloat sqliteStore
        (freshSession sampleStore) "set" ["1", "pages", "127"]).2.db.values =
        [(1, 9, .int 127), (1, 8, .int 68), (2, 9, .int 96)] :=
  ⟨by decide, by rfl,
    (integer_text_is_stored_or_missing sampleParseFloat .update sqliteStore
      (freshSession sampleStore) ⟨1, 1⟩ (.mk 9 "Pages" "pages" "int8" [] false) "128".data 8
      Int8Type (by decide) rfl).1 (List.mem_cons_self _ _),
    by rfl, by rfl, by rfl⟩

/-! ### C27: a lazy load that fails -/

/-- C28: on a text the decoder accepts with the entries `parsed`, `parseAttributesJson`
returns no error and a collection of the length of `parsed`; the record at the index of an
entry is the entry decoded (its id, name, slug and type, required when `required > 0`) when
the type tag of the entry is valid, and the zero record (id 0, empty name, slug and type, not
required) when it is not. -/
theorem parse_keeps_every_index (j : JsonDecoder) (text : String)
    (parsed : List parsedAttribute) (h : j.attributes text = .ok parsed) :
    (parseAttributesJson j text).2 = none ∧
      (parseAttributesJson j text).1.length = parsed.length ∧
      ∀ (n : Nat) (p : parsedAttribute), parsed[n]? = some p →
        (ValidAttributeType p.Typ = true →
          (parseAttributesJson j text).1[n]? =
            some (.mk (.mk p.ID p.Name p.Slug p.Typ [] false) (decide (p.Required > 0)))) ∧
        (ValidAttributeType p.Typ = false →
          (parseAttributesJson j text).1[n]? = some (.mk (.mk 0 "" "" "" [] false) false)) := by
  rw [parseAttributesJson_of_decoded j text parsed h]
  refine ⟨rfl, by simp, ?_⟩
  intro n p hp
  simp only [List.getElem?_map, hp, Option.map_some']
  constructor
  · intro hv
    simp only [hv, if_true, parsedAttribute.embed]
  · intro hv
    simp only [hv, Bool.false_eq_true, if_false]
    rfl

/-- C28 at the sample aggregate, whose entry at index 1 carries the tag `varchar`: two
records, the second the zero record. -/
theorem parse_keeps_every_index_witness :
    flatDecoder.attributes sampleAttributesAggregate =
        .ok [⟨7, "Title", "title", "string", 1⟩, ⟨8, "Pages", "pages", "varchar", 0⟩] ∧
      (parseAttributesJson flatDecoder sampleAttributesAggregate).1.length = 2 ∧
      (parseAttributesJson flatDecoder sampleAttributesAggregate).1[1]? =
        some (.mk (.mk 0 "" "" "" [] false) false) :=
  have h := parse_keeps_every_index flatDecoder sampleAttributesAggregate
    [⟨7, "Title", "title", "string", 1⟩, ⟨8, "Pages", "pages", "varchar", 0⟩] (by rfl)
  ⟨by rfl, h.2.1, (h.2.2 1 ⟨8, "Pages", "pages", "varchar", 0⟩ rfl).2 (by decide)⟩

/-! ### C29: the in-memory item when a change of entity fails -/

/-- C29: the item `ChangeEntityID` leaves in memory is the item it was given whenever an error
is returned, and carries the new entity id when no error is returned; no error is returned
exactly when the store fails neither the update of the item row nor, after it, the delete of
the values. -/
theorem ChangeEntityID_assigns_after_success {σ : Type} (d : Driver σ) (q : Session σ)
    (i : Item) (entityId : Int) :
    (∀ err, (i.ChangeEntityID d q entityId).1.2 = some err →
        (i.ChangeEntityID d q entityId).1.1 = i) ∧
      ((i.ChangeEntityID d q entityId).1.2 = none →
        (i.ChangeEntityID d q entityId).1.1 = ⟨i.ID, entityId⟩) ∧
      ((i.ChangeEntityID d q entityId).1.2 = none ↔
        (∀ e, (d.answer q.db ⟨updateItemEntityID, [.int entityId, .int i.ID]⟩).1 ≠
            .failure e) ∧
          ∀ e, (d.answer (d.answer q.db ⟨updateItemEntityID, [.int entityId, .int i.ID]⟩).2
            ⟨deleteItemAttributesByItem, [.int i.ID]⟩).1 ≠ .failure e) := by
  simp only [Item.ChangeEntityID, UpdateItemEntityID, DeleteItemAttributesByItem,
    Session.exec_eq]
  cases h1 : (d.answer q.db ⟨updateItemEntityID, [.int entityId, .int i.ID]⟩).1 <;>
    cases h2 : (d.answer (d.answer q.db ⟨updateItemEntityID, [.int entityId, .int i.ID]⟩).2
      ⟨deleteItemAttributesByItem, [.int i.ID]⟩).1 <;>
    simp [h1, h2]

/-- C29 at the sample store with a failing purge: the call returns the error and the item in
memory still carries the entity 1, though the stored row was re-pointed. -/
theorem ChangeEntityID_assigns_after_success_witness :
    ((⟨1, 1⟩ : Item).ChangeEntityID
        (failingOn deleteItemAttributesByItem (.storage "disk I/O error") sqliteStore)
        (freshSession sampleStore) 5).1.2 = some (.storage "disk I/O error") ∧
      ((⟨1, 1⟩ : Item).ChangeEntityID
        (failingOn deleteItemAttributesByItem (.storage "disk I/O error") sqliteStore)
        (freshSession sampleStore) 5).1.1 = ⟨1, 1⟩ :=
  ⟨by rfl,
    (ChangeEntityID_assigns_after_success
      (failingOn deleteItemAttributesByItem (.storage "disk I/O error") sqliteStore)
      (freshSession sampleStore) ⟨1, 1⟩ 5).1 (.storage "disk I/O error") (by rfl)⟩

/-! ### C30: saving an entity -/

theorem saveAttributesLoop_ok {σ : Type} (d : Driver σ) (embeds : List EntityAttributeEmbed) :
    ∀ (q q2 : Session σ) (stored0 stored : List Attribute),
      saveAttributesLoop d q embeds stored0 = ((stored, none), q2) →
        q2.issued = q.issued ++
          (embeds.filter fun embed => embed.Attribute.ID = 0).map createAttributeStmt ∧
        ∃ added : List Attribute, stored = stored0 ++ added ∧ added.length = embeds.length ∧
          ∀ (n : Nat) (embed : EntityAttributeEmbed), embeds[n]? = some embed →
            embed.Attribute.ID ≠ 0 → added[n]? = some embed.Attribute := by
  induction embeds with
  | nil =>
    intro q q2 stored0 stored h
    simp only [saveAttributesLoop, Prod.mk.injEq, and_true] at h
    refine ⟨by rw [h.2]; simp, [], by rw [h.1]; simp, rfl, ?_⟩
    intro n embed hn
    simp at hn
  | cons embed rest ih =>
    intro q q2 stored0 stored h
    unfold saveAttributesLoop at h
    by_cases hid : embed.Attribute.ID = 0
    · simp only [hid, if_true] at h
      have hs := CreateAttribute_session d q
        ⟨embed.Attribute.Name, embed.Attribute.Slug, embed.Attribute.Typ⟩
      split at h
      · simp at h
      · next x storedAttribute q1 heq =>
        rw [heq] at hs
        obtain ⟨hiss, added, hst, hlen, hkeep⟩ := ih q1 q2 _ stored h
        refine ⟨?_, storedAttribute :: added, by rw [hst]; simp, by simp [hlen], ?_⟩
        · rw [hiss, show q1 = _ from hs, Session.send_issued]
          simp [hid, createAttributeStmt]
        · intro n e0 hn hne
          cases n with
          | zero =>
            simp only [List.getElem?_cons_zero, Option.some.injEq] at hn
            rw [← hn] at hne
            exact absurd hid hne
          | succ n =>
            simp only [List.getElem?_cons_succ] at hn ⊢
            exact hkeep n e0 hn hne
    · simp only [hid, if_false] at h
      obtain ⟨hiss, added, hst, hlen, hkeep⟩ := ih q q2 _ stored h
      refine ⟨?_, embed.Attribute :: added, by rw [hst]; simp, by simp [hlen], ?_⟩
      · rw [hiss]
        simp [hid]
      · intro n e0 hn hne
        cases n with
        | zero =>
          simp only [List.getElem?_cons_zero, Option.some.injEq] at hn ⊢
          rw [hn]
        | succ n =>
          simp only [List.getElem?_cons_succ] at hn ⊢
          exact hkeep n e0 hn hne

theorem saveMappingsLoop_ok {σ : Type} (d : Driver σ) (entityID : Int)
    (stored : List Attribute) :
    ∀ (originals : List EntityAttributeEmbed) (q q3 : Session σ)
      (mapped0 mapped : List EntityAttributeEmbed),
      stored.length = originals.length →
      saveMappingsLoop d entityID q stored originals mapped0 = ((mapped, none), q3) →
        q3.issued = q.issued ++ List.zipWith (createLinkStmt entityID) stored originals ∧
        (createdLinks d entityID q stored originals).length = stored.length ∧
        mapped = mapped0 ++
          List.zipWith (fun attr link => EntityAttributeEmbed.mk attr link.Required) stored
            (createdLinks d entityID q stored originals) := by
  induction stored with
  | nil =>
    intro originals q q3 mapped0 mapped _ h
    simp only [saveMappingsLoop, Prod.mk.injEq, and_true] at h
    refine ⟨by rw [h.2]; simp, by simp [createdLinks], by rw [h.1]; simp [createdLinks]⟩
  | cons attr rest ih =>
    intro originals q q3 mapped0 mapped hlen h
    cases originals with
    | nil => simp at hlen
    | cons original originals =>
      simp only [List.length_cons, Nat.add_right_cancel_iff] at hlen
      have hs := CreateEntityAttribute_session d q ⟨entityID, attr.ID, original.Required⟩
      unfold saveMappingsLoop at h
      unfold createdLinks
      split at h
      · simp at h
      · next x mapping q1 heq =>
        rw [heq] at hs
        obtain ⟨hiss, hl, hm⟩ := ih originals q1 q3 _ mapped hlen h
        refine ⟨?_, by simp [hl], ?_⟩
        · rw [hiss, show q1 = _ from hs, Session.send_issued]
          simp [createLinkStmt]
        · rw [hm]
          simp

/-- C30: `Entity.Save` of an entity whose ID is not 0 returns the error "Entity has already
been saved" and leaves the session as it was. When `Save` of an entity whose ID is 0 returns
without error: the saved entity has the id of the row the store returned to the insert of the
entity, and its name and slug; after that insert the statements issued are one insert of an
attribute for each attribute whose ID was 0, in order, and then one insert of a link for each
attribute, in order, with the id of the entity, the id of the stored attribute and the
required flag of the original; an attribute whose ID was not 0 is stored as it was; and the
attribute at each index of the saved entity is the stored attribute at that index with the
required flag of the link the store returned at that index. -/
theorem Save_creates_missing_and_links {σ : Type} (d : Driver σ) (q : Session σ)
    (e : Entity) :
    (e.ID ≠ 0 → e.Save d q = ((e, some (.new "Entity has already been saved")), q)) ∧
      (e.ID = 0 → ∀ (saved : Entity) (q3 : Session σ), e.Save d q = ((saved, none), q3) →
        saved.ID = (CreateEntity d q ⟨e.Name, e.Slug⟩).1.1.ID ∧
        saved.Name = e.Name ∧ saved.Slug = e.Slug ∧
        ∃ stored : List Attribute, stored.length = e.attributes.length ∧
          (∀ (n : Nat) (embed : EntityAttributeEmbed), e.attributes[n]? = some embed →
            embed.Attribute.ID ≠ 0 → stored[n]? = some embed.Attribute) ∧
          q3.issued = q.issued ++ ⟨createEntity, [.text e.Name, .text e.Slug]⟩ ::
            ((e.attributes.filter fun embed => embed.Attribute.ID = 0).map createAttributeStmt ++
              List.zipWith (createLinkStmt saved.ID) stored e.attributes) ∧
          ∃ links : List EntityAttribute, links.length = e.attributes.length ∧
            links = createdLinks d saved.ID
              (saveAttributesLoop d (CreateEntity d q ⟨e.Name, e.Slug⟩).2 e.attributes []).2
              stored e.attributes ∧
            saved.attributes =
              List.zipWith (fun attr link => EntityAttributeEmbed.mk attr link.Required)
                stored links) := by
  constructor
  · intro hid
    simp [Entity.Save, hid]
  · intro hid saved q3 h
    have hset1 : ∀ x : Int, (e.setID x).attributes = e.attributes ∧ (e.setID x).ID = x := by
      intro x; cases e; exact ⟨rfl, rfl⟩
    have hset2 : ∀ (x : Int) (l : List EntityAttributeEmbed),
        ((e.setID x).setAttributes l).ID = x ∧ ((e.setID x).setAttributes l).Name = e.Name ∧
          ((e.setID x).setAttributes l).Slug = e.Slug ∧
          ((e.setID x).setAttributes l).attributes = l := by
      intro x l; cases e; exact ⟨rfl, rfl, rfl, rfl⟩
    unfold Entity.Save at h
    rw [if_neg (not_not.mpr hid)] at h
    have hcs := CreateEntity_session d q ⟨e.Name, e.Slug⟩
    rcases hc : CreateEntity d q ⟨e.Name, e.Slug⟩ with ⟨⟨entity, ce⟩, q1⟩
    rw [hc] at h hcs
    cases ce with
    | some err => simp at h
    | none =>
      simp only [(hset1 entity.ID).1, (hset1 entity.ID).2] at h
      rcases ha : saveAttributesLoop d q1 e.attributes [] with ⟨⟨stored, ae⟩, q2⟩
      rw [ha] at h
      cases ae with
      | some err => simp at h
      | none =>
        simp only at h
        obtain ⟨hiss2, added, hst, hlen, hkeep⟩ :=
          saveAttributesLoop_ok d e.attributes q1 q2 [] stored ha
        simp only [List.nil_append] at hst
        subst hst
        rcases hm : saveMappingsLoop d entity.ID q2 stored e.attributes [] with
          ⟨⟨mapped, me⟩, q4⟩
        rw [hm] at h
        cases me with
        | some err => simp at h
        | none =>
          simp only [Prod.mk.injEq, and_true] at h
          obtain ⟨hsaved, hq⟩ := h
          subst hq
          obtain ⟨hiss3, hll, hmapped⟩ :=
            saveMappingsLoop_ok d entity.ID stored e.attributes q2 q4 [] mapped hlen hm
          simp only [List.nil_append] at hmapped
          obtain ⟨h1, h2, h3, h4⟩ := hset2 entity.ID mapped
          rw [← hsaved, h1, h2, h3, h4]
          refine ⟨rfl, rfl, rfl, stored, hlen, hkeep, ?_, _, ?_, rfl, hmapped⟩
          · rw [hiss3, hiss2, show q1 = _ from hcs, Session.send_issued]
            simp
          · rw [hll, hlen]

/-- C30 at a new entity `Book` with a new required attribute `Title` and the attribute 9,
`Pages`, not required: the store assigns the id 3 to the entity and the id 12 to `Title`;
`Save` returns without error, the entity in memory has the id 3, `Title` was inserted and
`Pages` was not, two links were inserted in that order, and the two attributes carry the
flags of the links. A second `Save` of the saved entity returns the error and issues
nothing. -/
theorem Save_creates_missing_and_links_witness :
    (NewEntity "Book" "book" [WithRequiredAttribute (NewAttribute "Title" "title" "string"),
        WithAttribute (.mk 9 "Pages" "pages" "int8" [] false)]).Save scriptDriver
        (freshSession [.rows [[.int 3, .text "Book", .text "book"]],
          .rows [[.int 12, .text "Title", .text "title", .text "string"]],
          .rows [[.int 3, .int 12, .int 1]], .rows [[.int 3, .int 9, .int 0]]]) =
      ((.mk 3 "Book" "book" [.mk (.mk 12 "Title" "title" "string" [] false) true,
          .mk (.mk 9 "Pages" "pages" "int8" [] false) false] false, none),
        { db := []
          issued := [⟨createEntity, [.text "Book", .text "book"]⟩,
            ⟨createAttribute, [.text "Title", .text "title", .text "string"]⟩,
            ⟨createEntityAttribute, [.int 3, .int 12, .bool true]⟩,
            ⟨createEntityAttribute, [.int 3, .int 9, .bool false]⟩] }) ∧
      (Entity.mk 3 "Book" "book" [] false).ID =
        (CreateEntity scriptDriver
          (freshSession [.rows [[.int 3, .text "Book", .text "book"]],
            .rows [[.int 12, .text "Title", .text "title", .text "string"]],
            .rows [[.int 3, .int 12, .int 1]], .rows [[.int 3, .int 9, .int 0]]])
          ⟨"Book", "book"⟩).1.1.ID ∧
      (Entity.mk 3 "Book" "book" [] false).Save scriptDriver (freshSession []) =
        ((.mk 3 "Book" "book" [] false, some (.new "Entity has already been saved")),
          freshSession []) :=
  ⟨by rfl,
    ((Save_creates_missing_and_links scriptDriver
      (freshSession [.rows [[.int 3, .text "Book", .text "book"]],
        .rows [[.int 12, .text "Title", .text "title", .text "string"]],
        .rows [[.int 3, .int 12, .int 1]], .rows [[.int 3, .int 9, .int 0]]])
      (NewEntity "Book" "book" [WithRequiredAttribute (NewAttribute "Title" "title" "string"),
        WithAttribute (.mk 9 "Pages" "pages" "int8" [] false)])).2 (by rfl)
      (.mk 3 "Book" "book" [.mk (.mk 12 "Title" "title" "string" [] false) true,
        .mk (.mk 9 "Pages" "pages" "int8" [] false) false] false)
      { db := []
        issued := [⟨createEntity, [.text "Book", .text "book"]⟩,
          ⟨createAttribute, [.text "Title", .text "title", .text "string"]⟩,
          ⟨createEntityAttribute, [.int 3, .int 12, .bool true]⟩,
          ⟨createEntityAttribute, [.int 3, .int 9, .bool false]⟩] } (by rfl)).1,
    (Save_creates_missing_and_links scriptDriver (freshSession [])
      (.mk 3 "Book" "book" [] false)).1 (by decide)⟩

/-! ### C3 and C7: the eager queries on a parent without links -/

/-- C3: on the registry with the entities 7 and 8 and the attributes 7 and 9, no entity has
the id 99 or the slug `nope`. Without hydration `GetEntity` and `GetAttribute` return the zero
record with `sql.ErrNoRows`. With hydration the store answers the lookup of the entity with
one row whose columns are all NULL, and `GetEntity`, by id and by slug, returns the zero
record with the error of the scan of NULL into the id, which is not `sql.ErrNoRows`; and the
store refuses the text of the lookup of the attribute, so `GetAttribute` returns the zero
record with the error of the store. -/
theorem eager_lookup_without_match_is_another_error :
    (GetEntity sampleSelectors flatDecoder unlinkedStore (freshSession sampleRegistry)
        ⟨false, sampleSelectors.ByID, .int64 99⟩).1 = (Entity.zero, some .sqlErrNoRows) ∧
      (GetEntity sampleSelectors flatDecoder unlinkedStore (freshSession sampleRegistry)
        ⟨false, sampleSelectors.BySlug, .string "nope"⟩).1 =
        (Entity.zero, some .sqlErrNoRows) ∧
      (GetAttribute sampleSelectors flatDecoder unlinkedStore (freshSession sampleRegistry)
        ⟨false, sampleSelectors.ByID, .int64 99⟩).1 = (Attribute.zero, some .sqlErrNoRows) ∧
      (GetAttribute sampleSelectors flatDecoder unlinkedStore (freshSession sampleRegistry)
        ⟨false, sampleSelectors.BySlug, .string "nope"⟩).1 =
        (Attribute.zero, some .sqlErrNoRows) ∧
      (unlinkedStore.answer sampleRegistry
        ⟨Sprintf getEntityWithAttributes "entities.id", [.int 99]⟩).1 =
        .rows [[.null, .null, .null, .null]] ∧
      (∃ msg, (GetEntity sampleSelectors flatDecoder unlinkedStore (freshSession sampleRegistry)
        ⟨true, sampleSelectors.ByID, .int64 99⟩).1 = (Entity.zero, some (.scan msg))) ∧
      (∃ msg, (GetEntity sampleSelectors flatDecoder unlinkedStore (freshSession sampleRegistry)
        ⟨true, sampleSelectors.BySlug, .string "nope"⟩).1 = (Entity.zero, some (.scan msg))) ∧
      (∃ msg, (GetAttribute sampleSelectors flatDecoder unlinkedStore
        (freshSession sampleRegistry) ⟨true, sampleSelectors.ByID, .int64 99⟩).1 =
        (Attribute.zero, some (.storage msg))) ∧
      (∃ msg, (GetAttribute sampleSelectors flatDecoder unlinkedStore
        (freshSession sampleRegistry) ⟨true, sampleSelectors.BySlug, .string "nope"⟩).1 =
        (Attribute.zero, some (.storage msg))) := by
  refine ⟨by rfl, by rfl, by rfl, by rfl, by rfl, ⟨_, by rfl⟩, ⟨_, by rfl⟩, ⟨_, by rfl⟩,
    ⟨_, by rfl⟩⟩

/-- C7: on the registry with the entities 7 and 8 and the attributes 7 and 9 and no link, the
entity 8 is a parent without children. The eager `GetEntity` of it gets the row whose columns
are all NULL and returns the zero entity, not marked as loaded, with the error of the scan;
the eager `ListEntities` returns no entity at all, though the list without hydration returns
the two; the eager `GetAttribute` and `ListAttributes` return the error of the store, which
refuses their text. The lazy path does what the claim says: the entity 8 looked up without
hydration, then `GetAttributes`, is marked as loaded with an empty collection and no
error. -/
theorem childless_parent_on_the_eager_path :
    (∃ msg, (GetEntity sampleSelectors flatDecoder unlinkedStore (freshSession sampleRegistry)
        ⟨true, sampleSelectors.ByID, .int64 8⟩).1 = (Entity.zero, some (.scan msg))) ∧
      Entity.zero.loadedAttributes = false ∧
      (ListEntities flatDecoder unlinkedStore (freshSession sampleRegistry) true).1 =
        ([], none) ∧
      (ListEntities flatDecoder unlinkedStore (freshSession sampleRegistry) false).1 =
        ([.mk 7 "Book" "book" [] false, .mk 8 "Film" "film" [] false], none) ∧
      (∃ msg, (GetAttribute sampleSelectors flatDecoder unlinkedStore
        (freshSession sampleRegistry) ⟨true, sampleSelectors.ByID, .int64 7⟩).1 =
        (Attribute.zero, some (.storage msg))) ∧
      (∃ msg, (ListAttributes flatDecoder unlinkedStore (freshSession sampleRegistry) true).1 =
        ([], some (.storage msg))) ∧
      (GetEntity sampleSelectors flatDecoder unlinkedStore (freshSession sampleRegistry)
        ⟨false, sampleSelectors.ByID, .int64 8⟩).1 = (.mk 8 "Film" "film" [] false, none) ∧
      (Entity.GetAttributes flatDecoder unlinkedStore (freshSession sampleRegistry)
        (.mk 8 "Film" "film" [] false)).1 = (.mk 8 "Film" "film" [] true, [], none) := by
  refine ⟨⟨_, by rfl⟩, by rfl, by rfl, by rfl, ⟨_, by rfl⟩, ⟨_, by rfl⟩, by rfl, by rfl⟩

end Geaves
